import Mathlib

/-!
# WebAppWayland / WebAppWaylandWindow

A shallow embedding of `src/platform/WebAppWayland.cpp` and
`src/platform/WebAppWaylandWindow.cpp`.

The web app, its window and its page refer to each other, so they are kept in
one record, `State`.  Calls that leave the two source files (the windowing
toolkit's `WebAppWindowBase`, the page object, the `WebAppBase` base class) are
appended to `State.calls` in the order in which the code makes them.
-/

namespace Wam

/-! ## JSON documents (QtCore) -/

/-- A `QJsonValue`.  Numbers are doubles, carried by their exact value. -/
inductive QJsonValue where
  | null
  | bool (b : Bool)
  | double (d : ℚ)
  | string (s : String)
  | array (a : List QJsonValue)
  | object (o : List (String × QJsonValue))

/-- A `QJsonDocument`: invalid, an array or an object. -/
inductive QJsonDocument where
  | null
  | array (a : List QJsonValue)
  | object (o : List (String × QJsonValue))

/-- `QJsonDocument::isArray`. -/
def QJsonDocument.isArray : QJsonDocument → Bool
  | .array _ => true
  | _ => false

/-- `QJsonDocument::array`: the array, or an empty array for any other document. -/
def QJsonDocument.toArray : QJsonDocument → List QJsonValue
  | .array a => a
  | _ => []

/-- `QJsonValue::toString`: the string, or a null string for any other value. -/
def QJsonValue.toQString : QJsonValue → String
  | .string s => s
  | _ => ""

/-- `QJsonValue::toObject().toVariantMap()`: the members of an object, no
members for any other value. -/
def QJsonValue.toVariantMap : QJsonValue → List (String × QJsonValue)
  | .object o => o
  | _ => []

/-- `QJsonArray::operator[]`: the element at `i`, `Undefined` (here `null`, which
converts the same way) past the end. -/
def jsonAt (a : List QJsonValue) (i : Nat) : QJsonValue :=
  a[i]?.getD QJsonValue.null

/-! ## Key masks -/

/-- The enumerators of `webos::WebOSKeyMask` used by the key-mask table.  The
enumeration is declared in `webos/common/webos_constants.h`, outside the
sources, so its values are parameters. -/
structure WebOSKeyMask where
  KEY_MASK_HOME : Nat
  KEY_MASK_BACK : Nat
  KEY_MASK_EXIT : Nat
  KEY_MASK_LEFT : Nat
  KEY_MASK_RIGHT : Nat
  KEY_MASK_UP : Nat
  KEY_MASK_DOWN : Nat
  KEY_MASK_OK : Nat
  KEY_MASK_NUMERIC : Nat
  KEY_MASK_REMOTECOLORRED : Nat
  KEY_MASK_REMOTECOLORGREEN : Nat
  KEY_MASK_REMOTECOLORYELLOW : Nat
  KEY_MASK_REMOTECOLORBLUE : Nat
  KEY_MASK_REMOTEPROGRAMMEGROUP : Nat
  KEY_MASK_REMOTEPLAYBACKGROUP : Nat
  KEY_MASK_REMOTETELETEXTGROUP : Nat
  KEY_MASK_DEFAULT : Nat

/-- Every enumerator fits the 32-bit `unsigned int` the masks are or-ed into. -/
def WebOSKeyMask.fits32 (K : WebOSKeyMask) : Prop :=
  K.KEY_MASK_HOME < 2 ^ 32 ∧ K.KEY_MASK_BACK < 2 ^ 32 ∧ K.KEY_MASK_EXIT < 2 ^ 32 ∧
  K.KEY_MASK_LEFT < 2 ^ 32 ∧ K.KEY_MASK_RIGHT < 2 ^ 32 ∧ K.KEY_MASK_UP < 2 ^ 32 ∧
  K.KEY_MASK_DOWN < 2 ^ 32 ∧ K.KEY_MASK_OK < 2 ^ 32 ∧ K.KEY_MASK_NUMERIC < 2 ^ 32 ∧
  K.KEY_MASK_REMOTECOLORRED < 2 ^ 32 ∧ K.KEY_MASK_REMOTECOLORGREEN < 2 ^ 32 ∧
  K.KEY_MASK_REMOTECOLORYELLOW < 2 ^ 32 ∧ K.KEY_MASK_REMOTECOLORBLUE < 2 ^ 32 ∧
  K.KEY_MASK_REMOTEPROGRAMMEGROUP < 2 ^ 32 ∧ K.KEY_MASK_REMOTEPLAYBACKGROUP < 2 ^ 32 ∧
  K.KEY_MASK_REMOTETELETEXTGROUP < 2 ^ 32 ∧ K.KEY_MASK_DEFAULT < 2 ^ 32

instance (K : WebOSKeyMask) : Decidable K.fits32 := by
  unfold WebOSKeyMask.fits32; infer_instance

/-- A sample assignment of the enumerators: one bit per key, and the default
mask `0xFFFFFFF8`. -/
def sampleKeyMask : WebOSKeyMask where
  KEY_MASK_HOME := 1
  KEY_MASK_BACK := 2
  KEY_MASK_EXIT := 4
  KEY_MASK_LEFT := 8
  KEY_MASK_RIGHT := 16
  KEY_MASK_UP := 32
  KEY_MASK_DOWN := 64
  KEY_MASK_OK := 128
  KEY_MASK_NUMERIC := 256
  KEY_MASK_REMOTECOLORRED := 512
  KEY_MASK_REMOTECOLORGREEN := 1024
  KEY_MASK_REMOTECOLORYELLOW := 2048
  KEY_MASK_REMOTECOLORBLUE := 4096
  KEY_MASK_REMOTEPROGRAMMEGROUP := 8192
  KEY_MASK_REMOTEPLAYBACKGROUP := 16384
  KEY_MASK_REMOTETELETEXTGROUP := 32768
  KEY_MASK_DEFAULT := 4294967288

/-- A `QMap<QString, T>` as an association list without repeated keys. -/
abbrev QMap (T : Type) := List (String × T)

/-- `QMap::operator[](key) = value`: overwrite the entry of `key`, or add one. -/
def QMap.assign {T : Type} : QMap T → String → T → QMap T
  | [], k, v => [(k, v)]
  | (k', v') :: rest, k, v =>
    if k' = k then (k, v) :: rest else (k', v') :: QMap.assign rest k v

/-- `QMap::value(key)`: the mapped value, a default-constructed one (`dflt`) when
the key is absent. -/
def QMap.value {T : Type} (dflt : T) : QMap T → String → T
  | [], _ => dflt
  | (k', v') :: rest, k => if k = k' then v' else QMap.value dflt rest k

/-- `getKeyMaskTable`: the table as filled on first use. -/
def getKeyMaskTable (K : WebOSKeyMask) : QMap Nat :=
  let mapTable : QMap Nat := []
  let mapTable := QMap.assign mapTable "KeyMaskNone" 0
  let mapTable := QMap.assign mapTable "KeyMaskHome" K.KEY_MASK_HOME
  let mapTable := QMap.assign mapTable "KeyMaskBack" K.KEY_MASK_BACK
  let mapTable := QMap.assign mapTable "KeyMaskExit" K.KEY_MASK_EXIT
  let mapTable := QMap.assign mapTable "KeyMaskLeft" K.KEY_MASK_LEFT
  let mapTable := QMap.assign mapTable "KeyMaskRight" K.KEY_MASK_RIGHT
  let mapTable := QMap.assign mapTable "KeyMaskUp" K.KEY_MASK_UP
  let mapTable := QMap.assign mapTable "KeyMaskDown" K.KEY_MASK_DOWN
  let mapTable := QMap.assign mapTable "KeyMaskOk" K.KEY_MASK_OK
  let mapTable := QMap.assign mapTable "KeyMaskNumeric" K.KEY_MASK_NUMERIC
  let mapTable := QMap.assign mapTable "KeyMaskRed" K.KEY_MASK_REMOTECOLORRED
  let mapTable := QMap.assign mapTable "KeyMaskGreen" K.KEY_MASK_REMOTECOLORGREEN
  let mapTable := QMap.assign mapTable "KeyMaskYellow" K.KEY_MASK_REMOTECOLORYELLOW
  let mapTable := QMap.assign mapTable "KeyMaskBlue" K.KEY_MASK_REMOTECOLORBLUE
  let mapTable := QMap.assign mapTable "KeyMaskProgramme" K.KEY_MASK_REMOTEPROGRAMMEGROUP
  let mapTable := QMap.assign mapTable "KeyMaskPlayback" K.KEY_MASK_REMOTEPLAYBACKGROUP
  let mapTable := QMap.assign mapTable "KeyMaskTeletext" K.KEY_MASK_REMOTETELETEXTGROUP
  let mapTable := QMap.assign mapTable "KeyMaskDefault" K.KEY_MASK_DEFAULT
  mapTable

/-- The loop of `setKeyMask(const QJsonDocument&)`:
`for (i; i < size; i++) keyMask |= mapTable.value(jsonArray[i].toString())`,
with `keyMask` an `unsigned int`.  `todo` counts the iterations left. -/
def setKeyMaskLoop (mapTable : QMap Nat) (jsonArray : List QJsonValue) :
    Nat → Nat → Nat → Nat
  | 0, _, keyMask => keyMask
  | todo + 1, i, keyMask =>
    setKeyMaskLoop mapTable jsonArray todo (i + 1)
      ((keyMask ||| QMap.value 0 mapTable (jsonAt jsonArray i).toQString) % 2 ^ 32)

/-- The mask `setKeyMask(const QJsonDocument&)` hands to the window. -/
def keyMaskOfDocument (K : WebOSKeyMask) (jsonDoc : QJsonDocument) : Nat :=
  let mapTable := getKeyMaskTable K
  let keyMask := 0
  if jsonDoc.isArray then
    let jsonArray := jsonDoc.toArray
    setKeyMaskLoop mapTable jsonArray jsonArray.length 0 keyMask
  else
    keyMask

/-! ## Rectangles and the scale factor -/

/-- A `gfx::Rect` (a type of the graphics library, outside the sources): the four
`int`s it is built from and gives back, origin and size. -/
structure Rect where
  x : Int
  y : Int
  width : Int
  height : Int
  deriving DecidableEq, Repr

/-- A finite `float` (IEEE-754 binary32) value, `mant * 2 ^ exp`.
`m_scaleFactor` is a `float`: `attach` assigns it the smaller of two `float`
quotients. -/
structure Float32 where
  mant : Int
  exp : Int
  deriving DecidableEq, Repr

/-- The number of low bits `n` has beyond the 24 bits of a binary32 significand. -/
def excessBits : Nat → Nat → Nat
  | 0, _ => 0
  | fuel + 1, n => if n < 2 ^ 24 then 0 else excessBits fuel (n / 2) + 1

/-- The quotient `n / 2 ^ k` rounded to nearest, ties to even. -/
def roundShift (n k : Nat) : Nat :=
  let q := n / 2 ^ k
  let r := n % 2 ^ k
  if 2 * r < 2 ^ k then q
  else if 2 * r = 2 ^ k then (if q % 2 = 0 then q else q + 1)
  else q + 1

/-- The binary32 value nearest to the exact value `m * 2 ^ e` (round to nearest,
ties to even; the unit in the last place is never below `2 ^ -149`). -/
def Float32.round (m e : Int) : Float32 :=
  let n := m.natAbs
  let k := max (excessBits n n) (-149 - e).toNat
  if k = 0 then ⟨m, e⟩ else ⟨m.sign * (roundShift n k : Nat), e + (k : Nat)⟩

/-- The value `mant * 2 ^ exp` is below `2 ^ 128` in magnitude, so the `float` is
not an infinity. -/
def Float32.isFinite (f : Float32) : Bool :=
  decide (f.mant.natAbs * 2 ^ f.exp.toNat < 2 ^ (128 + (-f.exp).toNat))

/-- Conversion of a `float` to `int`: truncation toward zero, not defined when
the truncated value is outside the range of `int`. -/
def Float32.toInt (f : Float32) : Option Int :=
  let t : Int := if 0 ≤ f.exp then f.mant * 2 ^ f.exp.toNat
                 else f.mant.tdiv (2 ^ (-f.exp).toNat)
  if -(2 : Int) ^ 31 ≤ t ∧ t < (2 : Int) ^ 31 then some t else none

/-- The expression `v * m_scaleFactor` passed as an `int` argument of the
`gfx::Rect` constructor: `v` is converted to `float`, the product is a `float`
(IEEE-754, round to nearest, ties to even), and it is converted back to `int`. -/
def scaleInt (m_scaleFactor : Float32) (v : Int) : Option Int :=
  let a := Float32.round v 0
  let p := Float32.round (a.mant * m_scaleFactor.mant) (a.exp + m_scaleFactor.exp)
  if p.isFinite then p.toInt else none

/-- The `int` holding the result `z` of an addition, subtraction or negation of
`int`s (two's complement wrap-around). -/
def wrapInt32 (z : Int) : Int := (z + 2 ^ 31) % 2 ^ 32 - 2 ^ 31

/-- The value is an `int`. -/
def isInt32 (z : Int) : Prop := -(2 : Int) ^ 31 ≤ z ∧ z < (2 : Int) ^ 31

instance (z : Int) : Decidable (isInt32 z) := by unfold isInt32; infer_instance

/-! ## Enumerations, events and external calls -/

/-- The window states of `webos::NativeWindowState`; `other` stands for any
enumerator the code does not name. -/
inductive NativeWindowState where
  | NATIVE_WINDOW_DEFAULT
  | NATIVE_WINDOW_MAXIMIZED
  | NATIVE_WINDOW_MINIMIZED
  | NATIVE_WINDOW_FULLSCREEN
  | other (n : Nat)
  deriving DecidableEq, Repr

/-- The states of `WebPageBase::WebPageVisibilityState` the code sets. -/
inductive WebPageVisibilityState where
  | WebPageVisibilityStateVisible
  | WebPageVisibilityStateHidden
  | WebPageVisibilityStateLaunching
  deriving DecidableEq, Repr

/-- The preload state of `WebAppBase`: `NONE_PRELOAD`, or some preload mode. -/
inductive PreloadState where
  | NONE_PRELOAD
  | preload (mode : Nat)
  deriving DecidableEq, Repr

/-- The cursor types of `webos::CustomCursorType`. -/
inductive CustomCursorType where
  | CUSTOM_CURSOR_NOT_USE
  | CUSTOM_CURSOR_PATH
  | CUSTOM_CURSOR_BLANK
  deriving DecidableEq, Repr

/-- The hints of `webos::WebAppWindowBase::LocationHint`. -/
inductive LocationHint where
  | kUnknown
  | kNorth
  | kWest
  | kSouth
  | kEast
  | kCenter
  | kNorthWest
  | kNorthEast
  | kSouthWest
  | kSouthEast
  deriving DecidableEq, Repr

/-- The event types of `WebOSEvent` that `WebAppWaylandWindow::event` names;
`other` stands for any further type. -/
inductive WebOSEventType where
  | None
  | Close
  | WindowStateChange
  | WindowStateAboutToChange
  | Swap
  | KeyPress
  | KeyRelease
  | MouseButtonPress
  | MouseButtonRelease
  | MouseMove
  | Wheel
  | Enter
  | Leave
  | FocusIn
  | FocusOut
  | InputPanelVisible
  | other (n : Nat)
  deriving DecidableEq, Repr

/-- A `WebOSEvent` as far as the window reads it: its type, its flags, and for a
`WebOSVirtualKeyboardEvent` its visibility and its height (as the `int` the
height arrives as in `keyboardVisibilityChanged`). -/
structure WebOSEvent where
  type : WebOSEventType
  flags : Nat
  visible : Bool
  height : Int
  deriving DecidableEq, Repr

/-- The mouse event a window remembers (`m_lastMouseEvent`): type and flags. -/
structure WebOSMouseEvent where
  type : WebOSEventType
  flags : Nat
  deriving DecidableEq, Repr

/-- A `QVariant`, by the two conversions `setWindowProperty` applies to it. -/
structure QVariant where
  toBool : Bool
  toString : String
  deriving DecidableEq, Repr

/-- A call that leaves the two source files: on the toolkit window
(`webos::WebAppWindowBase`, `WebAppWindowDelegate`), on the page
(`WebPageBase`), on the base class `WebAppBase`, or on `InputManager`. -/
inductive Call where
  | InitWindow (width height : Int)
  | Resize (width height : Int)
  | SetLocationHint (hint : LocationHint)
  | SetKeyMask (keyMask : Nat)
  | SetKeyMaskValue (keyMask : Nat) (value : Bool)
  | SetInputRegion (region : List Rect)
  | SetWindowProperty (name value : String)
  | SetWindowHostState (state : NativeWindowState)
  | SetCustomCursor (type : CustomCursorType) (path : String) (hotspot_x hotspot_y : Int)
  | Show
  | Hide
  | delegateEvent (event : WebOSEvent)
  | forwardEvent (event : WebOSMouseEvent)
  | setFocus (focus : Bool)
  | setVisibilityState (state : WebPageVisibilityState)
  | suspendWebPageMedia
  | suspendWebPageAll
  | resumeWebPageAll
  | reloadDefaultPage
  | closeVkb
  | evaluateJavaScript (eventName : String)
  | setUiSize (width height : Int)
  | setActiveInstanceId
  | closeAppInternal
  | forceCloseAppInternal
  | baseShowWindow
  | baseKeyboardVisibilityChanged (visible : Bool) (height : Int)
  | InputManagerInstance
  | baseAttach
  | baseDetach
  | setObserver (observer : Bool)
  | setAdditionalContentsScale (scaleX scaleY : Float32)
  | AttachWebContents
  | RecreatedWebContents
  | setPageProperties
  | setKeepAliveWebApp (keepAlive : Bool)
  | connect (signal slot : String)
  | CreateWindowGroup (name : String) (isAnonymous : Bool) (layers : List (String × Int))
  | AttachToWindowGroup (name layer : String)
  | FocusWindowGroupOwner
  | FocusWindowGroupLayer
  | DetachWindowGroup
  | SetOpacity (opacity : Float32)
  | SetUseVirtualKeyboard (enable : Bool)
  | XInputActivate
  | XInputInvokeAction (keyCode : Int)
  | reload
  | doPendingRelaunch
  deriving DecidableEq, Repr

/-! ## The state of a web app, its window and its page -/

/-- The members of `WebAppWayland` and of its `WebAppWaylandWindow`, the parts of
the base classes, the page and the application description that the code
reads through accessors, and the log of external calls. -/
structure State where
  -- WebAppWayland
  /-- The window pointer; `none` is the null pointer. -/
  m_appWindow : Option Nat
  m_windowType : String
  m_lastSwappedTime : Int
  m_inputRegion : List Rect
  m_enableInputRegion : Bool
  m_didActivateStage : Bool
  m_isFocused : Bool
  m_vkbHeight : Int
  m_lostFocusBySetWindowProperty : Bool
  m_displayId : Int
  m_locationHint : String
  /-- `m_elapsedLaunchTimer.isRunning()`. -/
  elapsedLaunchTimerRunning : Bool
  /-- The one-shot `m_launchTimeoutTimer` is armed. -/
  launchTimeoutTimerArmed : Bool
  /-- The file-static `kLaunchFinishAssureTimeoutMs`. -/
  kLaunchFinishAssureTimeoutMs : Int
  -- WebAppBase
  m_scaleFactor : Float32
  m_preloadState : PreloadState
  m_addedToWindowMgr : Bool
  /-- The flag behind `getHiddenWindow()` / `setHiddenWindow()`. -/
  hiddenWindow : Bool
  /-- The flag behind `getCrashState()` / `setCrashState()`. -/
  crashState : Bool
  keepAlive : Bool
  forceClose : Bool
  isClosing : Bool
  isCheckLaunchTimeEnabled : Bool
  /-- The flag behind `needReload()` / `setNeedReload()`. -/
  needReload : Bool
  appId : String
  instanceId : String
  launchingAppId : String
  -- WebPageBase
  /-- `page()` is not null. -/
  hasPage : Bool
  isLoadErrorPageFinish : Bool
  canGoBack : Bool
  /-- `page()->title()`. -/
  pageTitle : String
  -- ApplicationDescription
  backHistoryAPIDisabled : Bool
  usePrerendering : Bool
  handleExitKey : Bool
  title : String
  icon : String
  windowClassValue : Int
  widthOverride : Int
  heightOverride : Int
  isTransparent : Bool
  /-- `groupWindowDesc().empty()`. -/
  groupWindowDescEmpty : Bool
  /-- `getWindowGroupInfo()`: the name of the group and whether the app owns it. -/
  windowGroupName : String
  windowGroupIsOwner : Bool
  /-- `getWindowOwnerInfo()`. -/
  windowOwnerAllowAnonymous : Bool
  windowOwnerLayers : List (String × Int)
  /-- `getWindowClientInfo().layer`. -/
  windowClientLayer : String
  /-- `keyFilterTable()`: each key with the pair it is mapped to.  The types of the
  keys and of the pairs are declared outside the sources; the values are kept as
  integers. -/
  keyFilterTable : List (Int × (Int × Int))
  -- WebAppWaylandWindow
  /-- The static `WebAppWaylandWindow::s_instance`; `none` is the null pointer. -/
  s_instance : Option Nat
  /-- The number of windows created so far; the next `new` yields this one. -/
  windowsCreated : Nat
  /-- The window's `m_webApp` is set. -/
  m_webApp : Bool
  m_cursorVisible : Bool
  m_cursorEnabled : Bool
  m_xinputActivated : Bool
  m_lastMouseEvent : WebOSMouseEvent
  -- webos::WebAppWindowBase and the environment
  /-- `GetWindowHostState()`. -/
  windowHostState : NativeWindowState
  /-- `GetWindowHostStateAboutToChange()`. -/
  windowHostStateAboutToChange : NativeWindowState
  DisplayWidth : Int
  DisplayHeight : Int
  /-- What `m_elapsedLaunchTimer.elapsed_ms()` reads. -/
  elapsed_ms : Int
  /-- `qgetenv("LAUNCH_FINISH_ASSURE_TIMEOUT").toInt()`. -/
  envLaunchFinishAssureTimeout : Int
  /-- `getEnvVar("ENABLE_CURSOR_BY_DEFAULT")`. -/
  envEnableCursorByDefault : String
  /-- `WebOSPlatform::GetInstance()->GetInputPointer()` is non-null. -/
  hasInputPointer : Bool
  /-- The external calls made so far, oldest first. -/
  calls : List Call
  deriving Repr

/-- Record an external call. -/
def State.call (s : State) (c : Call) : State :=
  { s with calls := s.calls ++ [c] }

/-- The accessor `WebAppBase::getHiddenWindow`, declared outside the sources: it
reads the hidden-window flag. -/
def getHiddenWindow (s : State) : Bool := s.hiddenWindow

/-- The accessor `WebAppBase::setHiddenWindow`, declared outside the sources: it
writes the hidden-window flag. -/
def setHiddenWindow (s : State) (hidden : Bool) : State :=
  { s with hiddenWindow := hidden }

/-- The accessor `WebAppBase::getCrashState`, declared outside the sources: it
reads the crash flag. -/
def getCrashState (s : State) : Bool := s.crashState

/-- The accessor `WebAppBase::setCrashState`, declared outside the sources: it
writes the crash flag. -/
def setCrashState (s : State) (state : Bool) : State :=
  { s with crashState := state }

/-- The accessor `WebAppWaylandWindow::cursorVisible`, declared in the header,
outside the sources: it reads `m_cursorVisible`. -/
def cursorVisible (s : State) : Bool := s.m_cursorVisible

/-- The accessor `WebAppWaylandWindow::setCursorVisible`, declared in the header,
outside the sources: it writes `m_cursorVisible`. -/
def setCursorVisible (s : State) (visible : Bool) : State :=
  { s with m_cursorVisible := visible }

/-! ## WebAppWaylandWindow, first part -/

namespace WebAppWaylandWindow

/-- The constructor `WebAppWaylandWindow()`, run for the window the app is
about to use. -/
def construct (s : State) : State :=
  { s with
    m_webApp := false
    m_cursorVisible := false
    m_xinputActivated := false
    m_lastMouseEvent := ⟨WebOSEventType.None, 0⟩
    m_cursorEnabled := decide (s.envEnableCursorByDefault = "1") }

/-- `WebAppWaylandWindow::take`: hand out the prepared window, or a new one.  `new`
does not yield a null pointer, so the branch that logs a failure is not taken. -/
def take (s : State) : Option Nat × State :=
  let s := if s.s_instance.isNone then
      { s with s_instance := some s.windowsCreated, windowsCreated := s.windowsCreated + 1 }
    else s
  let window := s.s_instance
  let s := { s with s_instance := none }
  (window, s)

/-- `WebAppWaylandWindow::createWindow`; `new` does not yield a null pointer. -/
def createWindow (s : State) : Option Nat × State :=
  let window := some s.windowsCreated
  let s := { s with windowsCreated := s.windowsCreated + 1 }
  let s := s.call (Call.Resize 1 1)
  (window, s)

/-- `WebAppWaylandWindow::prepare`. -/
def prepare (s : State) : State :=
  if s.s_instance.isSome then s
  else
    let (window, s) := createWindow s
    if window.isNone then s
    else { s with s_instance := window }

/-- `WebAppWaylandWindow::hide`. -/
def hide (s : State) : State := s.call Call.Hide

/-- `WebAppWaylandWindow::show` (`show` is a keyword of Lean). -/
def show_ (s : State) : State := s.call Call.Show

/-- `WebAppWaylandWindow::setCursor`. -/
def setCursor (s : State) (cursorArg : String) (hotspot_x hotspot_y : Int) : State :=
  let arg := cursorArg
  let type := CustomCursorType.CUSTOM_CURSOR_NOT_USE
  let type :=
    if arg.isEmpty || arg != "default" then type
    else if arg != "blank" then CustomCursorType.CUSTOM_CURSOR_BLANK
    else CustomCursorType.CUSTOM_CURSOR_PATH
  let s := s.call (Call.SetCustomCursor type arg hotspot_x hotspot_y)
  if type = CustomCursorType.CUSTOM_CURSOR_BLANK then
    { s with m_cursorEnabled := false }
  else
    { s with m_cursorEnabled := true }

/-- `WebAppWaylandWindow::onCursorVisibileChangeEvent`. -/
def onCursorVisibileChangeEvent (s : State) : Bool × State :=
  if !s.m_cursorEnabled then
    let s := if cursorVisible s then setCursorVisible s false else s
    (true, s)
  else
    (false, s)

end WebAppWaylandWindow

/-! ## WebAppWayland -/

/-- A `QVariant` holding a `QString`: `toBool` is false exactly for an empty
string, "0" and "false" (in any case). -/
def QVariant.ofString (v : String) : QVariant :=
  let lower := v.data.map Char.toLower
  ⟨!(v.data.isEmpty || lower = "0".data || lower = "false".data), v⟩

/-- A `QVariant` holding an `int`. -/
def QVariant.ofInt (v : Int) : QVariant :=
  ⟨decide (v ≠ 0), ToString.toString v⟩

/-- `getLocationHintFromString`. -/
def getLocationHintFromString (value : String) : LocationHint :=
  let hints : List (String × LocationHint) := [
    ("north", LocationHint.kNorth),
    ("west", LocationHint.kWest),
    ("south", LocationHint.kSouth),
    ("east", LocationHint.kEast),
    ("center", LocationHint.kCenter),
    ("northwest", LocationHint.kNorthWest),
    ("northeast", LocationHint.kNorthEast),
    ("southwest", LocationHint.kSouthWest),
    ("southeast", LocationHint.kSouthEast)]
  let hint := LocationHint.kUnknown
  match hints.lookup value with
  | some found => found
  | none => hint

namespace WebAppWayland

/-- `WebAppWayland::setKeyMask(webos::WebOSKeyMask, bool)`. -/
def setKeyMaskValue (s : State) (keyMask : Nat) (value : Bool) : State :=
  s.call (Call.SetKeyMaskValue keyMask value)

/-- `WebAppWayland::setKeyMask(const QJsonDocument&)`. -/
def setKeyMask (K : WebOSKeyMask) (s : State) (jsonDoc : QJsonDocument) : State :=
  s.call (Call.SetKeyMask (keyMaskOfDocument K jsonDoc))

/-- `WebAppWayland::setWindowProperty`. -/
def setWindowProperty (K : WebOSKeyMask) (s : State) (name : String) (value : QVariant) :
    State :=
  let mask : Nat := 0
  let mask :=
    if name = "_WEBOS_ACCESS_POLICY_KEYS_BACK" then K.KEY_MASK_BACK
    else if name = "_WEBOS_ACCESS_POLICY_KEYS_EXIT" then K.KEY_MASK_EXIT
    else mask
  let s := if mask ≠ 0 then setKeyMaskValue s mask value.toBool else s
  s.call (Call.SetWindowProperty name value.toString)

/-- `WebAppWayland::init`.  A window obtained from `take` is in the state its
constructor leaves it in. -/
def init (K : WebOSKeyMask) (kUndefinedDisplayId : Int) (s : State) (width height : Int) :
    State :=
  let s :=
    if s.m_appWindow.isNone then
      let (window, s) := WebAppWaylandWindow.take s
      WebAppWaylandWindow.construct { s with m_appWindow := window }
    else s
  let s :=
    if !(width != 0 && height != 0) then
      (s.call (Call.setUiSize s.DisplayWidth s.DisplayHeight)).call
        (Call.InitWindow s.DisplayWidth s.DisplayHeight)
    else
      (s.call (Call.setUiSize width height)).call (Call.InitWindow width height)
  let locationHint := getLocationHintFromString s.m_locationHint
  let s :=
    if locationHint ≠ LocationHint.kUnknown then s.call (Call.SetLocationHint locationHint)
    else s
  let s := { s with m_webApp := true }
  let s := setWindowProperty K s "_WEBOS_WINDOW_TYPE" (QVariant.ofString s.m_windowType)
  let s :=
    if s.m_displayId ≠ kUndefinedDisplayId then
      setWindowProperty K s "displayAffinity" (QVariant.ofInt s.m_displayId)
    else s
  let s :=
    if s.envLaunchFinishAssureTimeout ≠ 0 then
      { s with kLaunchFinishAssureTimeoutMs := s.envLaunchFinishAssureTimeout }
    else s
  if !s.hasInputPointer then s.call Call.InputManagerInstance else s

/-- The two constructors of `WebAppWayland`; the first passes no window.  `base`
is the state the `WebAppBase` constructor and the environment provide; the
vector and the two timers are default-constructed, the timers not running. -/
def construct (K : WebOSKeyMask) (kUndefinedDisplayId : Int) (base : State) (type : String)
    (window : Option Nat) (width height displayId : Int) (location_hint : String) : State :=
  let s := { base with
    m_appWindow := window
    m_windowType := type
    m_lastSwappedTime := 0
    m_enableInputRegion := false
    m_isFocused := false
    m_vkbHeight := 0
    m_lostFocusBySetWindowProperty := false
    m_displayId := displayId
    m_locationHint := location_hint
    m_inputRegion := []
    elapsedLaunchTimerRunning := false
    launchTimeoutTimerArmed := false }
  init K kUndefinedDisplayId s width height

/-- `WebAppWayland::startLaunchTimer`. -/
def startLaunchTimer (s : State) : State :=
  if !getHiddenWindow s then { s with elapsedLaunchTimerRunning := true } else s

/-- `WebAppWayland::onDelegateWindowFrameSwapped`. -/
def onDelegateWindowFrameSwapped (s : State) : State :=
  if s.elapsedLaunchTimerRunning then
    let s := { s with m_lastSwappedTime := s.elapsed_ms }
    let s := { s with launchTimeoutTimerArmed := false }
    { s with launchTimeoutTimerArmed := true }
  else s

/-- `WebAppWayland::onLaunchTimeout`. -/
def onLaunchTimeout (s : State) : State :=
  if s.elapsedLaunchTimerRunning then
    let s := { s with launchTimeoutTimerArmed := false }
    { s with elapsedLaunchTimerRunning := false }
  else s

/-- `WebAppWayland::forwardWebOSEvent`, applied to `m_lastMouseEvent`. -/
def forwardWebOSEvent (s : State) (event : WebOSMouseEvent) : State :=
  s.call (Call.forwardEvent event)

/-- `WebAppWayland::isFocused`. -/
def isFocused (s : State) : Bool := s.m_isFocused

/-- `WebAppWayland::isMinimized`. -/
def isMinimized (s : State) : Bool :=
  s.windowHostState == NativeWindowState.NATIVE_WINDOW_MINIMIZED

/-- `WebAppWayland::onStageActivated`. -/
def onStageActivated (s : State) : State :=
  let s :=
    if getCrashState s then
      let s := s.call Call.reloadDefaultPage
      setCrashState s false
    else s
  let s := s.call Call.resumeWebPageAll
  let s := s.call
    (Call.setVisibilityState WebPageVisibilityState.WebPageVisibilityStateVisible)
  let s := s.call Call.setActiveInstanceId
  WebAppWaylandWindow.show_ s

/-- `WebAppWayland::focus`. -/
def focus (s : State) : State :=
  let s := { s with m_isFocused := true }
  if !isMinimized s then s.call (Call.setFocus true) else s

/-- `WebAppWayland::unfocus`. -/
def unfocus (s : State) : State :=
  let s := { s with m_isFocused := false }
  s.call (Call.setFocus false)

/-- `WebAppWayland::onStageDeactivated`. -/
def onStageDeactivated (s : State) : State :=
  let s := s.call Call.suspendWebPageMedia
  let s := unfocus s
  let s := s.call
    (Call.setVisibilityState WebPageVisibilityState.WebPageVisibilityStateHidden)
  let s := s.call Call.suspendWebPageAll
  { s with m_didActivateStage := false }

/-- `WebAppWayland::applyInputRegion`. -/
def applyInputRegion (s : State) : State :=
  if !s.m_enableInputRegion && !s.m_inputRegion.isEmpty then
    let s := { s with m_enableInputRegion := true }
    s.call (Call.SetInputRegion s.m_inputRegion)
  else s

/-- `map[key].toInt()` on a `QVariantMap`: `toInt` is `QVariant::toInt`, and a
key that is absent yields an invalid variant, whose `toInt()` is 0. -/
def fieldToInt (toInt : QJsonValue → Int) (map : List (String × QJsonValue)) (key : String) :
    Int :=
  match map.lookup key with
  | some v => toInt v
  | none => 0

/-- The loop of `setInputRegion`; `todo` counts the iterations left.  The result
is `none` when a conversion to `int` is not defined. -/
def setInputRegionLoop (toInt : QJsonValue → Int) (m_scaleFactor : Float32)
    (jsonArray : List QJsonValue) : Nat → Nat → List Rect → Option (List Rect)
  | 0, _, m_inputRegion => some m_inputRegion
  | todo + 1, i, m_inputRegion => do
    let map := (jsonAt jsonArray i).toVariantMap
    let x ← scaleInt m_scaleFactor (fieldToInt toInt map "x")
    let y ← scaleInt m_scaleFactor (fieldToInt toInt map "y")
    let width ← scaleInt m_scaleFactor (fieldToInt toInt map "width")
    let height ← scaleInt m_scaleFactor (fieldToInt toInt map "height")
    setInputRegionLoop toInt m_scaleFactor jsonArray todo (i + 1)
      (m_inputRegion ++ [Rect.mk x y width height])

/-- `WebAppWayland::setInputRegion`; `none` when a conversion to `int` is not
defined. -/
def setInputRegion (toInt : QJsonValue → Int) (s : State) (jsonDoc : QJsonDocument) :
    Option State := do
  let s := { s with m_inputRegion := [] }
  let s ←
    if jsonDoc.isArray then do
      let jsonArray := jsonDoc.toArray
      let region ← setInputRegionLoop toInt s.m_scaleFactor jsonArray jsonArray.length 0
        s.m_inputRegion
      pure { s with m_inputRegion := region }
    else pure s
  pure (s.call (Call.SetInputRegion s.m_inputRegion))

/-- `WebAppWayland::hide`. -/
def hide (s : State) (forcedHide : Bool) : State :=
  if s.keepAlive || forcedHide then
    let s := onStageDeactivated s
    let s := WebAppWaylandWindow.hide s
    setHiddenWindow s true
  else s

/-- `WebAppWayland::hideWindow`. -/
def hideWindow (s : State) : Bool × State :=
  if s.isLoadErrorPageFinish then (false, s)
  else
    let s := s.call Call.closeVkb
    let s := hide s true
    let s := { s with m_addedToWindowMgr := false }
    (true, s)

/-- `WebAppWayland::doClose`; `keepAlive() && hideWindow()` calls `hideWindow` only
when `keepAlive()` holds. -/
def doClose (s : State) : State :=
  if s.forceClose then s.call Call.forceCloseAppInternal
  else if s.keepAlive then
    let (hidden, s) := hideWindow s
    if hidden then s
    else s.call Call.closeAppInternal
  else s.call Call.closeAppInternal

/-- `WebAppWayland::stateAboutToChange`. -/
def stateAboutToChange (s : State) (willBe : NativeWindowState) : State :=
  if willBe = NativeWindowState.NATIVE_WINDOW_MINIMIZED then
    let s := s.call Call.suspendWebPageMedia
    s.call (Call.setVisibilityState WebPageVisibilityState.WebPageVisibilityStateHidden)
  else s

/-- `WebAppWayland::stateChanged`. -/
def stateChanged (s : State) (newState : NativeWindowState) : State :=
  if s.isClosing then s
  else
    match newState with
    | NativeWindowState.NATIVE_WINDOW_DEFAULT
    | NativeWindowState.NATIVE_WINDOW_MAXIMIZED
    | NativeWindowState.NATIVE_WINDOW_FULLSCREEN =>
      let s := applyInputRegion s
      onStageActivated s
    | NativeWindowState.NATIVE_WINDOW_MINIMIZED => onStageDeactivated s
    | _ => s

/-- `WebAppWayland::sendWebOSMouseEvent`; the script dispatches a `webOSMouse`
event carrying `eventName`. -/
def sendWebOSMouseEvent (s : State) (eventName : String) : State :=
  if eventName = "Enter" || eventName = "Leave" then
    s.call (Call.evaluateJavaScript eventName)
  else s

/-- The loop of `moveInputRegion` over `m_inputRegion`, collecting `newRegion`. -/
def moveInputRegionLoop (m_vkbHeight : Int) : List Rect → List Rect → List Rect
  | [], newRegion => newRegion
  | rect :: rest, newRegion =>
    let rect : Rect :=
      { x := rect.x, y := wrapInt32 (rect.y - m_vkbHeight), width := rect.width,
        height := rect.height }
    moveInputRegionLoop m_vkbHeight rest (newRegion ++ [rect])

/-- `WebAppWayland::moveInputRegion`. -/
def moveInputRegion (s : State) (height : Int) : State :=
  if !s.m_enableInputRegion then s
  else
    let s :=
      if height ≠ 0 then { s with m_vkbHeight := height }
      else { s with m_vkbHeight := wrapInt32 (-s.m_vkbHeight) }
    let newRegion := moveInputRegionLoop s.m_vkbHeight s.m_inputRegion []
    let s := { s with m_inputRegion := [] }
    let s := { s with m_inputRegion := newRegion }
    s.call (Call.SetInputRegion s.m_inputRegion)

/-- `WebAppWayland::keyboardVisibilityChanged`. -/
def keyboardVisibilityChanged (s : State) (visible : Bool) (height : Int) : State :=
  let s := s.call (Call.baseKeyboardVisibilityChanged visible height)
  moveInputRegion s height

end WebAppWayland

/-! ## WebAppWaylandWindow, event handling -/

namespace WebAppWaylandWindow

/-- The tail of `event`: `return WebAppWindowDelegate::event(event)`. -/
def delegateEvent (delegate : WebOSEvent → Bool) (s : State) (event : WebOSEvent) :
    Bool × State :=
  (delegate event, s.call (Call.delegateEvent event))

/-- The release generated for a pending press, in the `WindowStateChange` and
`FocusOut` cases of `event`. -/
def releaseLastMouseEvent (s : State) : State :=
  if s.m_lastMouseEvent.type = WebOSEventType.MouseButtonPress then
    let s := { s with
      m_lastMouseEvent := { s.m_lastMouseEvent with type := WebOSEventType.MouseButtonRelease } }
    WebAppWayland.forwardWebOSEvent s s.m_lastMouseEvent
  else s

/-- `WebAppWaylandWindow::event`; `delegate` is the result of
`WebAppWindowDelegate::event`.  `logEventDebugging` only writes log lines. -/
def event (delegate : WebOSEvent → Bool) (s : State) (event : WebOSEvent) : Bool × State :=
  if !s.m_webApp then (true, s)
  else
    match event.type with
    | WebOSEventType.Close => (true, WebAppWayland.doClose s)
    | WebOSEventType.WindowStateChange =>
      let s :=
        if s.windowHostState = NativeWindowState.NATIVE_WINDOW_MINIMIZED then
          releaseLastMouseEvent s
        else s
      let s := WebAppWayland.stateChanged s s.windowHostState
      delegateEvent delegate s event
    | WebOSEventType.WindowStateAboutToChange =>
      (true, WebAppWayland.stateAboutToChange s s.windowHostStateAboutToChange)
    | WebOSEventType.Swap =>
      let s :=
        if s.isCheckLaunchTimeEnabled then WebAppWayland.onDelegateWindowFrameSwapped s
        else s
      delegateEvent delegate s event
    | WebOSEventType.KeyPress => delegateEvent delegate s event
    | WebOSEventType.KeyRelease => delegateEvent delegate s event
    | WebOSEventType.MouseButtonPress =>
      let s := { s with
        m_lastMouseEvent := { s.m_lastMouseEvent with type := WebOSEventType.MouseButtonPress } }
      let s := { s with m_lastMouseEvent := { s.m_lastMouseEvent with flags := event.flags } }
      onCursorVisibileChangeEvent s
    | WebOSEventType.MouseButtonRelease =>
      let s := { s with
        m_lastMouseEvent := { s.m_lastMouseEvent with type := WebOSEventType.MouseButtonRelease } }
      onCursorVisibileChangeEvent s
    | WebOSEventType.MouseMove => onCursorVisibileChangeEvent s
    | WebOSEventType.Wheel =>
      if !s.m_cursorEnabled then (true, s)
      else delegateEvent delegate s event
    | WebOSEventType.Enter =>
      delegateEvent delegate (WebAppWayland.sendWebOSMouseEvent s "Enter") event
    | WebOSEventType.Leave =>
      delegateEvent delegate (WebAppWayland.sendWebOSMouseEvent s "Leave") event
    | WebOSEventType.FocusIn => delegateEvent delegate (WebAppWayland.focus s) event
    | WebOSEventType.FocusOut =>
      let s := releaseLastMouseEvent s
      let s := WebAppWayland.unfocus s
      delegateEvent delegate s event
    | WebOSEventType.InputPanelVisible =>
      let height := event.height
      let s :=
        if event.visible then WebAppWayland.keyboardVisibilityChanged s true height
        else WebAppWayland.keyboardVisibilityChanged s false height
      delegateEvent delegate s event
    | _ => delegateEvent delegate s event

end WebAppWaylandWindow

/-! ## Reference definitions: the behaviour the specification describes -/

/-- The mask the key-mask table is described as giving a name: the mapped mask for each
of the 18 names, 0 for every other string. -/
def keyMaskOfName (K : WebOSKeyMask) : String → Nat
  | "KeyMaskNone" => 0
  | "KeyMaskHome" => K.KEY_MASK_HOME
  | "KeyMaskBack" => K.KEY_MASK_BACK
  | "KeyMaskExit" => K.KEY_MASK_EXIT
  | "KeyMaskLeft" => K.KEY_MASK_LEFT
  | "KeyMaskRight" => K.KEY_MASK_RIGHT
  | "KeyMaskUp" => K.KEY_MASK_UP
  | "KeyMaskDown" => K.KEY_MASK_DOWN
  | "KeyMaskOk" => K.KEY_MASK_OK
  | "KeyMaskNumeric" => K.KEY_MASK_NUMERIC
  | "KeyMaskRed" => K.KEY_MASK_REMOTECOLORRED
  | "KeyMaskGreen" => K.KEY_MASK_REMOTECOLORGREEN
  | "KeyMaskYellow" => K.KEY_MASK_REMOTECOLORYELLOW
  | "KeyMaskBlue" => K.KEY_MASK_REMOTECOLORBLUE
  | "KeyMaskProgramme" => K.KEY_MASK_REMOTEPROGRAMMEGROUP
  | "KeyMaskPlayback" => K.KEY_MASK_REMOTEPLAYBACKGROUP
  | "KeyMaskTeletext" => K.KEY_MASK_REMOTETELETEXTGROUP
  | "KeyMaskDefault" => K.KEY_MASK_DEFAULT
  | _ => 0

/-- The contribution an array element is described as making: the mask of its name if it is a
string, 0 otherwise. -/
def keyMaskContribution (K : WebOSKeyMask) : QJsonValue → Nat
  | QJsonValue.string name => keyMaskOfName K name
  | _ => 0

/-- The mask a document is described as yielding: the bitwise OR of the contributions of
the elements of an array, 0 for a document that is not an array. -/
def expectedKeyMask (K : WebOSKeyMask) : QJsonDocument → Nat
  | QJsonDocument.array a => (a.map (keyMaskContribution K)).foldl (fun m c => m ||| c) 0
  | _ => 0

/-! ## Sample inputs -/

/-- A state to evaluate the code on: a running app with a visible, focused
window, scale factor 1, and an enabled input region of two rectangles. -/
def sampleState : State where
  m_appWindow := some 0
  m_windowType := "_WEBOS_WINDOW_TYPE_CARD"
  m_lastSwappedTime := 0
  m_inputRegion := [⟨0, 900, 1920, 180⟩, ⟨100, 200, 300, 400⟩]
  m_enableInputRegion := true
  m_didActivateStage := true
  m_isFocused := true
  m_vkbHeight := 0
  m_lostFocusBySetWindowProperty := false
  m_displayId := 0
  m_locationHint := ""
  elapsedLaunchTimerRunning := false
  launchTimeoutTimerArmed := false
  kLaunchFinishAssureTimeoutMs := 5000
  m_scaleFactor := ⟨1, 0⟩
  m_preloadState := PreloadState.NONE_PRELOAD
  m_addedToWindowMgr := true
  hiddenWindow := false
  crashState := false
  keepAlive := false
  forceClose := false
  isClosing := false
  isCheckLaunchTimeEnabled := true
  needReload := false
  appId := "com.example.app"
  instanceId := "com.example.app-1"
  launchingAppId := ""
  hasPage := true
  isLoadErrorPageFinish := false
  canGoBack := false
  pageTitle := "Example"
  backHistoryAPIDisabled := false
  usePrerendering := false
  handleExitKey := false
  title := "Example"
  icon := "icon.png"
  windowClassValue := 0
  widthOverride := 0
  heightOverride := 0
  isTransparent := false
  groupWindowDescEmpty := true
  windowGroupName := ""
  windowGroupIsOwner := false
  windowOwnerAllowAnonymous := false
  windowOwnerLayers := []
  windowClientLayer := ""
  keyFilterTable := [(404, (461, 0)), (405, (406, 2))]
  s_instance := none
  windowsCreated := 1
  m_webApp := true
  m_cursorVisible := true
  m_cursorEnabled := true
  m_xinputActivated := false
  m_lastMouseEvent := ⟨WebOSEventType.None, 0⟩
  windowHostState := NativeWindowState.NATIVE_WINDOW_FULLSCREEN
  windowHostStateAboutToChange := NativeWindowState.NATIVE_WINDOW_FULLSCREEN
  DisplayWidth := 1920
  DisplayHeight := 1080
  elapsed_ms := 0
  envLaunchFinishAssureTimeout := 0
  envEnableCursorByDefault := "1"
  hasInputPointer := true
  calls := []

/-- A `QVariant::toInt` to evaluate the code with: a number converts to the
nearest integer (an integral number to itself), any other value to 0. -/
def sampleToInt : QJsonValue → Int
  | QJsonValue.double d =>
    if 0 ≤ d.num then (2 * d.num + d.den) / (2 * d.den)
    else -((-2 * d.num + d.den) / (2 * d.den))
  | _ => 0

/-- The document `["KeyMaskHome", 3, "NoSuchKey", "KeyMaskExit"]`. -/
def sampleKeyMaskDocument : QJsonDocument :=
  QJsonDocument.array [QJsonValue.string "KeyMaskHome", QJsonValue.double 3,
    QJsonValue.string "NoSuchKey", QJsonValue.string "KeyMaskExit"]

/-- The document `[{"x": 16777217}]`. -/
def sampleLargeRegionDocument : QJsonDocument :=
  QJsonDocument.array [QJsonValue.object [("x", QJsonValue.double 16777217)]]

/-- The document `[{"x": 10, "y": 20, "width": 300, "height": 40}, 7, {"width": 5}]`. -/
def sampleRegionDocument : QJsonDocument :=
  QJsonDocument.array [
    QJsonValue.object [("x", QJsonValue.double 10), ("y", QJsonValue.double 20),
      ("width", QJsonValue.double 300), ("height", QJsonValue.double 40)],
    QJsonValue.double 7,
    QJsonValue.object [("width", QJsonValue.double 5)]]

/-- The `float` is 1: its exponent is some `-j` with `j ≥ 0` and its significand
is `2 ^ j`. -/
def Float32.isOne (f : Float32) : Prop :=
  f.exp ≤ 0 ∧ f.mant = 2 ^ (-f.exp).toNat

instance (f : Float32) : Decidable f.isOne := by
  unfold Float32.isOne; infer_instance

/-- The rectangle an array element is described as giving: its four integer fields, each
multiplied by the scale factor as a `float` and converted back to `int`; `none`
when one of the conversions is not defined. -/
def scaledRect (toInt : QJsonValue → Int) (m_scaleFactor : Float32) (element : QJsonValue) :
    Option Rect := do
  let map := element.toVariantMap
  let x ← scaleInt m_scaleFactor (WebAppWayland.fieldToInt toInt map "x")
  let y ← scaleInt m_scaleFactor (WebAppWayland.fieldToInt toInt map "y")
  let width ← scaleInt m_scaleFactor (WebAppWayland.fieldToInt toInt map "width")
  let height ← scaleInt m_scaleFactor (WebAppWayland.fieldToInt toInt map "height")
  pure (Rect.mk x y width height)

/-- The rectangles of the elements of an array, in array order; `none` when one
of them is not defined. -/
def scaledRects (toInt : QJsonValue → Int) (m_scaleFactor : Float32) :
    List QJsonValue → Option (List Rect)
  | [] => some []
  | element :: rest => do
    let rect ← scaledRect toInt m_scaleFactor element
    let rects ← scaledRects toInt m_scaleFactor rest
    pure (rect :: rects)

/-- The rectangle made of the four integer fields of an array element themselves
(0 for a field that is missing). -/
def fieldRect (toInt : QJsonValue → Int) (element : QJsonValue) : Rect :=
  let map := element.toVariantMap
  Rect.mk (WebAppWayland.fieldToInt toInt map "x") (WebAppWayland.fieldToInt toInt map "y")
    (WebAppWayland.fieldToInt toInt map "width") (WebAppWayland.fieldToInt toInt map "height")

/-- None of the four integer fields of an array element exceeds `2 ^ 24` in
magnitude, so a `float` holds each of them exactly. -/
def fieldsWithin24Bits (toInt : QJsonValue → Int) (element : QJsonValue) : Prop :=
  let map := element.toVariantMap
  (WebAppWayland.fieldToInt toInt map "x").natAbs ≤ 2 ^ 24 ∧
  (WebAppWayland.fieldToInt toInt map "y").natAbs ≤ 2 ^ 24 ∧
  (WebAppWayland.fieldToInt toInt map "width").natAbs ≤ 2 ^ 24 ∧
  (WebAppWayland.fieldToInt toInt map "height").natAbs ≤ 2 ^ 24

instance (toInt : QJsonValue → Int) (element : QJsonValue) :
    Decidable (fieldsWithin24Bits toInt element) := by
  unfold fieldsWithin24Bits; infer_instance

/-- The rectangle `(x, y - h, w, ht)` that replaces a rectangle `(x, y, w, ht)`
when the keyboard takes height `h`. -/
def movedRect (h : Int) (rect : Rect) : Rect :=
  Rect.mk rect.x (rect.y - h) rect.width rect.height

/-! ## Sequences of launch-timer calls -/

/-- One of the three calls that drive the launch timers; a frame swap carries
the time `m_elapsedLaunchTimer.elapsed_ms()` reads when it arrives. -/
inductive LaunchTimerCall where
  | startLaunchTimer
  | onDelegateWindowFrameSwapped (elapsed_ms : Int)
  | onLaunchTimeout
  deriving DecidableEq, Repr

/-- Make one launch-timer call. -/
def LaunchTimerCall.run (s : State) : LaunchTimerCall → State
  | LaunchTimerCall.startLaunchTimer => WebAppWayland.startLaunchTimer s
  | LaunchTimerCall.onDelegateWindowFrameSwapped elapsed_ms =>
    WebAppWayland.onDelegateWindowFrameSwapped { s with elapsed_ms := elapsed_ms }
  | LaunchTimerCall.onLaunchTimeout => WebAppWayland.onLaunchTimeout s

/-- Make a sequence of launch-timer calls, first to last. -/
def runLaunchTimerCalls (s : State) (calls : List LaunchTimerCall) : State :=
  calls.foldl LaunchTimerCall.run s

/-! ## The statements of `init`, one by one -/

/-- `if (!m_appWindow) m_appWindow = WebAppWaylandWindow::take();` -/
def initTakeWindow (s : State) : State :=
  if s.m_appWindow.isNone then
    let (window, s) := WebAppWaylandWindow.take s
    WebAppWaylandWindow.construct { s with m_appWindow := window }
  else s

/-- The `if (!(width && height))` statement of `init`. -/
def initWindowSize (s : State) (width height : Int) : State :=
  if !(width != 0 && height != 0) then
    (s.call (Call.setUiSize s.DisplayWidth s.DisplayHeight)).call
      (Call.InitWindow s.DisplayWidth s.DisplayHeight)
  else
    (s.call (Call.setUiSize width height)).call (Call.InitWindow width height)

/-- The location-hint statements of `init`. -/
def initLocationHint (s : State) : State :=
  let locationHint := getLocationHintFromString s.m_locationHint
  if locationHint ≠ LocationHint.kUnknown then s.call (Call.SetLocationHint locationHint)
  else s

/-- `m_appWindow->setWebApp(this);` and the window-type property. -/
def initWindowType (K : WebOSKeyMask) (s : State) : State :=
  let s := { s with m_webApp := true }
  WebAppWayland.setWindowProperty K s "_WEBOS_WINDOW_TYPE" (QVariant.ofString s.m_windowType)

/-- The `displayAffinity` statement of `init`. -/
def initDisplayAffinity (K : WebOSKeyMask) (kUndefinedDisplayId : Int) (s : State) : State :=
  if s.m_displayId ≠ kUndefinedDisplayId then
    WebAppWayland.setWindowProperty K s "displayAffinity" (QVariant.ofInt s.m_displayId)
  else s

/-- The last two statements of `init`: the timeout from the environment and the
input manager. -/
def initEnvironment (s : State) : State :=
  let s :=
    if s.envLaunchFinishAssureTimeout ≠ 0 then
      { s with kLaunchFinishAssureTimeoutMs := s.envLaunchFinishAssureTimeout }
    else s
  if !s.hasInputPointer then s.call Call.InputManagerInstance else s

/-! ## What the page was last told -/

/-- The visibility state the page was last given by `setVisibilityState`, if any. -/
def lastVisibilityState (calls : List Call) : Option WebPageVisibilityState :=
  calls.reverse.findSome? fun c =>
    match c with
    | Call.setVisibilityState state => some state
    | _ => none

/-! ## WebAppWayland and WebAppWaylandWindow, the remaining member functions -/

/-- The comparison `a < b` of two `float`s. -/
def Float32.lt (a b : Float32) : Bool :=
  let e := min a.exp b.exp
  decide (a.mant * 2 ^ (a.exp - e).toNat < b.mant * 2 ^ (b.exp - e).toNat)

namespace WebAppWaylandWindow

/-- `WebAppWaylandWindow::platformBack`: it only writes a log line. -/
def platformBack (s : State) : State := s

/-- `WebAppWaylandWindow::attachWebContents`. -/
def attachWebContents (s : State) : State := s.call Call.AttachWebContents

/-- `WebAppWaylandWindow::sendKeyCode`. -/
def sendKeyCode (s : State) (keyCode : Int) : State :=
  let s :=
    if !s.m_xinputActivated then
      let s := s.call Call.XInputActivate
      { s with m_xinputActivated := true }
    else s
  s.call (Call.XInputInvokeAction keyCode)

end WebAppWaylandWindow

namespace WebAppWayland

/-- The accessor `getWindowType`, declared in the header, outside the sources: it
reads `m_windowType`. -/
def getWindowType (s : State) : String := s.m_windowType

/-- `WebAppWayland::setupWindowGroup`; `desc` tells whether the description
passed is a non-null pointer. -/
def setupWindowGroup (s : State) (desc : Bool) : State :=
  if !desc then s
  else if s.windowGroupName.isEmpty then s
  else if s.windowGroupIsOwner then
    s.call (Call.CreateWindowGroup s.windowGroupName s.windowOwnerAllowAnonymous
      s.windowOwnerLayers)
  else
    s.call (Call.AttachToWindowGroup s.windowGroupName s.windowClientLayer)

/-- The window properties and key masks that `attach` and `configureWindow` both
set, from `appId` to the exit key mask. -/
def setDescriptionProperties (K : WebOSKeyMask) (s : State) : State :=
  let s := setWindowProperty K s "appId" (QVariant.ofString s.appId)
  let s := setWindowProperty K s "instanceId" (QVariant.ofString s.instanceId)
  let s := setWindowProperty K s "launchingAppId" (QVariant.ofString s.launchingAppId)
  let s := setWindowProperty K s "title" (QVariant.ofString s.title)
  let s := setWindowProperty K s "icon" (QVariant.ofString s.icon)
  let s := setWindowProperty K s "subtitle" (QVariant.ofString "")
  let s := setWindowProperty K s "_WEBOS_WINDOW_CLASS" (QVariant.ofInt s.windowClassValue)
  let s := setWindowProperty K s "_WEBOS_ACCESS_POLICY_KEYS_BACK"
    (if s.backHistoryAPIDisabled then QVariant.ofString "true" else QVariant.ofString "false")
  let s := setWindowProperty K s "_WEBOS_ACCESS_POLICY_KEYS_EXIT"
    (if s.handleExitKey then QVariant.ofString "true" else QVariant.ofString "false")
  let s := setKeyMaskValue s K.KEY_MASK_BACK s.backHistoryAPIDisabled
  setKeyMaskValue s K.KEY_MASK_EXIT s.handleExitKey

/-- `WebAppWayland::doAttach`. -/
def doAttach (s : State) : State :=
  let s := if !s.groupWindowDescEmpty then setupWindowGroup s true else s
  let s := WebAppWaylandWindow.attachWebContents s
  let s := s.call
    (Call.setVisibilityState WebPageVisibilityState.WebPageVisibilityStateLaunching)
  let s := s.call Call.setPageProperties
  let s := if s.keepAlive then s.call (Call.setKeepAliveWebApp s.keepAlive) else s
  let s := s.call (Call.connect "webPageClosePageRequested()" "webPageClosePageRequestedSlot()")
  s.call (Call.connect "webViewRecreated()" "webViewRecreatedSlot()")

/-- `WebAppWayland::attach`; `floatDiv a b` is the `float` quotient
`static_cast<float>(a) / b`. -/
def attach (K : WebOSKeyMask) (floatDiv : Int → Int → Float32) (s : State) : State :=
  let s := s.call Call.baseAttach
  let s := setDescriptionProperties K s
  let s :=
    if s.widthOverride != 0 && s.heightOverride != 0 && !s.isTransparent then
      let scaleX := floatDiv s.DisplayWidth s.widthOverride
      let scaleY := floatDiv s.DisplayHeight s.heightOverride
      let s := { s with m_scaleFactor := if scaleX.lt scaleY then scaleX else scaleY }
      s.call (Call.setAdditionalContentsScale scaleX scaleY)
    else s
  let s := doAttach s
  s.call (Call.setObserver true)

/-- `WebAppWayland::detach`. -/
def detach (s : State) : State :=
  let s := s.call (Call.setObserver false)
  s.call Call.baseDetach

/-- `WebAppWayland::suspendAppRendering`. -/
def suspendAppRendering (s : State) : State :=
  let s := onStageDeactivated s
  WebAppWaylandWindow.hide s

/-- `WebAppWayland::resumeAppRendering`. -/
def resumeAppRendering (s : State) : State :=
  let s := WebAppWaylandWindow.show_ s
  onStageActivated s

/-- `WebAppWayland::resize`. -/
def resize (s : State) (width height : Int) : State :=
  s.call (Call.Resize width height)

/-- `WebAppWayland::configureWindow`. -/
def configureWindow (K : WebOSKeyMask) (s : State) (type : String) : State :=
  let s := { s with m_windowType := type }
  let s := { s with m_webApp := true }
  let s := setWindowProperty K s "_WEBOS_WINDOW_TYPE" (QVariant.ofString type)
  let s := setDescriptionProperties K s
  if !s.groupWindowDescEmpty then setupWindowGroup s true else s

/-- `WebAppWayland::platformBack`. -/
def platformBack (s : State) : State := WebAppWaylandWindow.platformBack s

/-- `WebAppWayland::setCursor`. -/
def setCursor (s : State) (cursorArg : String) (hotspot_x hotspot_y : Int) : State :=
  WebAppWaylandWindow.setCursor s cursorArg hotspot_x hotspot_y

/-- `WebAppWayland::setKeyMask(webos::WebOSKeyMask)`. -/
def setKeyMaskMask (s : State) (keyMask : Nat) : State :=
  s.call (Call.SetKeyMask keyMask)

/-- `WebAppWayland::focusOwner`. -/
def focusOwner (s : State) : State := s.call Call.FocusWindowGroupOwner

/-- `WebAppWayland::focusLayer`. -/
def focusLayer (s : State) : State := s.call Call.FocusWindowGroupLayer

/-- `WebAppWayland::setOpacity`. -/
def setOpacity (s : State) (opacity : Float32) : State := s.call (Call.SetOpacity opacity)

/-- `WebAppWayland::raise`; `WT_OVERLAY` is the window type of that name, defined
in `WindowTypes.h`, outside the sources. -/
def raise (WT_OVERLAY : String) (s : State) : State :=
  let wasMinimizedState := isMinimized s
  let s :=
    if getWindowType s = WT_OVERLAY || (s.keepAlive && !wasMinimizedState) then
      onStageActivated s
    else
      s.call (Call.SetWindowHostState NativeWindowState.NATIVE_WINDOW_FULLSCREEN)
  if wasMinimizedState then
    s.call (Call.setVisibilityState WebPageVisibilityState.WebPageVisibilityStateVisible)
  else s

/-- `WebAppWayland::goBackground`. -/
def goBackground (WT_OVERLAY : String) (s : State) : State :=
  if getWindowType s = WT_OVERLAY then doClose s
  else s.call (Call.SetWindowHostState NativeWindowState.NATIVE_WINDOW_MINIMIZED)

/-- `WebAppWayland::webPageLoadFinishedSlot`. -/
def webPageLoadFinishedSlot (s : State) : State :=
  if getHiddenWindow s then s
  else if s.needReload then
    let s := s.call Call.reload
    { s with needReload := false }
  else s.call Call.doPendingRelaunch

/-- `WebAppWayland::webPageLoadFailedSlot`. -/
def webPageLoadFailedSlot (s : State) : State :=
  if s.m_preloadState ≠ PreloadState.NONE_PRELOAD then s.call Call.closeAppInternal else s

/-- `WebAppWayland::showWindow`. -/
def showWindow (s : State) : State :=
  if s.m_preloadState ≠ PreloadState.NONE_PRELOAD then s
  else
    let s := setHiddenWindow s false
    let s := onStageActivated s
    let s := { s with m_addedToWindowMgr := true }
    s.call Call.baseShowWindow

/-- `WebAppWayland::showWindowSlot`. -/
def showWindowSlot (s : State) : State := showWindow s

/-- `WebAppWayland::titleChanged`. -/
def titleChanged (K : WebOSKeyMask) (s : State) : State :=
  setWindowProperty K s "subtitle" (QVariant.ofString s.pageTitle)

/-- `WebAppWayland::firstFrameVisuallyCommitted`. -/
def firstFrameVisuallyCommitted (s : State) : State :=
  if !getHiddenWindow s && s.m_preloadState = PreloadState.NONE_PRELOAD then
    let s := if s.usePrerendering then { s with m_didActivateStage := false } else s
    showWindow s
  else s

/-- `WebAppWayland::postEvent`; the result of the window's `event` is dropped. -/
def postEvent (delegate : WebOSEvent → Bool) (s : State) (ev : WebOSEvent) : State :=
  (WebAppWaylandWindow.event delegate s ev).2

/-- `WebAppWayland::navigationHistoryChanged`. -/
def navigationHistoryChanged (K : WebOSKeyMask) (s : State) : State :=
  if !s.backHistoryAPIDisabled then
    setWindowProperty K s "_WEBOS_ACCESS_POLICY_KEYS_BACK"
      (if s.canGoBack then QVariant.ofString "true" else QVariant.ofString "false")
  else s

/-- `WebAppWayland::webViewRecreatedSlot`. -/
def webViewRecreatedSlot (s : State) : State :=
  let s := WebAppWaylandWindow.attachWebContents s
  let s := s.call Call.RecreatedWebContents
  let s := s.call Call.setPageProperties
  let s := if s.keepAlive then s.call (Call.setKeepAliveWebApp s.keepAlive) else s
  focus s

/-- `WebAppWayland::didSwapPageCompositorFrame`. -/
def didSwapPageCompositorFrame (s : State) : State :=
  if !s.m_didActivateStage && !getHiddenWindow s &&
      s.m_preloadState = PreloadState.NONE_PRELOAD then
    let s := onStageActivated s
    { s with m_didActivateStage := true }
  else s

/-- `WebAppWayland::didResumeDOM`. -/
def didResumeDOM (s : State) : State := focus s

/-- `WebAppWayland::deleteSurfaceGroup`. -/
def deleteSurfaceGroup (s : State) : State := s.call Call.DetachWindowGroup

/-- `WebAppWayland::setKeepAlive`; `WebAppBase::setKeepAlive`, declared outside the
sources, writes the flag that `keepAlive()` reads. -/
def setKeepAlive (s : State) (keepAlive : Bool) : State :=
  let s := { s with keepAlive := keepAlive }
  if s.hasPage then s.call (Call.setKeepAliveWebApp keepAlive) else s

/-- `WebAppWayland::setUseVirtualKeyboard`. -/
def setUseVirtualKeyboard (s : State) (enable : Bool) : State :=
  s.call (Call.SetUseVirtualKeyboard enable)

end WebAppWayland

/-! ## What the window was last told -/

/-- Whether the window was last told to show (`some true`) or to hide
(`some false`), if it was told either. -/
def lastShown (calls : List Call) : Option Bool :=
  calls.reverse.findSome? fun c =>
    match c with
    | Call.Show => some true
    | Call.Hide => some false
    | _ => none

/-- The calls of `later` that are not yet in `earlier`: the calls made since. -/
def callsSince (earlier later : State) : List Call :=
  later.calls.drop earlier.calls.length

/-! ## Windows handed out by `take` -/

/-- The prepared window, if there is one, is one of the windows created so far,
so the next `new` does not yield it again. -/
def preparedWindowExists (s : State) : Prop :=
  match s.s_instance with
  | some window => window < s.windowsCreated
  | none => True

instance (s : State) : Decidable (preparedWindowExists s) := by
  unfold preparedWindowExists
  cases s.s_instance <;> infer_instance

/-! ## Events forwarded to the web app, and sequences of window events -/

/-- Whether a call forwards an event to the web app (`forwardWebOSEvent`). -/
def Call.isForwardEvent : Call → Bool
  | Call.forwardEvent _ => true
  | _ => false

/-- The number of events forwarded to the web app among `calls`. -/
def forwardedEvents (calls : List Call) : Nat :=
  calls.countP Call.isForwardEvent

/-- 1 when the last recorded mouse-button event is a press, 0 otherwise. -/
def pendingPress (s : State) : Nat :=
  if s.m_lastMouseEvent.type = WebOSEventType.MouseButtonPress then 1 else 0

/-- The window handles the event `input.2` after the toolkit has put it into the
host state `input.1`. -/
def handleEvent (delegate : WebOSEvent → Bool) (s : State)
    (input : NativeWindowState × WebOSEvent) : State :=
  (WebAppWaylandWindow.event delegate { s with windowHostState := input.1 } input.2).2

/-- The window handles a sequence of events, one after the other. -/
def handleEvents (delegate : WebOSEvent → Bool) (s : State)
    (inputs : List (NativeWindowState × WebOSEvent)) : State :=
  inputs.foldl (handleEvent delegate) s

/-- The number of `MouseButtonPress` events in a sequence of events. -/
def pressEvents (inputs : List (NativeWindowState × WebOSEvent)) : Nat :=
  inputs.countP fun input => decide (input.2.type = WebOSEventType.MouseButtonPress)

/-- From `s` to `t` the recorded mouse event is kept, calls are only added, and
no event is forwarded to the web app. -/
def Quiet (s t : State) : Prop :=
  t.m_lastMouseEvent = s.m_lastMouseEvent ∧
  ∃ added, t.calls = s.calls ++ added ∧ forwardedEvents added = 0

/-- From `s` to `t` calls are only added, and the events forwarded to the web
app, together with a press still pending in `t`, are at most `n` more than a
press pending in `s`. -/
def Balanced (n : Nat) (s t : State) : Prop :=
  ∃ added, t.calls = s.calls ++ added ∧
    forwardedEvents added + pendingPress t ≤ pendingPress s + n

/-! ## The operations of a web app and its window -/

/-- What the two source files take from outside: the key masks, the display id
that stands for "undefined", the overlay window type, `QVariant::toInt`, the
result of `WebAppWindowDelegate::event`, and the `float` quotient of two
`int`s. -/
structure Externals where
  K : WebOSKeyMask
  kUndefinedDisplayId : Int
  WT_OVERLAY : String
  toInt : QJsonValue → Int
  delegate : WebOSEvent → Bool
  floatDiv : Int → Int → Float32

/-- A call, with its arguments, of a member function of `WebAppWayland` or (the
operations named `window_...`) of `WebAppWaylandWindow` on an app that exists.
The member functions that only read (`isFocused`, `isActivated`, `isMinimized`,
`isNormal`, `isKeyboardVisible`, `CheckKeyFilterTable`) or only write log lines
(`logEventDebugging`) change nothing and are not listed; the constructors make a
new app or window. -/
inductive Operation where
  | init (width height : Int)
  | startLaunchTimer
  | onDelegateWindowFrameSwapped
  | onLaunchTimeout
  | forwardWebOSEvent (event : WebOSMouseEvent)
  | attach
  | detach
  | suspendAppRendering
  | resumeAppRendering
  | resize (width height : Int)
  | onStageActivated
  | onStageDeactivated
  | configureWindow (type : String)
  | setupWindowGroup (desc : Bool)
  | setKeyMaskValue (keyMask : Nat) (value : Bool)
  | applyInputRegion
  | setInputRegion (jsonDoc : QJsonDocument)
  | setWindowProperty (name : String) (value : QVariant)
  | platformBack
  | setCursor (cursorArg : String) (hotspot_x hotspot_y : Int)
  | setKeyMask (jsonDoc : QJsonDocument)
  | setKeyMaskMask (keyMask : Nat)
  | focusOwner
  | focusLayer
  | setOpacity (opacity : Float32)
  | hide (forcedHide : Bool)
  | focus
  | unfocus
  | doAttach
  | raise
  | goBackground
  | webPageLoadFinishedSlot
  | webPageLoadFailedSlot
  | doClose
  | stateAboutToChange (willBe : NativeWindowState)
  | stateChanged (newState : NativeWindowState)
  | showWindow
  | hideWindow
  | showWindowSlot
  | titleChanged
  | firstFrameVisuallyCommitted
  | postEvent (ev : WebOSEvent)
  | navigationHistoryChanged
  | webViewRecreatedSlot
  | didSwapPageCompositorFrame
  | didResumeDOM
  | sendWebOSMouseEvent (eventName : String)
  | deleteSurfaceGroup
  | setKeepAlive (keepAlive : Bool)
  | moveInputRegion (height : Int)
  | keyboardVisibilityChanged (visible : Bool) (height : Int)
  | setUseVirtualKeyboard (enable : Bool)
  | window_take
  | window_prepare
  | window_createWindow
  | window_hide
  | window_show
  | window_platformBack
  | window_setCursor (cursorArg : String) (hotspot_x hotspot_y : Int)
  | window_attachWebContents
  | window_event (event : WebOSEvent)
  | window_onCursorVisibileChangeEvent
  | window_sendKeyCode (keyCode : Int)

/-- The state an operation leaves; `none` when a conversion to `int` in
`setInputRegion` is not defined.  Results other than the state are dropped. -/
def Operation.run (X : Externals) (s : State) : Operation → Option State
  | Operation.init width height => some (WebAppWayland.init X.K X.kUndefinedDisplayId s width height)
  | Operation.startLaunchTimer => some (WebAppWayland.startLaunchTimer s)
  | Operation.onDelegateWindowFrameSwapped => some (WebAppWayland.onDelegateWindowFrameSwapped s)
  | Operation.onLaunchTimeout => some (WebAppWayland.onLaunchTimeout s)
  | Operation.forwardWebOSEvent event => some (WebAppWayland.forwardWebOSEvent s event)
  | Operation.attach => some (WebAppWayland.attach X.K X.floatDiv s)
  | Operation.detach => some (WebAppWayland.detach s)
  | Operation.suspendAppRendering => some (WebAppWayland.suspendAppRendering s)
  | Operation.resumeAppRendering => some (WebAppWayland.resumeAppRendering s)
  | Operation.resize width height => some (WebAppWayland.resize s width height)
  | Operation.onStageActivated => some (WebAppWayland.onStageActivated s)
  | Operation.onStageDeactivated => some (WebAppWayland.onStageDeactivated s)
  | Operation.configureWindow type => some (WebAppWayland.configureWindow X.K s type)
  | Operation.setupWindowGroup desc => some (WebAppWayland.setupWindowGroup s desc)
  | Operation.setKeyMaskValue keyMask value => some (WebAppWayland.setKeyMaskValue s keyMask value)
  | Operation.applyInputRegion => some (WebAppWayland.applyInputRegion s)
  | Operation.setInputRegion jsonDoc => WebAppWayland.setInputRegion X.toInt s jsonDoc
  | Operation.setWindowProperty name value => some (WebAppWayland.setWindowProperty X.K s name value)
  | Operation.platformBack => some (WebAppWayland.platformBack s)
  | Operation.setCursor cursorArg hotspot_x hotspot_y =>
    some (WebAppWayland.setCursor s cursorArg hotspot_x hotspot_y)
  | Operation.setKeyMask jsonDoc => some (WebAppWayland.setKeyMask X.K s jsonDoc)
  | Operation.setKeyMaskMask keyMask => some (WebAppWayland.setKeyMaskMask s keyMask)
  | Operation.focusOwner => some (WebAppWayland.focusOwner s)
  | Operation.focusLayer => some (WebAppWayland.focusLayer s)
  | Operation.setOpacity opacity => some (WebAppWayland.setOpacity s opacity)
  | Operation.hide forcedHide => some (WebAppWayland.hide s forcedHide)
  | Operation.focus => some (WebAppWayland.focus s)
  | Operation.unfocus => some (WebAppWayland.unfocus s)
  | Operation.doAttach => some (WebAppWayland.doAttach s)
  | Operation.raise => some (WebAppWayland.raise X.WT_OVERLAY s)
  | Operation.goBackground => some (WebAppWayland.goBackground X.WT_OVERLAY s)
  | Operation.webPageLoadFinishedSlot => some (WebAppWayland.webPageLoadFinishedSlot s)
  | Operation.webPageLoadFailedSlot => some (WebAppWayland.webPageLoadFailedSlot s)
  | Operation.doClose => some (WebAppWayland.doClose s)
  | Operation.stateAboutToChange willBe => some (WebAppWayland.stateAboutToChange s willBe)
  | Operation.stateChanged newState => some (WebAppWayland.stateChanged s newState)
  | Operation.showWindow => some (WebAppWayland.showWindow s)
  | Operation.hideWindow => some (WebAppWayland.hideWindow s).2
  | Operation.showWindowSlot => some (WebAppWayland.showWindowSlot s)
  | Operation.titleChanged => some (WebAppWayland.titleChanged X.K s)
  | Operation.firstFrameVisuallyCommitted => some (WebAppWayland.firstFrameVisuallyCommitted s)
  | Operation.postEvent ev => some (WebAppWayland.postEvent X.delegate s ev)
  | Operation.navigationHistoryChanged => some (WebAppWayland.navigationHistoryChanged X.K s)
  | Operation.webViewRecreatedSlot => some (WebAppWayland.webViewRecreatedSlot s)
  | Operation.didSwapPageCompositorFrame => some (WebAppWayland.didSwapPageCompositorFrame s)
  | Operation.didResumeDOM => some (WebAppWayland.didResumeDOM s)
  | Operation.sendWebOSMouseEvent eventName => some (WebAppWayland.sendWebOSMouseEvent s eventName)
  | Operation.deleteSurfaceGroup => some (WebAppWayland.deleteSurfaceGroup s)
  | Operation.setKeepAlive keepAlive => some (WebAppWayland.setKeepAlive s keepAlive)
  | Operation.moveInputRegion height => some (WebAppWayland.moveInputRegion s height)
  | Operation.keyboardVisibilityChanged visible height =>
    some (WebAppWayland.keyboardVisibilityChanged s visible height)
  | Operation.setUseVirtualKeyboard enable => some (WebAppWayland.setUseVirtualKeyboard s enable)
  | Operation.window_take => some (WebAppWaylandWindow.take s).2
  | Operation.window_prepare => some (WebAppWaylandWindow.prepare s)
  | Operation.window_createWindow => some (WebAppWaylandWindow.createWindow s).2
  | Operation.window_hide => some (WebAppWaylandWindow.hide s)
  | Operation.window_show => some (WebAppWaylandWindow.show_ s)
  | Operation.window_platformBack => some (WebAppWaylandWindow.platformBack s)
  | Operation.window_setCursor cursorArg hotspot_x hotspot_y =>
    some (WebAppWaylandWindow.setCursor s cursorArg hotspot_x hotspot_y)
  | Operation.window_attachWebContents => some (WebAppWaylandWindow.attachWebContents s)
  | Operation.window_event event => some (WebAppWaylandWindow.event X.delegate s event).2
  | Operation.window_onCursorVisibileChangeEvent =>
    some (WebAppWaylandWindow.onCursorVisibileChangeEvent s).2
  | Operation.window_sendKeyCode keyCode => some (WebAppWaylandWindow.sendKeyCode s keyCode)

/-- The state a sequence of operations leaves, if each of them leaves one. -/
def runOperations (X : Externals) : State → List Operation → Option State
  | s, [] => some s
  | s, op :: rest => (op.run X s).bind fun t => runOperations X t rest

/-- A `float` quotient to evaluate the code with: both `int`s are converted to
`float`, and the exact quotient is rounded to nearest, ties to even (the low
bit of `2 * q + sticky` records whether the division left a remainder).  The
code divides by a non-zero value only; for 0 the sample gives 0. -/
def sampleFloatDiv (a b : Int) : Float32 :=
  let x := Float32.round a 0
  let y := Float32.round b 0
  if y.mant = 0 then ⟨0, 0⟩
  else
    let n := x.mant.natAbs * 2 ^ 64
    let d := y.mant.natAbs
    let q := n / d
    let sticky := if n % d = 0 then 0 else 1
    Float32.round (x.mant.sign * y.mant.sign * ((2 * q + sticky : Nat) : Int))
      (x.exp - y.exp - 65)

/-- The externals to evaluate the code with. -/
def sampleExternals : Externals where
  K := sampleKeyMask
  kUndefinedDisplayId := -1
  WT_OVERLAY := "_WEBOS_WINDOW_TYPE_OVERLAY"
  toInt := sampleToInt
  delegate := fun _ => false
  floatDiv := sampleFloatDiv

/-- The calls `onStageDeactivated` makes, in their order. -/
def onStageDeactivatedCalls : List Call :=
  [Call.suspendWebPageMedia, Call.setFocus false,
    Call.setVisibilityState WebPageVisibilityState.WebPageVisibilityStateHidden,
    Call.suspendWebPageAll]

/-- The calls of `onStageDeactivated` are among `added`, one directly after the
other. -/
def ranOnStageDeactivated (added : List Call) : Prop :=
  ∃ before after, added = before ++ onStageDeactivatedCalls ++ after

/-- From `s` to `t` calls are only added, an enabled input region stays
enabled, and `m_didActivateStage` is cleared only if `onStageDeactivated` ran. -/
def Later (s t : State) : Prop :=
  (s.m_enableInputRegion = true → t.m_enableInputRegion = true) ∧
  ∃ added, t.calls = s.calls ++ added ∧
    (s.m_didActivateStage = true → t.m_didActivateStage = false → ranOnStageDeactivated added)

/-! ## The key filter table -/

/-- Conversion of an integer value to `unsigned int`: the value modulo `2 ^ 32`. -/
def toUnsigned (z : Int) : Nat := (z % 2 ^ 32).toNat

namespace WebAppWaylandWindow

/-- `WebAppWaylandWindow::CheckKeyFilterTable`: the value returned and `*modifier`
afterwards.  `keyOf` is the conversion of the `unsigned` keycode to the key type of
the table, declared outside the sources.  `none` when `m_webApp` is null. -/
def CheckKeyFilterTable (keyOf : Nat → Int) (s : State) (keycode modifier : Nat) :
    Option (Nat × Nat) :=
  if !s.m_webApp then none
  else
    let table := s.keyFilterTable
    if table.isEmpty then some (0, modifier)
    else
      match table.lookup (keyOf keycode) with
      | none => some (0, modifier)
      | some found =>
        let modifier := toUnsigned found.2
        some (toUnsigned found.1, modifier)

end WebAppWaylandWindow

/-! ## Location hints -/

/-- The nine names of a location hint. -/
def locationHintNames : List String :=
  ["north", "west", "south", "east", "center", "northwest", "northeast", "southwest",
    "southeast"]

/-- The hints passed to the window's `SetLocationHint` among `calls`, in their
order. -/
def locationHintCalls (calls : List Call) : List LocationHint :=
  calls.filterMap fun c =>
    match c with
    | Call.SetLocationHint hint => some hint
    | _ => none

/-- From `s` to `t` the location-hint string is kept, calls are only added, and
`SetLocationHint` is not among them. -/
def HintKept (s t : State) : Prop :=
  t.m_locationHint = s.m_locationHint ∧
  ∃ added, t.calls = s.calls ++ added ∧ locationHintCalls added = []

/-! # Proofs -/

/-! ## Key masks (C1) -/

theorem QMap.value_nil {T : Type} (dflt : T) (name : String) :
    QMap.value dflt ([] : QMap T) name = dflt := rfl

theorem QMap.value_assign {T : Type} (dflt : T) (m : QMap T) (k : String) (v : T)
    (name : String) :
    QMap.value dflt (QMap.assign m k v) name =
      if name = k then v else QMap.value dflt m name := by
  induction m with
  | nil => simp [QMap.assign, QMap.value]
  | cons hd tl ih =>
    obtain ⟨k', v'⟩ := hd
    by_cases h : k' = k
    · subst h
      by_cases h' : name = k' <;> simp [QMap.assign, QMap.value, h']
    · by_cases h' : name = k'
      · subst h'
        simp [QMap.assign, QMap.value, h]
      · simp [QMap.assign, QMap.value, h, h', ih]

/-- Looking a name up in the table built by `getKeyMaskTable` gives the mask
`keyMaskOfName` lists for it. -/
theorem value_getKeyMaskTable (K : WebOSKeyMask) (name : String) :
    QMap.value 0 (getKeyMaskTable K) name = keyMaskOfName K name := by
  unfold getKeyMaskTable
  conv => zeta
  iterate 18 rw [QMap.value_assign]
  rw [QMap.value_nil]
  by_cases h18 : name = "KeyMaskDefault"
  · subst h18; simp only [keyMaskOfName, String.reduceEq, ↓reduceIte]
  rw [if_neg h18]
  by_cases h17 : name = "KeyMaskTeletext"
  · subst h17; simp only [keyMaskOfName, String.reduceEq, ↓reduceIte]
  rw [if_neg h17]
  by_cases h16 : name = "KeyMaskPlayback"
  · subst h16; simp only [keyMaskOfName, String.reduceEq, ↓reduceIte]
  rw [if_neg h16]
  by_cases h15 : name = "KeyMaskProgramme"
  · subst h15; simp only [keyMaskOfName, String.reduceEq, ↓reduceIte]
  rw [if_neg h15]
  by_cases h14 : name = "KeyMaskBlue"
  · subst h14; simp only [keyMaskOfName, String.reduceEq, ↓reduceIte]
  rw [if_neg h14]
  by_cases h13 : name = "KeyMaskYellow"
  · subst h13; simp only [keyMaskOfName, String.reduceEq, ↓reduceIte]
  rw [if_neg h13]
  by_cases h12 : name = "KeyMaskGreen"
  · subst h12; simp only [keyMaskOfName, String.reduceEq, ↓reduceIte]
  rw [if_neg h12]
  by_cases h11 : name = "KeyMaskRed"
  · subst h11; simp only [keyMaskOfName, String.reduceEq, ↓reduceIte]
  rw [if_neg h11]
  by_cases h10 : name = "KeyMaskNumeric"
  · subst h10; simp only [keyMaskOfName, String.reduceEq, ↓reduceIte]
  rw [if_neg h10]
  by_cases h9 : name = "KeyMaskOk"
  · subst h9; simp only [keyMaskOfName, String.reduceEq, ↓reduceIte]
  rw [if_neg h9]
  by_cases h8 : name = "KeyMaskDown"
  · subst h8; simp only [keyMaskOfName, String.reduceEq, ↓reduceIte]
  rw [if_neg h8]
  by_cases h7 : name = "KeyMaskUp"
  · subst h7; simp only [keyMaskOfName, String.reduceEq, ↓reduceIte]
  rw [if_neg h7]
  by_cases h6 : name = "KeyMaskRight"
  · subst h6; simp only [keyMaskOfName, String.reduceEq, ↓reduceIte]
  rw [if_neg h6]
  by_cases h5 : name = "KeyMaskLeft"
  · subst h5; simp only [keyMaskOfName, String.reduceEq, ↓reduceIte]
  rw [if_neg h5]
  by_cases h4 : name = "KeyMaskExit"
  · subst h4; simp only [keyMaskOfName, String.reduceEq, ↓reduceIte]
  rw [if_neg h4]
  by_cases h3 : name = "KeyMaskBack"
  · subst h3; simp only [keyMaskOfName, String.reduceEq, ↓reduceIte]
  rw [if_neg h3]
  by_cases h2 : name = "KeyMaskHome"
  · subst h2; simp only [keyMaskOfName, String.reduceEq, ↓reduceIte]
  rw [if_neg h2]
  by_cases h1 : name = "KeyMaskNone"
  · subst h1; simp only [keyMaskOfName, String.reduceEq, ↓reduceIte]
  rw [if_neg h1]
  exact (keyMaskOfName.eq_19 K name h1 h2 h3 h4 h5 h6 h7 h8 h9 h10 h11 h12 h13 h14 h15 h16 h17 h18).symm

theorem keyMaskOfName_lt (K : WebOSKeyMask) (hK : K.fits32) (name : String) :
    keyMaskOfName K name < 2 ^ 32 := by
  obtain ⟨h1, h2, h3, h4, h5, h6, h7, h8, h9, h10, h11, h12, h13, h14, h15, h16, h17⟩ := hK
  unfold keyMaskOfName
  split <;> first | assumption | decide

theorem value_toQString (K : WebOSKeyMask) (e : QJsonValue) :
    QMap.value 0 (getKeyMaskTable K) e.toQString = keyMaskContribution K e := by
  rw [value_getKeyMaskTable]
  cases e <;> rfl

theorem keyMaskContribution_lt (K : WebOSKeyMask) (hK : K.fits32) (e : QJsonValue) :
    keyMaskContribution K e < 2 ^ 32 := by
  cases e <;> first | exact keyMaskOfName_lt K hK _ | (simp [keyMaskContribution])

theorem or_mod_two_pow (a b n : Nat) : (a ||| b) % 2 ^ n = a % 2 ^ n ||| b % 2 ^ n := by
  apply Nat.eq_of_testBit_eq
  intro i
  simp only [Nat.testBit_mod_two_pow, Nat.testBit_or]
  cases decide (i < n) <;> simp

theorem foldl_or_mod (cs : List Nat) : ∀ x : Nat,
    (cs.foldl (fun m c => m ||| c) (x % 2 ^ 32)) % 2 ^ 32 =
      (cs.foldl (fun m c => m ||| c) x) % 2 ^ 32 := by
  induction cs with
  | nil => intro x; simp
  | cons c rest ih =>
    intro x
    simp only [List.foldl_cons]
    rw [← ih (x % 2 ^ 32 ||| c), ← ih (x ||| c), or_mod_two_pow, Nat.mod_mod, ← or_mod_two_pow]

theorem foldl_or_lt (cs : List Nat) (hcs : ∀ c ∈ cs, c < 2 ^ 32) : ∀ x : Nat, x < 2 ^ 32 →
    cs.foldl (fun m c => m ||| c) x < 2 ^ 32 := by
  induction cs with
  | nil => intro x hx; exact hx
  | cons c rest ih =>
    intro x hx
    exact ih (fun c' hc' => hcs c' (List.mem_cons_of_mem _ hc')) _
      (Nat.or_lt_two_pow hx (hcs c (List.mem_cons_self _ _)))

theorem setKeyMaskLoop_eq (K : WebOSKeyMask) (jsonArray : List QJsonValue) :
    ∀ (todo i keyMask : Nat), i + todo = jsonArray.length → keyMask < 2 ^ 32 →
      setKeyMaskLoop (getKeyMaskTable K) jsonArray todo i keyMask =
        ((jsonArray.drop i).map (keyMaskContribution K)).foldl (fun m c => m ||| c) keyMask
          % 2 ^ 32 := by
  intro todo
  induction todo with
  | zero =>
    intro i keyMask hi hlt
    have : jsonArray.drop i = [] := List.drop_eq_nil_of_le (by omega)
    rw [setKeyMaskLoop, this]
    exact (Nat.mod_eq_of_lt hlt).symm
  | succ todo ih =>
    intro i keyMask hi hlt
    have hlen : i < jsonArray.length := by omega
    have hat : jsonAt jsonArray i = jsonArray[i] := by
      simp [jsonAt, List.getElem?_eq_getElem hlen]
    rw [setKeyMaskLoop, hat, value_toQString,
      ih (i + 1) _ (by omega) (Nat.mod_lt _ (Nat.two_pow_pos 32)), foldl_or_mod,
      List.drop_eq_getElem_cons hlen]
    rfl

theorem keyMaskOfDocument_eq (K : WebOSKeyMask) (jsonDoc : QJsonDocument) :
    keyMaskOfDocument K jsonDoc = expectedKeyMask K jsonDoc % 2 ^ 32 := by
  cases jsonDoc with
  | array a =>
    simp only [keyMaskOfDocument, QJsonDocument.isArray, QJsonDocument.toArray, if_true,
      expectedKeyMask]
    rw [setKeyMaskLoop_eq K a a.length 0 0 (by omega) (by decide)]
    rfl
  | null => rfl
  | object o => rfl

theorem expectedKeyMask_lt (K : WebOSKeyMask) (hK : K.fits32) (jsonDoc : QJsonDocument) :
    expectedKeyMask K jsonDoc < 2 ^ 32 := by
  cases jsonDoc with
  | array a =>
    apply foldl_or_lt _ _ 0 (by decide)
    intro c hc
    obtain ⟨e, _, rfl⟩ := List.mem_map.mp hc
    exact keyMaskContribution_lt K hK e
  | null => exact Nat.two_pow_pos 32
  | object o => exact Nat.two_pow_pos 32

/-- C1: for every JSON document `setKeyMask(jsonDoc)` changes nothing but the call
log, to which it adds exactly one `SetKeyMask` call.  Its argument is the
`unsigned int` holding the bitwise OR of the contributions of the array's
elements (the mapped mask for each of the 18 table names, 0 for any other name
and for a non-string element), and 0 for a document that is not an array; with
the enumerators of `WebOSKeyMask` fitting 32 bits, it is that bitwise OR
itself. -/
theorem C1_setKeyMask_or_of_table_values (K : WebOSKeyMask) (s : State)
    (jsonDoc : QJsonDocument) :
    WebAppWayland.setKeyMask K s jsonDoc =
      { s with calls := s.calls ++ [Call.SetKeyMask (expectedKeyMask K jsonDoc % 2 ^ 32)] } ∧
    (K.fits32 →
      WebAppWayland.setKeyMask K s jsonDoc =
        { s with calls := s.calls ++ [Call.SetKeyMask (expectedKeyMask K jsonDoc)] }) := by
  refine ⟨?_, ?_⟩
  · simp only [WebAppWayland.setKeyMask, State.call, keyMaskOfDocument_eq]
  · intro hK
    simp only [WebAppWayland.setKeyMask, State.call, keyMaskOfDocument_eq,
      Nat.mod_eq_of_lt (expectedKeyMask_lt K hK jsonDoc)]

theorem sampleKeyMask_fits32 : sampleKeyMask.fits32 := by decide

/-- C1, on the document `["KeyMaskHome", 3, "NoSuchKey", "KeyMaskExit"]`: the one
call made is `SetKeyMask(KEY_MASK_HOME | KEY_MASK_EXIT)`. -/
theorem C1_setKeyMask_or_of_table_values_witness :
    sampleKeyMask.fits32 ∧
    WebAppWayland.setKeyMask sampleKeyMask sampleState sampleKeyMaskDocument =
      { sampleState with calls := [Call.SetKeyMask 5] } :=
  ⟨sampleKeyMask_fits32,
    (C1_setKeyMask_or_of_table_values sampleKeyMask sampleState sampleKeyMaskDocument).2
      sampleKeyMask_fits32⟩

/-! ## The input region (C2) -/

theorem excessBits_zero (fuel n : Nat) (h : n < 2 ^ 24) : excessBits fuel n = 0 := by
  cases fuel with
  | zero => rfl
  | succ fuel => simp only [excessBits, if_pos h]

theorem excessBits_le : ∀ (fuel n j : Nat), n < 2 ^ (24 + j) → excessBits fuel n ≤ j := by
  intro fuel
  induction fuel with
  | zero => intro n j _; simp [excessBits]
  | succ fuel ih =>
    intro n j h
    rw [excessBits]
    split
    · omega
    · rename_i hn
      cases j with
      | zero => exact absurd h hn
      | succ j =>
        have h2 : n / 2 < 2 ^ (24 + j) := by
          apply Nat.div_lt_of_lt_mul
          rw [show 24 + (j + 1) = (24 + j) + 1 from rfl, Nat.pow_succ] at h
          omega
        have := ih (n / 2) j h2
        omega

theorem roundShift_mul_pow (a j k : Nat) (hk : k ≤ j) :
    roundShift (a * 2 ^ j) k = a * 2 ^ (j - k) := by
  have hsplit : a * 2 ^ j = (a * 2 ^ (j - k)) * 2 ^ k := by
    rw [Nat.mul_assoc, ← Nat.pow_add, Nat.sub_add_cancel hk]
  have hpos : 0 < 2 ^ k := Nat.two_pow_pos _
  simp only [roundShift, hsplit, Nat.mul_mod_left, Nat.mul_div_cancel _ hpos]
  simp [hpos]

theorem round_of_small (v : Int) (hv : v.natAbs < 2 ^ 24) : Float32.round v 0 = ⟨v, 0⟩ := by
  simp [Float32.round, excessBits_zero _ _ hv]

/-- Multiplying a `float` of at most 24 bits by 1 is exact. -/
theorem round_mul_one (m : Int) (e j : Nat) (hm : m.natAbs < 2 ^ 24) :
    ∃ i : Nat, Float32.round (m * 2 ^ j) ((e : Int) + -(j : Int)) =
      ⟨m * 2 ^ i, (e : Int) - (i : Int)⟩ := by
  have hn : (m * 2 ^ j).natAbs = m.natAbs * 2 ^ j := by
    rw [Int.natAbs_mul, Int.natAbs_pow]; rfl
  have hlt : m.natAbs * 2 ^ j < 2 ^ (24 + j) := by
    rw [Nat.pow_add]
    exact Nat.mul_lt_mul_of_lt_of_le hm (Nat.le_refl _) (Nat.two_pow_pos _)
  have hex := excessBits_le (m.natAbs * 2 ^ j) (m.natAbs * 2 ^ j) j hlt
  have hto : (-149 - ((e : Int) + -(j : Int))).toNat ≤ j := by omega
  have hk : max (excessBits (m.natAbs * 2 ^ j) (m.natAbs * 2 ^ j))
      (-149 - ((e : Int) + -(j : Int))).toNat ≤ j := Nat.max_le.mpr ⟨hex, hto⟩
  simp only [Float32.round, hn]
  split
  · refine ⟨j, ?_⟩
    congr 1
  · refine ⟨j - max (excessBits (m.natAbs * 2 ^ j) (m.natAbs * 2 ^ j))
      (-149 - ((e : Int) + -(j : Int))).toNat, ?_⟩
    rw [roundShift_mul_pow _ _ _ hk]
    have hsign : (m * 2 ^ j).sign = m.sign := by
      rw [Int.sign_mul, Int.sign_eq_one_of_pos (pow_pos (by decide) j), Int.mul_one]
    rw [hsign]
    congr 1
    · push_cast
      rw [← Int.mul_assoc, Int.sign_mul_abs]
    · omega

theorem natAbs_le_of_isInt32 (v : Int) (h : isInt32 v) : v.natAbs ≤ 2 ^ 31 := by
  unfold isInt32 at h
  norm_num at h ⊢
  omega

/-- An `int` that its conversion to `float` holds exactly comes back unchanged
from a multiplication by 1. -/
theorem scaleInt_one_of_exact (s : Float32) (hs : s.isOne) (v m : Int) (e : Nat)
    (hround : Float32.round v 0 = ⟨m, (e : Int)⟩) (hm : m.natAbs < 2 ^ 24)
    (hv : m * 2 ^ e = v) (hrange : isInt32 v) :
    scaleInt s v = some v := by
  obtain ⟨hexp, hmant⟩ := hs
  have he : s.exp = -(((-s.exp).toNat : Nat) : Int) := by omega
  generalize (-s.exp).toNat = j at hmant he
  obtain ⟨i, hi⟩ := round_mul_one m e j hm
  simp only [scaleInt, hround, hmant, he, hi]
  have hvabs : v.natAbs = m.natAbs * 2 ^ e := by
    rw [← hv, Int.natAbs_mul, Int.natAbs_pow]; rfl
  have hvlt : v.natAbs < 2 ^ 128 := lt_of_le_of_lt (natAbs_le_of_isInt32 v hrange) (by decide)
  have hsum : i + ((e : Int) - (i : Int)).toNat = e + (-((e : Int) - (i : Int))).toNat := by
    omega
  have hfin : Float32.isFinite ⟨m * 2 ^ i, (e : Int) - (i : Int)⟩ = true := by
    simp only [Float32.isFinite, decide_eq_true_eq]
    rw [Int.natAbs_mul, Int.natAbs_pow, show Int.natAbs 2 = 2 from rfl, Nat.mul_assoc,
      ← Nat.pow_add, hsum, Nat.pow_add, ← Nat.mul_assoc, ← hvabs, Nat.pow_add 2 128]
    exact Nat.mul_lt_mul_of_lt_of_le hvlt (Nat.le_refl _) (Nat.two_pow_pos _)
  rw [if_pos hfin]
  have ht : (if 0 ≤ (e : Int) - (i : Int) then m * 2 ^ i * 2 ^ ((e : Int) - (i : Int)).toNat
      else (m * 2 ^ i).tdiv (2 ^ (-((e : Int) - (i : Int))).toNat)) = v := by
    split
    · have h1 : ((e : Int) - (i : Int)).toNat = e - i := by omega
      have h2 : i + (e - i) = e := by omega
      rw [h1, Int.mul_assoc, ← pow_add, h2, hv]
    · have h1 : (-((e : Int) - (i : Int))).toNat = i - e := by omega
      have h2 : e + (i - e) = i := by omega
      have hpow : m * 2 ^ i = m * 2 ^ e * 2 ^ (i - e) := by
        rw [Int.mul_assoc, ← pow_add, h2]
      rw [h1, hpow, hv]
      exact Int.mul_tdiv_cancel _ (ne_of_gt (pow_pos (by decide : (0 : Int) < 2) (i - e)))
  simp only [Float32.toInt, ht]
  exact if_pos hrange

theorem scaleInt_one (s : Float32) (hs : s.isOne) (v : Int) (hv : v.natAbs ≤ 2 ^ 24) :
    scaleInt s v = some v := by
  have hrange : isInt32 v := by
    unfold isInt32
    norm_num at hv ⊢
    omega
  rcases Nat.lt_or_ge v.natAbs (2 ^ 24) with hlt | hge
  · exact scaleInt_one_of_exact s hs v v 0 (round_of_small v hlt) hlt (by simp) hrange
  · have habs : v.natAbs = 2 ^ 24 := Nat.le_antisymm hv hge
    have hcases : v = 2 ^ 24 ∨ v = -(2 ^ 24) := by omega
    rcases hcases with h | h
    · subst h
      exact scaleInt_one_of_exact s hs _ (2 ^ 23) 1 (by decide) (by decide) (by decide) hrange
    · subst h
      exact scaleInt_one_of_exact s hs _ (-(2 ^ 23)) 1 (by decide) (by decide) (by decide)
        hrange

theorem setInputRegionLoop_eq (toInt : QJsonValue → Int) (sc : Float32)
    (jsonArray : List QJsonValue) :
    ∀ (todo i : Nat) (region : List Rect), i + todo = jsonArray.length →
      WebAppWayland.setInputRegionLoop toInt sc jsonArray todo i region =
        (scaledRects toInt sc (jsonArray.drop i)).map (fun rects => region ++ rects) := by
  intro todo
  induction todo with
  | zero =>
    intro i region hi
    have : jsonArray.drop i = [] := List.drop_eq_nil_of_le (by omega)
    simp [WebAppWayland.setInputRegionLoop, this, scaledRects]
  | succ todo ih =>
    intro i region hi
    have hlen : i < jsonArray.length := by omega
    have hat : jsonAt jsonArray i = jsonArray[i] := by
      simp [jsonAt, List.getElem?_eq_getElem hlen]
    rw [WebAppWayland.setInputRegionLoop, hat, List.drop_eq_getElem_cons hlen]
    simp only [scaledRects, scaledRect]
    cases scaleInt sc (WebAppWayland.fieldToInt toInt jsonArray[i].toVariantMap "x") with
    | none => rfl
    | some x =>
      cases scaleInt sc (WebAppWayland.fieldToInt toInt jsonArray[i].toVariantMap "y") with
      | none => rfl
      | some y =>
        cases scaleInt sc (WebAppWayland.fieldToInt toInt jsonArray[i].toVariantMap "width") with
        | none => rfl
        | some w =>
          cases scaleInt sc
            (WebAppWayland.fieldToInt toInt jsonArray[i].toVariantMap "height") with
          | none => rfl
          | some h =>
            simp only [Option.bind_eq_bind, Option.some_bind, Option.pure_def]
            rw [ih (i + 1) _ (by omega)]
            cases scaledRects toInt sc (List.drop (i + 1) jsonArray) <;> simp

theorem scaledRects_eq_some_iff (toInt : QJsonValue → Int) (sc : Float32) :
    ∀ (elements : List QJsonValue) (rects : List Rect),
      scaledRects toInt sc elements = some rects ↔
        List.Forall₂ (fun element rect => scaledRect toInt sc element = some rect)
          elements rects := by
  intro elements
  induction elements with
  | nil =>
    intro rects
    simp [scaledRects, eq_comm]
  | cons e es ih =>
    intro rects
    cases rects with
    | nil =>
      simp only [scaledRects, List.forall₂_nil_right_iff]
      cases scaledRect toInt sc e <;> cases scaledRects toInt sc es <;> simp
    | cons r rs =>
      simp only [scaledRects, List.forall₂_cons, ← ih]
      cases scaledRect toInt sc e <;> cases scaledRects toInt sc es <;> simp

theorem scaledRect_one (toInt : QJsonValue → Int) (sc : Float32) (hsc : sc.isOne)
    (element : QJsonValue) (h : fieldsWithin24Bits toInt element) :
    scaledRect toInt sc element = some (fieldRect toInt element) := by
  obtain ⟨hx, hy, hw, hh⟩ := h
  simp [scaledRect, fieldRect, scaleInt_one sc hsc _ hx, scaleInt_one sc hsc _ hy,
    scaleInt_one sc hsc _ hw, scaleInt_one sc hsc _ hh]

theorem scaledRects_one (toInt : QJsonValue → Int) (sc : Float32) (hsc : sc.isOne) :
    ∀ (elements : List QJsonValue), (∀ e ∈ elements, fieldsWithin24Bits toInt e) →
      scaledRects toInt sc elements = some (elements.map (fieldRect toInt)) := by
  intro elements
  induction elements with
  | nil => intro _; rfl
  | cons e es ih =>
    intro h
    simp [scaledRects, scaledRect_one toInt sc hsc e (h e (List.mem_cons_self _ _)),
      ih (fun e' he' => h e' (List.mem_cons_of_mem _ he'))]

theorem setInputRegion_array (toInt : QJsonValue → Int) (s : State) (a : List QJsonValue) :
    WebAppWayland.setInputRegion toInt s (QJsonDocument.array a) =
      (scaledRects toInt s.m_scaleFactor a).map (fun region =>
        { s with m_inputRegion := region, calls := s.calls ++ [Call.SetInputRegion region] }) := by
  simp only [WebAppWayland.setInputRegion, QJsonDocument.isArray, QJsonDocument.toArray,
    if_true]
  rw [setInputRegionLoop_eq toInt _ a a.length 0 _ (by omega)]
  simp only [List.drop_zero]
  cases scaledRects toInt s.m_scaleFactor a <;> simp [State.call]

/-- C2 (as stated, refuted): with scale factor 1 the document `[{"x": 16777217}]`
gives a rectangle whose `x` is 16777216, while the element's field is 16777217:
the field passes through a `float`, which holds 24 significant bits. -/
theorem C2_counterexample_scale_one_not_exact :
    sampleState.m_scaleFactor = ⟨1, 0⟩ ∧
    sampleLargeRegionDocument =
      QJsonDocument.array [QJsonValue.object [("x", QJsonValue.double 16777217)]] ∧
    fieldRect sampleToInt (QJsonValue.object [("x", QJsonValue.double 16777217)]) =
      ⟨16777217, 0, 0, 0⟩ ∧
    (WebAppWayland.setInputRegion sampleToInt sampleState sampleLargeRegionDocument).map
      State.m_inputRegion = some [⟨16777216, 0, 0, 0⟩] := by
  refine ⟨rfl, rfl, ?_, ?_⟩ <;> decide

/-- C2 (amended): for every JSON document, `setInputRegion(jsonDoc)` drops the
previous region.  If the document is not an array the region becomes empty and
is passed to `SetInputRegion`.  If it is an array, the call is defined exactly
when every conversion back to `int` is, and then the region holds one rectangle
per element, in array order, whose `x`, `y`, `width` and `height` are the
element's integer fields (0 when missing) multiplied by the scale factor in
`float` arithmetic and truncated to `int`, and that region is passed to
`SetInputRegion`.  The result does not depend on the previous region.  When the
scale factor is 1 and no field exceeds `2 ^ 24` in magnitude, the
rectangles hold the fields themselves. -/
theorem C2_setInputRegion_replaces_region (toInt : QJsonValue → Int) (s : State) :
    (∀ jsonDoc : QJsonDocument, jsonDoc.isArray = false →
      WebAppWayland.setInputRegion toInt s jsonDoc =
        some { s with m_inputRegion := [], calls := s.calls ++ [Call.SetInputRegion []] }) ∧
    (∀ (a : List QJsonValue) (s' : State),
      WebAppWayland.setInputRegion toInt s (QJsonDocument.array a) = some s' ↔
        ∃ region : List Rect,
          List.Forall₂ (fun element rect => scaledRect toInt s.m_scaleFactor element = some rect)
            a region ∧
          s' = { s with m_inputRegion := region,
                        calls := s.calls ++ [Call.SetInputRegion region] }) ∧
    (∀ (jsonDoc : QJsonDocument) (previous : List Rect),
      WebAppWayland.setInputRegion toInt { s with m_inputRegion := previous } jsonDoc =
        WebAppWayland.setInputRegion toInt s jsonDoc) ∧
    (∀ a : List QJsonValue, s.m_scaleFactor.isOne →
      (∀ element ∈ a, fieldsWithin24Bits toInt element) →
      WebAppWayland.setInputRegion toInt s (QJsonDocument.array a) =
        some { s with m_inputRegion := a.map (fieldRect toInt),
                      calls := s.calls ++ [Call.SetInputRegion (a.map (fieldRect toInt))] }) := by
  refine ⟨?_, ?_, ?_, ?_⟩
  · intro jsonDoc h
    simp [WebAppWayland.setInputRegion, h, State.call]
  · intro a s'
    rw [setInputRegion_array]
    constructor
    · intro h
      cases hr : scaledRects toInt s.m_scaleFactor a with
      | none => rw [hr] at h; exact absurd h (by simp)
      | some region =>
        rw [hr] at h
        exact ⟨region, (scaledRects_eq_some_iff toInt _ a region).mp hr,
          (Option.some.inj h).symm⟩
    · rintro ⟨region, hall, rfl⟩
      rw [(scaledRects_eq_some_iff toInt _ a region).mpr hall]
      rfl
  · intro jsonDoc previous
    rfl
  · intro a hone hsmall
    rw [setInputRegion_array, scaledRects_one toInt _ hone a hsmall]
    rfl

/-- C2 (amended), on the document
`[{"x": 10, "y": 20, "width": 300, "height": 40}, 7, {"width": 5}]` with scale
factor 1. -/
theorem C2_setInputRegion_replaces_region_witness :
    WebAppWayland.setInputRegion sampleToInt sampleState sampleRegionDocument =
      some { sampleState with
        m_inputRegion := [⟨10, 20, 300, 40⟩, ⟨0, 0, 0, 0⟩, ⟨0, 0, 5, 0⟩],
        calls := [Call.SetInputRegion [⟨10, 20, 300, 40⟩, ⟨0, 0, 0, 0⟩, ⟨0, 0, 5, 0⟩]] } :=
  (C2_setInputRegion_replaces_region sampleToInt sampleState).2.2.2 _ (by decide)
    (by decide)

/-! ## Moving the input region (C3, C4) -/

theorem wrapInt32_of_isInt32 (z : Int) (h : isInt32 z) : wrapInt32 z = z := by
  unfold isInt32 at h
  unfold wrapInt32
  norm_num at h ⊢
  omega

theorem wrapInt32_sub_neg (y h : Int) (hy : isInt32 y) :
    wrapInt32 (wrapInt32 (y - h) - wrapInt32 (-h)) = y := by
  unfold isInt32 at hy
  unfold wrapInt32
  norm_num at hy ⊢
  omega

theorem moveInputRegionLoop_eq (vkb : Int) :
    ∀ (region newRegion : List Rect),
      WebAppWayland.moveInputRegionLoop vkb region newRegion =
        newRegion ++ region.map (fun r => Rect.mk r.x (wrapInt32 (r.y - vkb)) r.width r.height) := by
  intro region
  induction region with
  | nil => intro newRegion; simp [WebAppWayland.moveInputRegionLoop]
  | cons r rest ih =>
    intro newRegion
    simp [WebAppWayland.moveInputRegionLoop, ih]

theorem moveInputRegion_enabled (s : State) (height : Int)
    (henabled : s.m_enableInputRegion = true) :
    WebAppWayland.moveInputRegion s height =
      { s with
        m_vkbHeight := if height ≠ 0 then height else wrapInt32 (-s.m_vkbHeight)
        m_inputRegion := s.m_inputRegion.map (fun r => Rect.mk r.x
          (wrapInt32 (r.y - if height ≠ 0 then height else wrapInt32 (-s.m_vkbHeight)))
          r.width r.height)
        calls := s.calls ++ [Call.SetInputRegion (s.m_inputRegion.map (fun r => Rect.mk r.x
          (wrapInt32 (r.y - if height ≠ 0 then height else wrapInt32 (-s.m_vkbHeight)))
          r.width r.height))] } := by
  by_cases hh : height = 0
  · simp [WebAppWayland.moveInputRegion, henabled, hh, moveInputRegionLoop_eq, State.call]
  · simp [WebAppWayland.moveInputRegion, henabled, hh, moveInputRegionLoop_eq, State.call]

theorem moveInputRegion_restore (region : List Rect) (u : State) (h : Int)
    (hint : ∀ r ∈ region, isInt32 r.y) (henabled : u.m_enableInputRegion = true)
    (hregion : u.m_inputRegion =
      region.map (fun r => Rect.mk r.x (wrapInt32 (r.y - h)) r.width r.height))
    (hvkb : u.m_vkbHeight = h) :
    (WebAppWayland.moveInputRegion u 0).m_inputRegion = region := by
  rw [moveInputRegion_enabled u 0 henabled]
  simp only [ne_eq, not_true_eq_false, if_false, hregion, hvkb, List.map_map]
  conv => rhs; rw [← List.map_id region]
  apply List.map_congr_left
  intro r hr
  simp [wrapInt32_sub_neg r.y h (hint r hr)]

/-- C3: for every input region and every non-zero height `h`, when the input
region is enabled `moveInputRegion(h)` records `h` as the keyboard height and
replaces each rectangle `(x, y, w, ht)` by `(x, y - h, w, ht)` (`y - h` being the
`int` subtraction, equal to the difference whenever that is an `int`), keeping
the number and order of rectangles; when the input region is not enabled it
changes nothing, so neither the region nor the keyboard height, and makes no
call. -/
theorem C3_moveInputRegion_shifts_rectangles (s : State) (h : Int) (hh : h ≠ 0) :
    (s.m_enableInputRegion = true →
      WebAppWayland.moveInputRegion s h =
        { s with
          m_vkbHeight := h
          m_inputRegion :=
            s.m_inputRegion.map (fun r => Rect.mk r.x (wrapInt32 (r.y - h)) r.width r.height)
          calls := s.calls ++ [Call.SetInputRegion
            (s.m_inputRegion.map
              (fun r => Rect.mk r.x (wrapInt32 (r.y - h)) r.width r.height))] } ∧
      (WebAppWayland.moveInputRegion s h).m_inputRegion.length = s.m_inputRegion.length ∧
      ((∀ r ∈ s.m_inputRegion, isInt32 (r.y - h)) →
        (WebAppWayland.moveInputRegion s h).m_inputRegion = s.m_inputRegion.map (movedRect h))) ∧
    (s.m_enableInputRegion = false → WebAppWayland.moveInputRegion s h = s) := by
  constructor
  · intro henabled
    rw [moveInputRegion_enabled s h henabled]
    simp only [hh, ne_eq, not_false_eq_true, if_true, List.length_map, true_and]
    intro hrange
    apply List.map_congr_left
    intro r hr
    simp only [movedRect, wrapInt32_of_isInt32 _ (hrange r hr)]
  · intro hdisabled
    simp [WebAppWayland.moveInputRegion, hdisabled]

/-- C3, with the keyboard taking 300 rows of a two-rectangle region. -/
theorem C3_moveInputRegion_shifts_rectangles_witness :
    (300 : Int) ≠ 0 ∧ sampleState.m_enableInputRegion = true ∧
    (∀ r ∈ sampleState.m_inputRegion, isInt32 (r.y - 300)) ∧
    (WebAppWayland.moveInputRegion sampleState 300).m_inputRegion =
      [⟨0, 600, 1920, 180⟩, ⟨100, -100, 300, 400⟩] :=
  ⟨by decide, rfl, by decide,
    ((C3_moveInputRegion_shifts_rectangles sampleState 300 (by decide)).1 rfl).2.2
      (by decide)⟩

/-- C4: for every enabled input region whose rectangles have `int` ordinates and
every non-zero keyboard height `h`, `moveInputRegion(h)` followed by
`moveInputRegion(0)` restores the rectangles the region held before; so does
`keyboardVisibilityChanged(true, h)` followed by
`keyboardVisibilityChanged(false, 0)`, and so do the two `InputPanelVisible`
events that make those calls on a window with a web app attached. -/
theorem C4_keyboard_shown_then_hidden_restores_region (s : State) (h : Int) (hh : h ≠ 0)
    (henabled : s.m_enableInputRegion = true)
    (hint : ∀ r ∈ s.m_inputRegion, isInt32 r.y) :
    (WebAppWayland.moveInputRegion (WebAppWayland.moveInputRegion s h) 0).m_inputRegion =
      s.m_inputRegion ∧
    (WebAppWayland.keyboardVisibilityChanged
      (WebAppWayland.keyboardVisibilityChanged s true h) false 0).m_inputRegion =
      s.m_inputRegion ∧
    (∀ (delegate : WebOSEvent → Bool) (flags flags' : Nat), s.m_webApp = true →
      (WebAppWaylandWindow.event delegate
        (WebAppWaylandWindow.event delegate s
          ⟨WebOSEventType.InputPanelVisible, flags, true, h⟩).2
        ⟨WebOSEventType.InputPanelVisible, flags', false, 0⟩).2.m_inputRegion =
      s.m_inputRegion) := by
  have hcall : ∀ c : Call, (s.call c).m_enableInputRegion = true := fun _ => henabled
  refine ⟨?_, ?_, ?_⟩
  · apply moveInputRegion_restore s.m_inputRegion _ h hint
    · rw [moveInputRegion_enabled s h henabled]; exact henabled
    · rw [moveInputRegion_enabled s h henabled]; simp [hh]
    · rw [moveInputRegion_enabled s h henabled]; simp [hh]
  · simp only [WebAppWayland.keyboardVisibilityChanged]
    apply moveInputRegion_restore s.m_inputRegion _ h hint
    · rw [moveInputRegion_enabled _ h (hcall _)]; exact henabled
    · rw [moveInputRegion_enabled _ h (hcall _)]; simp [hh, State.call]
    · rw [moveInputRegion_enabled _ h (hcall _)]; simp [hh, State.call]
  · intro delegate flags flags' hweb
    have hfirst : (WebAppWaylandWindow.event delegate s
        ⟨WebOSEventType.InputPanelVisible, flags, true, h⟩).2 =
        (WebAppWayland.moveInputRegion
          (s.call (Call.baseKeyboardVisibilityChanged true h)) h).call
          (Call.delegateEvent ⟨WebOSEventType.InputPanelVisible, flags, true, h⟩) := by
      simp [WebAppWaylandWindow.event, hweb, WebAppWaylandWindow.delegateEvent,
        WebAppWayland.keyboardVisibilityChanged]
    rw [hfirst, moveInputRegion_enabled _ h (hcall _)]
    simp only [WebAppWaylandWindow.event, State.call, hweb, Bool.not_true, Bool.false_eq_true,
      if_false, WebAppWaylandWindow.delegateEvent, WebAppWayland.keyboardVisibilityChanged]
    apply moveInputRegion_restore s.m_inputRegion _ h hint
    · exact henabled
    · simp [hh]
    · simp [hh]

/-- C4, with the keyboard taking 300 rows and then none. -/
theorem C4_keyboard_shown_then_hidden_restores_region_witness :
    (300 : Int) ≠ 0 ∧ sampleState.m_enableInputRegion = true ∧
    (∀ r ∈ sampleState.m_inputRegion, isInt32 r.y) ∧
    (WebAppWayland.moveInputRegion (WebAppWayland.moveInputRegion sampleState 300) 0).m_inputRegion
      = [⟨0, 900, 1920, 180⟩, ⟨100, 200, 300, 400⟩] :=
  ⟨by decide, rfl, by decide,
    (C4_keyboard_shown_then_hidden_restores_region sampleState 300 (by decide) rfl
      (by decide)).1⟩

/-! ## The cursor (C5, C6) -/

/-- C5: with a web app attached, for every `MouseButtonPress`,
`MouseButtonRelease` or `MouseMove` event `event` returns true exactly when the
cursor is disabled, and then the cursor is not visible afterwards; with the
cursor enabled it returns false.  A `Wheel` event is consumed (true is returned,
and nothing changes) whenever the cursor is disabled. -/
theorem C5_mouse_events_filtered_iff_cursor_disabled (delegate : WebOSEvent → Bool)
    (s : State) (e : WebOSEvent) (hweb : s.m_webApp = true) :
    ((e.type = WebOSEventType.MouseButtonPress ∨ e.type = WebOSEventType.MouseButtonRelease ∨
        e.type = WebOSEventType.MouseMove) →
      ((WebAppWaylandWindow.event delegate s e).1 = true ↔ s.m_cursorEnabled = false) ∧
      (s.m_cursorEnabled = false →
        cursorVisible (WebAppWaylandWindow.event delegate s e).2 = false) ∧
      (s.m_cursorEnabled = true → (WebAppWaylandWindow.event delegate s e).1 = false)) ∧
    (e.type = WebOSEventType.Wheel → s.m_cursorEnabled = false →
      WebAppWaylandWindow.event delegate s e = (true, s)) := by
  constructor
  · intro htype
    cases henabled : s.m_cursorEnabled <;> cases hvisible : s.m_cursorVisible <;>
      rcases htype with h | h | h <;>
      simp [WebAppWaylandWindow.event, hweb, h, henabled, hvisible,
        WebAppWaylandWindow.onCursorVisibileChangeEvent, cursorVisible, setCursorVisible]
  · intro htype hdisabled
    simp [WebAppWaylandWindow.event, hweb, htype, hdisabled]

/-- C5, for a `MouseMove` on a window whose cursor is disabled and visible. -/
theorem C5_mouse_events_filtered_iff_cursor_disabled_witness :
    (WebAppWaylandWindow.event (fun _ => false) { sampleState with m_cursorEnabled := false }
        ⟨WebOSEventType.MouseMove, 0, false, 0⟩).1 = true ∧
    cursorVisible (WebAppWaylandWindow.event (fun _ => false)
        { sampleState with m_cursorEnabled := false }
        ⟨WebOSEventType.MouseMove, 0, false, 0⟩).2 = false :=
  have h := (C5_mouse_events_filtered_iff_cursor_disabled (fun _ => false)
    { sampleState with m_cursorEnabled := false } ⟨WebOSEventType.MouseMove, 0, false, 0⟩ rfl).1
    (Or.inr (Or.inr rfl))
  ⟨h.1.mpr rfl, h.2.1 rfl⟩

/-- C6 (the code at "blank", and at every argument): `setCursor("blank")` passes
`CUSTOM_CURSOR_NOT_USE` to `SetCustomCursor` and leaves the cursor enabled; in
general the type passed is `CUSTOM_CURSOR_BLANK` exactly for the argument
"default", `CUSTOM_CURSOR_NOT_USE` for every other argument, never
`CUSTOM_CURSOR_PATH`, and the cursor is disabled exactly for "default". -/
theorem C6_setCursor_blank_is_not_blank (s : State) (hotspot_x hotspot_y : Int) :
    WebAppWaylandWindow.setCursor s "blank" hotspot_x hotspot_y =
      { s with
        m_cursorEnabled := true
        calls := s.calls ++ [Call.SetCustomCursor CustomCursorType.CUSTOM_CURSOR_NOT_USE
          "blank" hotspot_x hotspot_y] } ∧
    ∀ cursorArg : String,
      WebAppWaylandWindow.setCursor s cursorArg hotspot_x hotspot_y =
        { s with
          m_cursorEnabled := decide (cursorArg ≠ "default")
          calls := s.calls ++ [Call.SetCustomCursor
            (if cursorArg = "default" then CustomCursorType.CUSTOM_CURSOR_BLANK
             else CustomCursorType.CUSTOM_CURSOR_NOT_USE)
            cursorArg hotspot_x hotspot_y] } := by
  have hall : ∀ cursorArg : String,
      WebAppWaylandWindow.setCursor s cursorArg hotspot_x hotspot_y =
        { s with
          m_cursorEnabled := decide (cursorArg ≠ "default")
          calls := s.calls ++ [Call.SetCustomCursor
            (if cursorArg = "default" then CustomCursorType.CUSTOM_CURSOR_BLANK
             else CustomCursorType.CUSTOM_CURSOR_NOT_USE)
            cursorArg hotspot_x hotspot_y] } := by
    intro cursorArg
    by_cases h : cursorArg = "default"
    · subst h
      have hempty : ("default" : String).isEmpty = false := by decide
      simp [WebAppWaylandWindow.setCursor, State.call, hempty]
    · simp [WebAppWaylandWindow.setCursor, State.call, h]
  refine ⟨?_, hall⟩
  rw [hall "blank"]
  simp

/-! ## Construction and the launch timers (C7) -/

theorem init_eq_statements (K : WebOSKeyMask) (kUndefinedDisplayId : Int) (s : State)
    (width height : Int) :
    WebAppWayland.init K kUndefinedDisplayId s width height =
      initEnvironment (initDisplayAffinity K kUndefinedDisplayId (initWindowType K
        (initLocationHint (initWindowSize (initTakeWindow s) width height)))) := rfl

theorem initTakeWindow_frame (s : State) :
    (initTakeWindow s).m_isFocused = s.m_isFocused ∧
    (initTakeWindow s).elapsedLaunchTimerRunning = s.elapsedLaunchTimerRunning ∧
    (initTakeWindow s).launchTimeoutTimerArmed = s.launchTimeoutTimerArmed := by
  simp only [initTakeWindow, WebAppWaylandWindow.take, WebAppWaylandWindow.construct]
  split_ifs <;> simp

theorem initWindowSize_frame (s : State) (width height : Int) :
    (initWindowSize s width height).m_isFocused = s.m_isFocused ∧
    (initWindowSize s width height).elapsedLaunchTimerRunning = s.elapsedLaunchTimerRunning ∧
    (initWindowSize s width height).launchTimeoutTimerArmed = s.launchTimeoutTimerArmed := by
  simp only [initWindowSize, State.call]
  split_ifs <;> simp

theorem initLocationHint_frame (s : State) :
    (initLocationHint s).m_isFocused = s.m_isFocused ∧
    (initLocationHint s).elapsedLaunchTimerRunning = s.elapsedLaunchTimerRunning ∧
    (initLocationHint s).launchTimeoutTimerArmed = s.launchTimeoutTimerArmed := by
  simp only [initLocationHint, State.call]
  split_ifs <;> simp

theorem setWindowProperty_frame (K : WebOSKeyMask) (s : State) (name : String)
    (value : QVariant) :
    (WebAppWayland.setWindowProperty K s name value).m_isFocused = s.m_isFocused ∧
    (WebAppWayland.setWindowProperty K s name value).elapsedLaunchTimerRunning =
      s.elapsedLaunchTimerRunning ∧
    (WebAppWayland.setWindowProperty K s name value).launchTimeoutTimerArmed =
      s.launchTimeoutTimerArmed := by
  simp only [WebAppWayland.setWindowProperty, WebAppWayland.setKeyMaskValue, State.call]
  split_ifs <;> simp

theorem initWindowType_frame (K : WebOSKeyMask) (s : State) :
    (initWindowType K s).m_isFocused = s.m_isFocused ∧
    (initWindowType K s).elapsedLaunchTimerRunning = s.elapsedLaunchTimerRunning ∧
    (initWindowType K s).launchTimeoutTimerArmed = s.launchTimeoutTimerArmed :=
  setWindowProperty_frame K { s with m_webApp := true } _ _

theorem initDisplayAffinity_frame (K : WebOSKeyMask) (kUndefinedDisplayId : Int) (s : State) :
    (initDisplayAffinity K kUndefinedDisplayId s).m_isFocused = s.m_isFocused ∧
    (initDisplayAffinity K kUndefinedDisplayId s).elapsedLaunchTimerRunning =
      s.elapsedLaunchTimerRunning ∧
    (initDisplayAffinity K kUndefinedDisplayId s).launchTimeoutTimerArmed =
      s.launchTimeoutTimerArmed := by
  unfold initDisplayAffinity
  split_ifs
  · exact setWindowProperty_frame K s _ _
  · exact ⟨rfl, rfl, rfl⟩

theorem initEnvironment_frame (s : State) :
    (initEnvironment s).m_isFocused = s.m_isFocused ∧
    (initEnvironment s).elapsedLaunchTimerRunning = s.elapsedLaunchTimerRunning ∧
    (initEnvironment s).launchTimeoutTimerArmed = s.launchTimeoutTimerArmed := by
  simp only [initEnvironment, State.call]
  split_ifs <;> simp

/-- The parts of the state that `init` leaves alone. -/
theorem init_frame (K : WebOSKeyMask) (kUndefinedDisplayId : Int) (s : State)
    (width height : Int) :
    (WebAppWayland.init K kUndefinedDisplayId s width height).m_isFocused = s.m_isFocused ∧
    (WebAppWayland.init K kUndefinedDisplayId s width height).elapsedLaunchTimerRunning =
      s.elapsedLaunchTimerRunning ∧
    (WebAppWayland.init K kUndefinedDisplayId s width height).launchTimeoutTimerArmed =
      s.launchTimeoutTimerArmed := by
  rw [init_eq_statements]
  have h1 := initTakeWindow_frame s
  have h2 := initWindowSize_frame (initTakeWindow s) width height
  have h3 := initLocationHint_frame (initWindowSize (initTakeWindow s) width height)
  have h4 := initWindowType_frame K
    (initLocationHint (initWindowSize (initTakeWindow s) width height))
  have h5 := initDisplayAffinity_frame K kUndefinedDisplayId (initWindowType K
    (initLocationHint (initWindowSize (initTakeWindow s) width height)))
  have h6 := initEnvironment_frame (initDisplayAffinity K kUndefinedDisplayId (initWindowType K
    (initLocationHint (initWindowSize (initTakeWindow s) width height))))
  refine ⟨?_, ?_, ?_⟩
  · rw [h6.1, h5.1, h4.1, h3.1, h2.1, h1.1]
  · rw [h6.2.1, h5.2.1, h4.2.1, h3.2.1, h2.2.1, h1.2.1]
  · rw [h6.2.2, h5.2.2, h4.2.2, h3.2.2, h2.2.2, h1.2.2]

/-- A newly constructed app is not focused and neither of its timers runs. -/
theorem construct_frame (K : WebOSKeyMask) (kUndefinedDisplayId : Int) (base : State)
    (type : String) (window : Option Nat) (width height displayId : Int)
    (location_hint : String) :
    (WebAppWayland.construct K kUndefinedDisplayId base type window width height displayId
      location_hint).m_isFocused = false ∧
    (WebAppWayland.construct K kUndefinedDisplayId base type window width height displayId
      location_hint).elapsedLaunchTimerRunning = false ∧
    (WebAppWayland.construct K kUndefinedDisplayId base type window width height displayId
      location_hint).launchTimeoutTimerArmed = false := by
  unfold WebAppWayland.construct
  exact init_frame K kUndefinedDisplayId _ width height

theorem launchTimerCall_run_invariant (s : State) (c : LaunchTimerCall)
    (h : s.launchTimeoutTimerArmed = true → s.elapsedLaunchTimerRunning = true) :
    (LaunchTimerCall.run s c).launchTimeoutTimerArmed = true →
      (LaunchTimerCall.run s c).elapsedLaunchTimerRunning = true := by
  cases c with
  | startLaunchTimer =>
    simp only [LaunchTimerCall.run, WebAppWayland.startLaunchTimer]
    split_ifs <;> simp_all
  | onDelegateWindowFrameSwapped t =>
    simp only [LaunchTimerCall.run, WebAppWayland.onDelegateWindowFrameSwapped]
    split_ifs <;> simp_all
  | onLaunchTimeout =>
    simp only [LaunchTimerCall.run, WebAppWayland.onLaunchTimeout]
    split_ifs <;> simp_all

theorem runLaunchTimerCalls_invariant (calls : List LaunchTimerCall) :
    ∀ s : State, (s.launchTimeoutTimerArmed = true → s.elapsedLaunchTimerRunning = true) →
      (runLaunchTimerCalls s calls).launchTimeoutTimerArmed = true →
        (runLaunchTimerCalls s calls).elapsedLaunchTimerRunning = true := by
  induction calls with
  | nil => intro s h; exact h
  | cons c rest ih =>
    intro s h
    exact ih (LaunchTimerCall.run s c) (launchTimerCall_run_invariant s c h)

theorem frame_swaps_when_stopped (swaps : List Int) :
    ∀ s : State, s.elapsedLaunchTimerRunning = false → s.launchTimeoutTimerArmed = false →
      (runLaunchTimerCalls s
        (swaps.map LaunchTimerCall.onDelegateWindowFrameSwapped)).launchTimeoutTimerArmed =
        false := by
  induction swaps with
  | nil => intro s _ h; exact h
  | cons t rest ih =>
    intro s hrunning harmed
    simp only [List.map_cons, runLaunchTimerCalls, List.foldl_cons]
    apply ih
    · simp [LaunchTimerCall.run, WebAppWayland.onDelegateWindowFrameSwapped, hrunning]
    · simp [LaunchTimerCall.run, WebAppWayland.onDelegateWindowFrameSwapped, hrunning, harmed]

/-- C7: in every state `s` reached from the constructed state by a sequence of
`startLaunchTimer`, `onDelegateWindowFrameSwapped` and `onLaunchTimeout` calls,
the launch-timeout timer is armed only if the elapsed launch timer is running;
`startLaunchTimer` starts the elapsed timer unless the window is hidden, in
which case it changes nothing; a frame swap records the elapsed time and arms
the timeout if the elapsed timer is running and changes nothing otherwise;
`onLaunchTimeout` leaves both timers stopped, and frame swaps that follow it
do not arm the timeout. -/
theorem C7_launch_timeout_armed_only_while_elapsed_running (K : WebOSKeyMask)
    (kUndefinedDisplayId : Int) (base : State) (type : String) (window : Option Nat)
    (width height displayId : Int) (location_hint : String) (calls : List LaunchTimerCall)
    (s : State)
    (hs : s = runLaunchTimerCalls (WebAppWayland.construct K kUndefinedDisplayId base type
      window width height displayId location_hint) calls) :
    (s.launchTimeoutTimerArmed = true → s.elapsedLaunchTimerRunning = true) ∧
    (getHiddenWindow s = false →
      WebAppWayland.startLaunchTimer s = { s with elapsedLaunchTimerRunning := true }) ∧
    (getHiddenWindow s = true → WebAppWayland.startLaunchTimer s = s) ∧
    (s.elapsedLaunchTimerRunning = true →
      WebAppWayland.onDelegateWindowFrameSwapped s =
        { s with m_lastSwappedTime := s.elapsed_ms, launchTimeoutTimerArmed := true }) ∧
    (s.elapsedLaunchTimerRunning = false → WebAppWayland.onDelegateWindowFrameSwapped s = s) ∧
    (WebAppWayland.onLaunchTimeout s).launchTimeoutTimerArmed = false ∧
    (WebAppWayland.onLaunchTimeout s).elapsedLaunchTimerRunning = false ∧
    (∀ swaps : List Int,
      (runLaunchTimerCalls (WebAppWayland.onLaunchTimeout s)
        (swaps.map LaunchTimerCall.onDelegateWindowFrameSwapped)).launchTimeoutTimerArmed =
        false) := by
  have hinv : s.launchTimeoutTimerArmed = true → s.elapsedLaunchTimerRunning = true := by
    rw [hs]
    apply runLaunchTimerCalls_invariant
    intro harmed
    rw [(construct_frame K kUndefinedDisplayId base type window width height displayId
      location_hint).2.2] at harmed
    exact absurd harmed (by decide)
  have hstop : (WebAppWayland.onLaunchTimeout s).launchTimeoutTimerArmed = false ∧
      (WebAppWayland.onLaunchTimeout s).elapsedLaunchTimerRunning = false := by
    simp only [WebAppWayland.onLaunchTimeout]
    split_ifs with h
    · simp
    · have hr : s.elapsedLaunchTimerRunning = false := by simpa using h
      cases ha : s.launchTimeoutTimerArmed
      · exact ⟨rfl, hr⟩
      · rw [hinv ha] at hr; exact absurd hr (by decide)
  refine ⟨hinv, ?_, ?_, ?_, ?_, hstop.1, hstop.2, ?_⟩
  · intro h
    simp [WebAppWayland.startLaunchTimer, h]
  · intro h
    simp [WebAppWayland.startLaunchTimer, h]
  · intro h
    simp [WebAppWayland.onDelegateWindowFrameSwapped, h]
  · intro h
    simp [WebAppWayland.onDelegateWindowFrameSwapped, h]
  · intro swaps
    exact frame_swaps_when_stopped swaps _ hstop.2 hstop.1

/-- C7, after `startLaunchTimer`, two frame swaps, `onLaunchTimeout` and one more
frame swap on a newly constructed app: the timeout is not armed. -/
theorem C7_launch_timeout_armed_only_while_elapsed_running_witness :
    (runLaunchTimerCalls
      (WebAppWayland.onLaunchTimeout
        (runLaunchTimerCalls
          (WebAppWayland.construct sampleKeyMask (-1) sampleState "_WEBOS_WINDOW_TYPE_CARD" none
            0 0 0 "north")
          [LaunchTimerCall.startLaunchTimer, LaunchTimerCall.onDelegateWindowFrameSwapped 10,
            LaunchTimerCall.onDelegateWindowFrameSwapped 20]))
      ([30].map LaunchTimerCall.onDelegateWindowFrameSwapped)).launchTimeoutTimerArmed = false :=
  (C7_launch_timeout_armed_only_while_elapsed_running sampleKeyMask (-1) sampleState
    "_WEBOS_WINDOW_TYPE_CARD" none 0 0 0 "north"
    [LaunchTimerCall.startLaunchTimer, LaunchTimerCall.onDelegateWindowFrameSwapped 10,
      LaunchTimerCall.onDelegateWindowFrameSwapped 20] _ rfl).2.2.2.2.2.2.2 [30]

/-! ## Window state changes (C8) -/

theorem onStageActivated_calls (s : State) :
    (WebAppWayland.onStageActivated s).calls =
      s.calls ++ (if s.crashState then [Call.reloadDefaultPage] else []) ++
        [Call.resumeWebPageAll,
          Call.setVisibilityState WebPageVisibilityState.WebPageVisibilityStateVisible,
          Call.setActiveInstanceId, Call.Show] := by
  cases h : s.crashState <;>
    simp [WebAppWayland.onStageActivated, getCrashState, setCrashState, State.call,
      WebAppWaylandWindow.show_, h]

theorem onStageDeactivated_eq (s : State) :
    WebAppWayland.onStageDeactivated s =
      { s with
        m_isFocused := false
        m_didActivateStage := false
        calls := s.calls ++ [Call.suspendWebPageMedia, Call.setFocus false,
          Call.setVisibilityState WebPageVisibilityState.WebPageVisibilityStateHidden,
          Call.suspendWebPageAll] } := by
  simp [WebAppWayland.onStageDeactivated, WebAppWayland.unfocus, State.call]

/-- C8: `stateChanged(newState)` does nothing when the app is closing.  Otherwise,
for `NATIVE_WINDOW_DEFAULT`, `MAXIMIZED` or `FULLSCREEN` it applies the pending
input region and then runs `onStageActivated` (so the calls made are
`SetInputRegion` if a region was pending, `reloadDefaultPage` if the crash
state was set, then `resumeWebPageAll`, `setVisibilityState(Visible)`,
`setActiveInstanceId` and the window's `Show`); for `NATIVE_WINDOW_MINIMIZED` it
runs `onStageDeactivated`, which leaves the app unfocused, the page visibility
Hidden and `m_didActivateStage` false; for every other state it does nothing. -/
theorem C8_stateChanged_dispatch (s : State) (newState : NativeWindowState) :
    (s.isClosing = true → WebAppWayland.stateChanged s newState = s) ∧
    (s.isClosing = false →
      ((newState = NativeWindowState.NATIVE_WINDOW_DEFAULT ∨
          newState = NativeWindowState.NATIVE_WINDOW_MAXIMIZED ∨
          newState = NativeWindowState.NATIVE_WINDOW_FULLSCREEN) →
        WebAppWayland.stateChanged s newState =
          WebAppWayland.onStageActivated (WebAppWayland.applyInputRegion s) ∧
        (WebAppWayland.stateChanged s newState).calls =
          s.calls ++
            (if !s.m_enableInputRegion && !s.m_inputRegion.isEmpty then
              [Call.SetInputRegion s.m_inputRegion] else []) ++
            (if s.crashState then [Call.reloadDefaultPage] else []) ++
            [Call.resumeWebPageAll,
              Call.setVisibilityState WebPageVisibilityState.WebPageVisibilityStateVisible,
              Call.setActiveInstanceId, Call.Show]) ∧
      (newState = NativeWindowState.NATIVE_WINDOW_MINIMIZED →
        WebAppWayland.stateChanged s newState = WebAppWayland.onStageDeactivated s ∧
        (WebAppWayland.stateChanged s newState).calls =
          s.calls ++ [Call.suspendWebPageMedia, Call.setFocus false,
            Call.setVisibilityState WebPageVisibilityState.WebPageVisibilityStateHidden,
            Call.suspendWebPageAll] ∧
        WebAppWayland.isFocused (WebAppWayland.stateChanged s newState) = false ∧
        lastVisibilityState (WebAppWayland.stateChanged s newState).calls =
          some WebPageVisibilityState.WebPageVisibilityStateHidden ∧
        (WebAppWayland.stateChanged s newState).m_didActivateStage = false) ∧
      (∀ n : Nat, newState = NativeWindowState.other n →
        WebAppWayland.stateChanged s newState = s)) := by
  refine ⟨?_, ?_⟩
  · intro hclosing
    simp [WebAppWayland.stateChanged, hclosing]
  · intro hopen
    refine ⟨?_, ?_, ?_⟩
    · intro hstate
      have heq : WebAppWayland.stateChanged s newState =
          WebAppWayland.onStageActivated (WebAppWayland.applyInputRegion s) := by
        rcases hstate with h | h | h <;> simp [WebAppWayland.stateChanged, hopen, h]
      refine ⟨heq, ?_⟩
      rw [heq, onStageActivated_calls]
      cases h1 : s.m_enableInputRegion <;> cases h2 : s.m_inputRegion.isEmpty <;>
        simp [WebAppWayland.applyInputRegion, State.call, h1, h2]
    · intro hstate
      have heq : WebAppWayland.stateChanged s newState = WebAppWayland.onStageDeactivated s := by
        simp [WebAppWayland.stateChanged, hopen, hstate]
      rw [heq, onStageDeactivated_eq]
      refine ⟨rfl, rfl, rfl, ?_, rfl⟩
      simp [lastVisibilityState]
    · intro n hstate
      simp [WebAppWayland.stateChanged, hopen, hstate]

/-- C8, on a focused app whose window becomes minimized. -/
theorem C8_stateChanged_dispatch_witness :
    WebAppWayland.isFocused sampleState = true ∧
    WebAppWayland.isFocused
      (WebAppWayland.stateChanged sampleState NativeWindowState.NATIVE_WINDOW_MINIMIZED) =
      false ∧
    (WebAppWayland.stateChanged sampleState NativeWindowState.NATIVE_WINDOW_MINIMIZED).calls =
      [Call.suspendWebPageMedia, Call.setFocus false,
        Call.setVisibilityState WebPageVisibilityState.WebPageVisibilityStateHidden,
        Call.suspendWebPageAll] :=
  have h := ((C8_stateChanged_dispatch sampleState
    NativeWindowState.NATIVE_WINDOW_MINIMIZED).2 rfl).2.1 rfl
  ⟨rfl, h.2.2.1, h.2.1⟩

/-! ## Focus (C9) -/

/-- C9: after `focus()`, `isFocused()` returns true whether or not the window is
minimized, and the page receives `setFocus(true)` exactly when the window host
state is not `NATIVE_WINDOW_MINIMIZED` (no call is made otherwise); after
`unfocus()`, `isFocused()` returns false and the page receives
`setFocus(false)`; a newly constructed app is not focused. -/
theorem C9_focus_unfocus (s : State) :
    WebAppWayland.isFocused (WebAppWayland.focus s) = true ∧
    (s.windowHostState ≠ NativeWindowState.NATIVE_WINDOW_MINIMIZED →
      (WebAppWayland.focus s).calls = s.calls ++ [Call.setFocus true]) ∧
    (s.windowHostState = NativeWindowState.NATIVE_WINDOW_MINIMIZED →
      (WebAppWayland.focus s).calls = s.calls) ∧
    WebAppWayland.isFocused (WebAppWayland.unfocus s) = false ∧
    (WebAppWayland.unfocus s).calls = s.calls ++ [Call.setFocus false] ∧
    (∀ (K : WebOSKeyMask) (kUndefinedDisplayId : Int) (type : String) (window : Option Nat)
        (width height displayId : Int) (location_hint : String),
      WebAppWayland.isFocused (WebAppWayland.construct K kUndefinedDisplayId s type window width
        height displayId location_hint) = false) := by
  refine ⟨?_, ?_, ?_, ?_, ?_, ?_⟩
  · simp only [WebAppWayland.focus, WebAppWayland.isFocused, State.call]
    split_ifs <;> rfl
  · intro h
    simp [WebAppWayland.focus, WebAppWayland.isMinimized, State.call, h]
  · intro h
    simp [WebAppWayland.focus, WebAppWayland.isMinimized, State.call, h]
  · rfl
  · rfl
  · intro K kUndefinedDisplayId type window width height displayId location_hint
    exact (construct_frame K kUndefinedDisplayId s type window width height displayId
      location_hint).1

/-- C9, for `focus()` on a minimized window and on a full-screen one. -/
theorem C9_focus_unfocus_witness :
    (WebAppWayland.focus
      { sampleState with windowHostState := NativeWindowState.NATIVE_WINDOW_MINIMIZED }).calls =
      [] ∧
    (WebAppWayland.focus sampleState).calls = [Call.setFocus true] :=
  ⟨(C9_focus_unfocus
      { sampleState with windowHostState := NativeWindowState.NATIVE_WINDOW_MINIMIZED }).2.2.1
      rfl,
    (C9_focus_unfocus sampleState).2.1 (by decide)⟩

/-! ## Closing (C10) -/

/-- C10: `doClose`, which a window `Close` event runs, decides as follows.  If
`forceClose()` holds it calls `forceCloseAppInternal` and nothing else.
Otherwise, if `keepAlive()` holds and the page has not finished loading an error
page, the window is hidden instead of closed: the virtual keyboard is closed,
the stage is deactivated, the window's `Hide` is called, the hidden-window flag
is set, `m_addedToWindowMgr` becomes false, and `closeAppInternal` is not
called.  In every remaining case, so also for `keepAlive` with a finished error
page, `closeAppInternal` is called and nothing else changes, in particular not
the hidden-window flag. -/
theorem C10_doClose_decision (s : State) :
    (s.forceClose = true →
      WebAppWayland.doClose s = { s with calls := s.calls ++ [Call.forceCloseAppInternal] }) ∧
    (s.forceClose = false → s.keepAlive = true → s.isLoadErrorPageFinish = false →
      WebAppWayland.doClose s =
        { s with
          m_isFocused := false
          m_didActivateStage := false
          hiddenWindow := true
          m_addedToWindowMgr := false
          calls := s.calls ++ [Call.closeVkb, Call.suspendWebPageMedia, Call.setFocus false,
            Call.setVisibilityState WebPageVisibilityState.WebPageVisibilityStateHidden,
            Call.suspendWebPageAll, Call.Hide] } ∧
      getHiddenWindow (WebAppWayland.doClose s) = true ∧
      (WebAppWayland.doClose s).m_addedToWindowMgr = false ∧
      Call.closeAppInternal ∉ (WebAppWayland.doClose s).calls.drop s.calls.length) ∧
    (s.forceClose = false → (s.keepAlive = false ∨ s.isLoadErrorPageFinish = true) →
      WebAppWayland.doClose s = { s with calls := s.calls ++ [Call.closeAppInternal] } ∧
      getHiddenWindow (WebAppWayland.doClose s) = getHiddenWindow s) ∧
    (∀ (delegate : WebOSEvent → Bool) (e : WebOSEvent), s.m_webApp = true →
      e.type = WebOSEventType.Close →
      WebAppWaylandWindow.event delegate s e = (true, WebAppWayland.doClose s)) := by
  refine ⟨?_, ?_, ?_, ?_⟩
  · intro hforce
    simp [WebAppWayland.doClose, hforce, State.call]
  · intro hforce hkeep herror
    have heq : WebAppWayland.doClose s =
        { s with
          m_isFocused := false
          m_didActivateStage := false
          hiddenWindow := true
          m_addedToWindowMgr := false
          calls := s.calls ++ [Call.closeVkb, Call.suspendWebPageMedia, Call.setFocus false,
            Call.setVisibilityState WebPageVisibilityState.WebPageVisibilityStateHidden,
            Call.suspendWebPageAll, Call.Hide] } := by
      simp [WebAppWayland.doClose, WebAppWayland.hideWindow, WebAppWayland.hide,
        onStageDeactivated_eq, WebAppWaylandWindow.hide, setHiddenWindow, State.call, hforce,
        hkeep, herror]
    refine ⟨heq, ?_, ?_, ?_⟩
    · rw [heq]; rfl
    · rw [heq]
    · rw [heq]
      simp
  · intro hforce hrest
    have heq : WebAppWayland.doClose s =
        { s with calls := s.calls ++ [Call.closeAppInternal] } := by
      rcases hrest with hkeep | herror
      · simp [WebAppWayland.doClose, hforce, hkeep, State.call]
      · cases hkeep : s.keepAlive <;>
          simp [WebAppWayland.doClose, WebAppWayland.hideWindow, hforce, hkeep, herror,
            State.call]
    refine ⟨heq, ?_⟩
    rw [heq]; rfl
  · intro delegate e hweb htype
    simp [WebAppWaylandWindow.event, hweb, htype]

/-- C10, for a keep-alive app: hidden when there is no error page, closed when an
error page has finished loading. -/
theorem C10_doClose_decision_witness :
    (WebAppWayland.doClose { sampleState with keepAlive := true }).calls =
      [Call.closeVkb, Call.suspendWebPageMedia, Call.setFocus false,
        Call.setVisibilityState WebPageVisibilityState.WebPageVisibilityStateHidden,
        Call.suspendWebPageAll, Call.Hide] ∧
    getHiddenWindow (WebAppWayland.doClose { sampleState with keepAlive := true }) = true ∧
    WebAppWayland.doClose { sampleState with keepAlive := true, isLoadErrorPageFinish := true } =
      { sampleState with keepAlive := true, isLoadErrorPageFinish := true,
                         calls := [Call.closeAppInternal] } :=
  have h1 := (C10_doClose_decision { sampleState with keepAlive := true }).2.1 rfl rfl rfl
  have h2 := (C10_doClose_decision
    { sampleState with keepAlive := true, isLoadErrorPageFinish := true }).2.2.1 rfl
    (Or.inr rfl)
  ⟨congrArg State.calls h1.1, h1.2.1, h2.1⟩

/-! ## Showing the window (C11, C20) -/

theorem onStageActivated_eq (s : State) :
    WebAppWayland.onStageActivated s =
      { s with
        crashState := false
        calls := s.calls ++ (if s.crashState then [Call.reloadDefaultPage] else []) ++
          [Call.resumeWebPageAll,
            Call.setVisibilityState WebPageVisibilityState.WebPageVisibilityStateVisible,
            Call.setActiveInstanceId, Call.Show] } := by
  cases h : s.crashState
  · have hs : s = { s with crashState := false } := by rw [← h]
    conv => lhs; rw [hs]
    simp [WebAppWayland.onStageActivated, getCrashState, setCrashState, State.call,
      WebAppWaylandWindow.show_]
  · simp [WebAppWayland.onStageActivated, getCrashState, setCrashState, State.call,
      WebAppWaylandWindow.show_, h]

theorem showWindow_eq (s : State) (hpreload : s.m_preloadState = PreloadState.NONE_PRELOAD) :
    WebAppWayland.showWindow s =
      { s with
        hiddenWindow := false
        crashState := false
        m_addedToWindowMgr := true
        calls := s.calls ++ (if s.crashState then [Call.reloadDefaultPage] else []) ++
          [Call.resumeWebPageAll,
            Call.setVisibilityState WebPageVisibilityState.WebPageVisibilityStateVisible,
            Call.setActiveInstanceId, Call.Show, Call.baseShowWindow] } := by
  simp [WebAppWayland.showWindow, hpreload, onStageActivated_eq, setHiddenWindow, State.call]

/-- C11: if the preload state is not `NONE_PRELOAD` or the hidden-window flag is
set, `firstFrameVisuallyCommitted` changes nothing, so it shows nothing;
otherwise it runs `showWindow` (after clearing `m_didActivateStage` for an app
that uses prerendering), which clears the hidden-window flag, activates the
stage (`reloadDefaultPage` if the crash state was set, then `resumeWebPageAll`,
`setVisibilityState(Visible)`, `setActiveInstanceId`, the window's `Show`), sets
`m_addedToWindowMgr` and calls `WebAppBase::showWindow`.  `showWindow` itself
changes nothing whenever the preload state is not `NONE_PRELOAD`. -/
theorem C11_first_frame_commit_shows_unless_preloaded_or_hidden (s : State) :
    ((s.m_preloadState ≠ PreloadState.NONE_PRELOAD ∨ getHiddenWindow s = true) →
      WebAppWayland.firstFrameVisuallyCommitted s = s) ∧
    (s.m_preloadState = PreloadState.NONE_PRELOAD → getHiddenWindow s = false →
      WebAppWayland.firstFrameVisuallyCommitted s =
        WebAppWayland.showWindow
          (if s.usePrerendering then { s with m_didActivateStage := false } else s) ∧
      getHiddenWindow (WebAppWayland.firstFrameVisuallyCommitted s) = false ∧
      (WebAppWayland.firstFrameVisuallyCommitted s).m_addedToWindowMgr = true ∧
      (WebAppWayland.firstFrameVisuallyCommitted s).calls =
        s.calls ++ (if s.crashState then [Call.reloadDefaultPage] else []) ++
          [Call.resumeWebPageAll,
            Call.setVisibilityState WebPageVisibilityState.WebPageVisibilityStateVisible,
            Call.setActiveInstanceId, Call.Show, Call.baseShowWindow]) ∧
    (s.m_preloadState = PreloadState.NONE_PRELOAD →
      WebAppWayland.showWindow s =
        { s with
          hiddenWindow := false
          crashState := false
          m_addedToWindowMgr := true
          calls := s.calls ++ (if s.crashState then [Call.reloadDefaultPage] else []) ++
            [Call.resumeWebPageAll,
              Call.setVisibilityState WebPageVisibilityState.WebPageVisibilityStateVisible,
              Call.setActiveInstanceId, Call.Show, Call.baseShowWindow] }) ∧
    (s.m_preloadState ≠ PreloadState.NONE_PRELOAD → WebAppWayland.showWindow s = s) := by
  refine ⟨?_, ?_, showWindow_eq s, ?_⟩
  · rintro (h | h)
    · simp [WebAppWayland.firstFrameVisuallyCommitted, h]
    · simp [WebAppWayland.firstFrameVisuallyCommitted, h]
  · intro hpreload hhidden
    have heq : WebAppWayland.firstFrameVisuallyCommitted s =
        WebAppWayland.showWindow
          (if s.usePrerendering then { s with m_didActivateStage := false } else s) := by
      simp [WebAppWayland.firstFrameVisuallyCommitted, hpreload, hhidden]
    refine ⟨heq, ?_, ?_, ?_⟩
    · rw [heq]
      cases hp : s.usePrerendering <;>
        simp [showWindow_eq, hpreload, getHiddenWindow]
    · rw [heq]
      cases hp : s.usePrerendering <;> simp [showWindow_eq, hpreload]
    · rw [heq]
      cases hp : s.usePrerendering <;> simp [showWindow_eq, hpreload]
  · intro hpreload
    simp [WebAppWayland.showWindow, hpreload]

/-- C11, for the first frame of a visible app that is not preloaded, and of a
preloaded one. -/
theorem C11_first_frame_commit_shows_unless_preloaded_or_hidden_witness :
    (WebAppWayland.firstFrameVisuallyCommitted sampleState).calls =
      [Call.resumeWebPageAll,
        Call.setVisibilityState WebPageVisibilityState.WebPageVisibilityStateVisible,
        Call.setActiveInstanceId, Call.Show, Call.baseShowWindow] ∧
    WebAppWayland.firstFrameVisuallyCommitted
      { sampleState with m_preloadState := PreloadState.preload 1 } =
      { sampleState with m_preloadState := PreloadState.preload 1 } :=
  ⟨((C11_first_frame_commit_shows_unless_preloaded_or_hidden sampleState).2.1 rfl rfl).2.2.2,
   (C11_first_frame_commit_shows_unless_preloaded_or_hidden
      { sampleState with m_preloadState := PreloadState.preload 1 }).1 (Or.inl (by decide))⟩

/-- C20: after `onStageActivated` the crash state is false, the page visibility
state is Visible and the window is shown; `reloadDefaultPage` is among the calls
made exactly when the crash state was set on entry, and then it is the first of
them, made before `resumeWebPageAll`. -/
theorem C20_onStageActivated_postconditions (s : State) :
    getCrashState (WebAppWayland.onStageActivated s) = false ∧
    lastVisibilityState (WebAppWayland.onStageActivated s).calls =
      some WebPageVisibilityState.WebPageVisibilityStateVisible ∧
    lastShown (WebAppWayland.onStageActivated s).calls = some true ∧
    (Call.reloadDefaultPage ∈ callsSince s (WebAppWayland.onStageActivated s) ↔
      getCrashState s = true) ∧
    (getCrashState s = true →
      callsSince s (WebAppWayland.onStageActivated s) =
        [Call.reloadDefaultPage, Call.resumeWebPageAll,
          Call.setVisibilityState WebPageVisibilityState.WebPageVisibilityStateVisible,
          Call.setActiveInstanceId, Call.Show]) ∧
    (getCrashState s = false →
      callsSince s (WebAppWayland.onStageActivated s) =
        [Call.resumeWebPageAll,
          Call.setVisibilityState WebPageVisibilityState.WebPageVisibilityStateVisible,
          Call.setActiveInstanceId, Call.Show]) := by
  rw [onStageActivated_eq]
  cases h : s.crashState <;>
    simp [getCrashState, lastVisibilityState, lastShown, callsSince, h]

/-- C20, for an app whose crash state is set. -/
theorem C20_onStageActivated_postconditions_witness :
    getCrashState { sampleState with crashState := true } = true ∧
    (WebAppWayland.onStageActivated { sampleState with crashState := true }).calls =
      [Call.reloadDefaultPage, Call.resumeWebPageAll,
        Call.setVisibilityState WebPageVisibilityState.WebPageVisibilityStateVisible,
        Call.setActiveInstanceId, Call.Show] :=
  ⟨rfl, (C20_onStageActivated_postconditions { sampleState with crashState := true }).2.2.2.2.1
    rfl⟩

/-! ## Raising the window (C12) -/

/-- C12: `raise()` runs `onStageActivated` exactly when the window type is
`WT_OVERLAY` or the app is keepAlive and was not minimized at entry (the calls
of `onStageActivated`, among them `resumeWebPageAll`, are then made and no host
state is requested); in every other case the only call made before the
visibility update is `SetWindowHostState(NATIVE_WINDOW_FULLSCREEN)`; and whenever
the window was minimized at entry, the last call made is
`setVisibilityState(Visible)`. -/
theorem C12_raise_activates_or_requests_fullscreen (WT_OVERLAY : String) (s : State) :
    ((WebAppWayland.getWindowType s = WT_OVERLAY ∨
        (s.keepAlive = true ∧ WebAppWayland.isMinimized s = false)) →
      WebAppWayland.raise WT_OVERLAY s =
        (if WebAppWayland.isMinimized s then
          (WebAppWayland.onStageActivated s).call
            (Call.setVisibilityState WebPageVisibilityState.WebPageVisibilityStateVisible)
        else WebAppWayland.onStageActivated s) ∧
      Call.resumeWebPageAll ∈ callsSince s (WebAppWayland.raise WT_OVERLAY s) ∧
      Call.SetWindowHostState NativeWindowState.NATIVE_WINDOW_FULLSCREEN ∉
        callsSince s (WebAppWayland.raise WT_OVERLAY s)) ∧
    (¬ (WebAppWayland.getWindowType s = WT_OVERLAY ∨
        (s.keepAlive = true ∧ WebAppWayland.isMinimized s = false)) →
      WebAppWayland.raise WT_OVERLAY s =
        { s with calls := s.calls ++
          [Call.SetWindowHostState NativeWindowState.NATIVE_WINDOW_FULLSCREEN] ++
          (if WebAppWayland.isMinimized s then
            [Call.setVisibilityState WebPageVisibilityState.WebPageVisibilityStateVisible]
           else []) } ∧
      Call.resumeWebPageAll ∉ callsSince s (WebAppWayland.raise WT_OVERLAY s)) ∧
    (WebAppWayland.isMinimized s = true →
      (WebAppWayland.raise WT_OVERLAY s).calls.getLast? =
        some (Call.setVisibilityState WebPageVisibilityState.WebPageVisibilityStateVisible) ∧
      lastVisibilityState (WebAppWayland.raise WT_OVERLAY s).calls =
        some WebPageVisibilityState.WebPageVisibilityStateVisible) := by
  refine ⟨?_, ?_, ?_⟩
  · intro hcond
    have hb : (decide (WebAppWayland.getWindowType s = WT_OVERLAY) ||
        (s.keepAlive && !WebAppWayland.isMinimized s)) = true := by
      rcases hcond with h | ⟨h1, h2⟩
      · simp [h]
      · simp [h1, h2]
    have heq : WebAppWayland.raise WT_OVERLAY s =
        (if WebAppWayland.isMinimized s then
          (WebAppWayland.onStageActivated s).call
            (Call.setVisibilityState WebPageVisibilityState.WebPageVisibilityStateVisible)
        else WebAppWayland.onStageActivated s) := by
      simp only [WebAppWayland.raise, hb, if_true]
    refine ⟨heq, ?_, ?_⟩
    · rw [heq, onStageActivated_eq]
      cases WebAppWayland.isMinimized s <;> cases s.crashState <;>
        simp [callsSince, State.call]
    · rw [heq, onStageActivated_eq]
      cases WebAppWayland.isMinimized s <;> cases s.crashState <;>
        simp [callsSince, State.call]
  · intro hcond
    have hb : (decide (WebAppWayland.getWindowType s = WT_OVERLAY) ||
        (s.keepAlive && !WebAppWayland.isMinimized s)) = false := by
      rw [not_or, not_and] at hcond
      obtain ⟨h1, h2⟩ := hcond
      cases hk : s.keepAlive <;> cases hm : WebAppWayland.isMinimized s <;> simp_all
    have heq : WebAppWayland.raise WT_OVERLAY s =
        { s with calls := s.calls ++
          [Call.SetWindowHostState NativeWindowState.NATIVE_WINDOW_FULLSCREEN] ++
          (if WebAppWayland.isMinimized s then
            [Call.setVisibilityState WebPageVisibilityState.WebPageVisibilityStateVisible]
           else []) } := by
      simp only [WebAppWayland.raise, hb]
      cases WebAppWayland.isMinimized s <;> simp [State.call]
    refine ⟨heq, ?_⟩
    rw [heq]
    cases WebAppWayland.isMinimized s <;> simp [callsSince]
  · intro hmin
    have hlast : (WebAppWayland.raise WT_OVERLAY s).calls =
        (if decide (WebAppWayland.getWindowType s = WT_OVERLAY) ||
            (s.keepAlive && !WebAppWayland.isMinimized s) then
          WebAppWayland.onStageActivated s
        else s.call (Call.SetWindowHostState NativeWindowState.NATIVE_WINDOW_FULLSCREEN)).calls
        ++ [Call.setVisibilityState WebPageVisibilityState.WebPageVisibilityStateVisible] := by
      simp only [WebAppWayland.raise, hmin, if_true, State.call]
    rw [hlast]
    simp [lastVisibilityState]

/-- C12, for a minimized keepAlive app whose window is not an overlay. -/
theorem C12_raise_activates_or_requests_fullscreen_witness :
    WebAppWayland.raise "_WEBOS_WINDOW_TYPE_OVERLAY"
      { sampleState with keepAlive := true,
                         windowHostState := NativeWindowState.NATIVE_WINDOW_MINIMIZED } =
      { sampleState with
        keepAlive := true
        windowHostState := NativeWindowState.NATIVE_WINDOW_MINIMIZED
        calls := [Call.SetWindowHostState NativeWindowState.NATIVE_WINDOW_FULLSCREEN,
          Call.setVisibilityState WebPageVisibilityState.WebPageVisibilityStateVisible] } :=
  ((C12_raise_activates_or_requests_fullscreen "_WEBOS_WINDOW_TYPE_OVERLAY"
    { sampleState with keepAlive := true,
                       windowHostState := NativeWindowState.NATIVE_WINDOW_MINIMIZED }).2.1
    (by decide)).1

/-! ## Window properties and key masks (C13, C15) -/

theorem setWindowProperty_back (K : WebOSKeyMask) (hback : K.KEY_MASK_BACK ≠ 0) (s : State)
    (value : QVariant) :
    WebAppWayland.setWindowProperty K s "_WEBOS_ACCESS_POLICY_KEYS_BACK" value =
      { s with calls := s.calls ++ [Call.SetKeyMaskValue K.KEY_MASK_BACK value.toBool,
        Call.SetWindowProperty "_WEBOS_ACCESS_POLICY_KEYS_BACK" value.toString] } := by
  simp [WebAppWayland.setWindowProperty, WebAppWayland.setKeyMaskValue, State.call, hback]

theorem setWindowProperty_exit (K : WebOSKeyMask) (hexit : K.KEY_MASK_EXIT ≠ 0) (s : State)
    (value : QVariant) :
    WebAppWayland.setWindowProperty K s "_WEBOS_ACCESS_POLICY_KEYS_EXIT" value =
      { s with calls := s.calls ++ [Call.SetKeyMaskValue K.KEY_MASK_EXIT value.toBool,
        Call.SetWindowProperty "_WEBOS_ACCESS_POLICY_KEYS_EXIT" value.toString] } := by
  have hne : ("_WEBOS_ACCESS_POLICY_KEYS_EXIT" : String) ≠ "_WEBOS_ACCESS_POLICY_KEYS_BACK" := by
    decide
  simp [WebAppWayland.setWindowProperty, WebAppWayland.setKeyMaskValue, State.call, hexit, hne]

theorem setWindowProperty_other (K : WebOSKeyMask) (s : State) (name : String)
    (value : QVariant) (hback : name ≠ "_WEBOS_ACCESS_POLICY_KEYS_BACK")
    (hexit : name ≠ "_WEBOS_ACCESS_POLICY_KEYS_EXIT") :
    WebAppWayland.setWindowProperty K s name value =
      { s with calls := s.calls ++ [Call.SetWindowProperty name value.toString] } := by
  simp [WebAppWayland.setWindowProperty, State.call, hback, hexit]

/-- C13: with `KEY_MASK_BACK` a non-zero mask, `navigationHistoryChanged` changes
nothing when the application description has `backHistoryAPIDisabled` set;
otherwise it sets `KEY_MASK_BACK` to whether the page can go back and the window
property `_WEBOS_ACCESS_POLICY_KEYS_BACK` to "true" when it can and "false"
when it cannot, and changes nothing else. -/
theorem C13_navigationHistoryChanged_back_key (K : WebOSKeyMask)
    (hback : K.KEY_MASK_BACK ≠ 0) (s : State) :
    (s.backHistoryAPIDisabled = true → WebAppWayland.navigationHistoryChanged K s = s) ∧
    (s.backHistoryAPIDisabled = false →
      WebAppWayland.navigationHistoryChanged K s =
        { s with calls := s.calls ++ [Call.SetKeyMaskValue K.KEY_MASK_BACK s.canGoBack,
          Call.SetWindowProperty "_WEBOS_ACCESS_POLICY_KEYS_BACK"
            (if s.canGoBack then "true" else "false")] }) := by
  refine ⟨?_, ?_⟩
  · intro h
    simp [WebAppWayland.navigationHistoryChanged, h]
  · intro h
    have htrue : (QVariant.ofString "true").toBool = true := by decide
    have hfalse : (QVariant.ofString "false").toBool = false := by decide
    simp only [WebAppWayland.navigationHistoryChanged, h, Bool.not_false, if_true,
      setWindowProperty_back K hback]
    cases hc : s.canGoBack
    · simp only [Bool.false_eq_true, if_false, hfalse]
      rfl
    · simp only [if_true, htrue]
      rfl

/-- C13, for a page that can go back. -/
theorem C13_navigationHistoryChanged_back_key_witness :
    sampleKeyMask.KEY_MASK_BACK ≠ 0 ∧
    WebAppWayland.navigationHistoryChanged sampleKeyMask { sampleState with canGoBack := true } =
      { sampleState with
        canGoBack := true
        calls := [Call.SetKeyMaskValue 2 true,
          Call.SetWindowProperty "_WEBOS_ACCESS_POLICY_KEYS_BACK" "true"] } :=
  ⟨by decide,
    (C13_navigationHistoryChanged_back_key sampleKeyMask (by decide)
      { sampleState with canGoBack := true }).2 rfl⟩

/-- C15: with `KEY_MASK_BACK` and `KEY_MASK_EXIT` non-zero masks, for every
property name and value `setWindowProperty` calls `setKeyMask(mask,
value.toBool())` exactly when the name is `_WEBOS_ACCESS_POLICY_KEYS_BACK` (with
mask `KEY_MASK_BACK`) or `_WEBOS_ACCESS_POLICY_KEYS_EXIT` (with mask
`KEY_MASK_EXIT`), touches no key mask for any other name, and in all cases
forwards the property to the window once, with the name and the value's string
form, as its last call. -/
theorem C15_setWindowProperty_key_masks (K : WebOSKeyMask) (hback : K.KEY_MASK_BACK ≠ 0)
    (hexit : K.KEY_MASK_EXIT ≠ 0) (s : State) (name : String) (value : QVariant) :
    (name = "_WEBOS_ACCESS_POLICY_KEYS_BACK" →
      WebAppWayland.setWindowProperty K s name value =
        { s with calls := s.calls ++ [Call.SetKeyMaskValue K.KEY_MASK_BACK value.toBool,
          Call.SetWindowProperty name value.toString] }) ∧
    (name = "_WEBOS_ACCESS_POLICY_KEYS_EXIT" →
      WebAppWayland.setWindowProperty K s name value =
        { s with calls := s.calls ++ [Call.SetKeyMaskValue K.KEY_MASK_EXIT value.toBool,
          Call.SetWindowProperty name value.toString] }) ∧
    (name ≠ "_WEBOS_ACCESS_POLICY_KEYS_BACK" → name ≠ "_WEBOS_ACCESS_POLICY_KEYS_EXIT" →
      WebAppWayland.setWindowProperty K s name value =
        { s with calls := s.calls ++ [Call.SetWindowProperty name value.toString] }) ∧
    ((∃ mask b, Call.SetKeyMaskValue mask b ∈
        callsSince s (WebAppWayland.setWindowProperty K s name value)) ↔
      (name = "_WEBOS_ACCESS_POLICY_KEYS_BACK" ∨ name = "_WEBOS_ACCESS_POLICY_KEYS_EXIT")) ∧
    (callsSince s (WebAppWayland.setWindowProperty K s name value)).count
      (Call.SetWindowProperty name value.toString) = 1 := by
  by_cases h1 : name = "_WEBOS_ACCESS_POLICY_KEYS_BACK"
  · subst h1
    rw [setWindowProperty_back K hback]
    simp [callsSince]
  · by_cases h2 : name = "_WEBOS_ACCESS_POLICY_KEYS_EXIT"
    · subst h2
      rw [setWindowProperty_exit K hexit]
      simp [callsSince]
    · rw [setWindowProperty_other K s name value h1 h2]
      simp [callsSince, h1, h2]

/-- C15, for the exit-key property and for the window title. -/
theorem C15_setWindowProperty_key_masks_witness :
    sampleKeyMask.KEY_MASK_BACK ≠ 0 ∧ sampleKeyMask.KEY_MASK_EXIT ≠ 0 ∧
    WebAppWayland.setWindowProperty sampleKeyMask sampleState "_WEBOS_ACCESS_POLICY_KEYS_EXIT"
      (QVariant.ofString "true") =
      { sampleState with calls := [Call.SetKeyMaskValue 4 true,
        Call.SetWindowProperty "_WEBOS_ACCESS_POLICY_KEYS_EXIT" "true"] } ∧
    WebAppWayland.setWindowProperty sampleKeyMask sampleState "title"
      (QVariant.ofString "Example") =
      { sampleState with calls := [Call.SetWindowProperty "title" "Example"] } :=
  have h := C15_setWindowProperty_key_masks sampleKeyMask (by decide) (by decide) sampleState
  ⟨by decide, by decide,
    (h "_WEBOS_ACCESS_POLICY_KEYS_EXIT" (QVariant.ofString "true")).2.1 rfl,
    (h "title" (QVariant.ofString "Example")).2.2.1 (by decide) (by decide)⟩

/-! ## Handing out windows (C14) -/

/-- C14: `take()` returns a non-null window and leaves no prepared instance behind
(`s_instance` is null afterwards); two successive `take()` calls return different
windows (the prepared window being one created earlier); `take()` directly after
`prepare()` returns the instance `prepare()` leaves prepared, which is the window
`prepare()` created when none was prepared before; and `prepare()` changes
nothing when an instance is already prepared. -/
theorem C14_take_hands_over_a_single_window (s : State) :
    (WebAppWaylandWindow.take s).1 ≠ none ∧
    (WebAppWaylandWindow.take s).2.s_instance = none ∧
    (preparedWindowExists s →
      (WebAppWaylandWindow.take (WebAppWaylandWindow.take s).2).1 ≠
        (WebAppWaylandWindow.take s).1) ∧
    (WebAppWaylandWindow.take (WebAppWaylandWindow.prepare s)).1 =
      (WebAppWaylandWindow.prepare s).s_instance ∧
    (s.s_instance = none →
      (WebAppWaylandWindow.take (WebAppWaylandWindow.prepare s)).1 =
        (WebAppWaylandWindow.createWindow s).1) ∧
    (s.s_instance ≠ none → WebAppWaylandWindow.prepare s = s) := by
  refine ⟨?_, ?_, ?_, ?_, ?_, ?_⟩
  · cases h : s.s_instance <;> simp [WebAppWaylandWindow.take, h]
  · cases h : s.s_instance <;> simp [WebAppWaylandWindow.take, h]
  · intro hfresh
    unfold preparedWindowExists at hfresh
    cases h : s.s_instance with
    | none => simp [WebAppWaylandWindow.take, h]
    | some window =>
      rw [h] at hfresh
      simp only [WebAppWaylandWindow.take, h, Option.isNone_some, Bool.false_eq_true, if_false,
        Option.isNone_none, if_true, ne_eq, Option.some.injEq]
      have hlt : window < s.windowsCreated := hfresh
      omega
  · cases h : s.s_instance <;>
      simp [WebAppWaylandWindow.take, WebAppWaylandWindow.prepare,
        WebAppWaylandWindow.createWindow, State.call, h]
  · intro h
    simp [WebAppWaylandWindow.take, WebAppWaylandWindow.prepare,
      WebAppWaylandWindow.createWindow, State.call, h]
  · intro h
    cases hs : s.s_instance with
    | none => exact absurd hs h
    | some window => simp [WebAppWaylandWindow.prepare, hs]

/-- C14, with one window created before and none prepared: `prepare()` creates
window 1, `take()` hands it out, and the next `take()` hands out window 2. -/
theorem C14_take_hands_over_a_single_window_witness :
    preparedWindowExists (WebAppWaylandWindow.prepare sampleState) ∧
    (WebAppWaylandWindow.take (WebAppWaylandWindow.prepare sampleState)).1 = some 1 ∧
    (WebAppWaylandWindow.take
      (WebAppWaylandWindow.take (WebAppWaylandWindow.prepare sampleState)).2).1 ≠
      (WebAppWaylandWindow.take (WebAppWaylandWindow.prepare sampleState)).1 :=
  ⟨by decide,
    (C14_take_hands_over_a_single_window sampleState).2.2.2.2.1 rfl,
    (C14_take_hands_over_a_single_window (WebAppWaylandWindow.prepare sampleState)).2.2.1
      (by decide)⟩

/-! ## Two keyboard-hidden events in a row (C18) -/

/-- C18 (as stated, refuted): with an enabled region of two rectangles and a
recorded keyboard height of 300, `moveInputRegion(0)` applied once moves the
rectangles down by 300, and applied twice leaves them where they were, so twice
is not the same as once. -/
theorem C18_counterexample_hidden_twice_differs_from_once :
    { sampleState with m_vkbHeight := 300 }.m_enableInputRegion = true ∧
    (WebAppWayland.moveInputRegion { sampleState with m_vkbHeight := 300 } 0).m_inputRegion =
      [⟨0, 1200, 1920, 180⟩, ⟨100, 500, 300, 400⟩] ∧
    (WebAppWayland.moveInputRegion
      (WebAppWayland.moveInputRegion { sampleState with m_vkbHeight := 300 } 0)
      0).m_inputRegion = [⟨0, 900, 1920, 180⟩, ⟨100, 200, 300, 400⟩] ∧
    (WebAppWayland.moveInputRegion
      (WebAppWayland.moveInputRegion { sampleState with m_vkbHeight := 300 } 0)
      0).m_inputRegion ≠
      (WebAppWayland.moveInputRegion { sampleState with m_vkbHeight := 300 } 0).m_inputRegion := by
  decide

theorem wrapInt32_sub_neg_eq_self_iff (y v : Int) (hy : isInt32 y) (hv : isInt32 v) :
    wrapInt32 (y - wrapInt32 (-v)) = y ↔ v = 0 := by
  unfold isInt32 at hy hv
  unfold wrapInt32
  norm_num at hy hv ⊢
  omega

/-- C18 (amended): for every enabled input region whose ordinates and recorded
keyboard height are `int`s, `moveInputRegion(0)` applied twice in a row restores
the region (and the recorded height) held before the first of the two calls:
the second call undoes the first.  Two calls therefore leave the region as one
call does exactly when the recorded keyboard height is 0 or the region is
empty. -/
theorem C18_hidden_twice_restores_region (s : State)
    (henabled : s.m_enableInputRegion = true)
    (hint : ∀ r ∈ s.m_inputRegion, isInt32 r.y) (hvkb : isInt32 s.m_vkbHeight) :
    (WebAppWayland.moveInputRegion (WebAppWayland.moveInputRegion s 0) 0).m_inputRegion =
      s.m_inputRegion ∧
    (WebAppWayland.moveInputRegion (WebAppWayland.moveInputRegion s 0) 0).m_vkbHeight =
      s.m_vkbHeight ∧
    ((WebAppWayland.moveInputRegion (WebAppWayland.moveInputRegion s 0) 0).m_inputRegion =
        (WebAppWayland.moveInputRegion s 0).m_inputRegion ↔
      (s.m_vkbHeight = 0 ∨ s.m_inputRegion = [])) := by
  have h1 := moveInputRegion_enabled s 0 henabled
  have henabled1 : (WebAppWayland.moveInputRegion s 0).m_enableInputRegion = true := by
    rw [h1]; exact henabled
  have hregion1 : (WebAppWayland.moveInputRegion s 0).m_inputRegion =
      s.m_inputRegion.map
        (fun r => Rect.mk r.x (wrapInt32 (r.y - wrapInt32 (-s.m_vkbHeight))) r.width r.height) := by
    rw [h1]; simp
  have hvkb1 : (WebAppWayland.moveInputRegion s 0).m_vkbHeight = wrapInt32 (-s.m_vkbHeight) := by
    rw [h1]; simp
  have hrestore := moveInputRegion_restore s.m_inputRegion (WebAppWayland.moveInputRegion s 0)
    (wrapInt32 (-s.m_vkbHeight)) hint henabled1 hregion1 hvkb1
  refine ⟨hrestore, ?_, ?_⟩
  · rw [moveInputRegion_enabled _ 0 henabled1, hvkb1]
    simp only [ne_eq, not_true_eq_false, if_false]
    unfold isInt32 at hvkb
    unfold wrapInt32
    norm_num at hvkb ⊢
    omega
  · rw [hrestore, hregion1]
    constructor
    · intro heq
      cases hreg : s.m_inputRegion with
      | nil => exact Or.inr rfl
      | cons r rest =>
        left
        rw [hreg] at heq
        simp only [List.map_cons, List.cons.injEq] at heq
        have hy := congrArg Rect.y heq.1
        simp only at hy
        exact (wrapInt32_sub_neg_eq_self_iff r.y s.m_vkbHeight
          (hint r (by rw [hreg]; exact List.mem_cons_self _ _)) hvkb).mp hy.symm
    · rintro (hzero | hempty)
      · conv => lhs; rw [← List.map_id s.m_inputRegion]
        apply List.map_congr_left
        intro r hr
        have := (wrapInt32_sub_neg_eq_self_iff r.y s.m_vkbHeight (hint r hr) hvkb).mpr hzero
        simp [this]
      · rw [hempty]; rfl

/-- C18 (amended), for a region of two rectangles and a recorded keyboard height of
300: the second `moveInputRegion(0)` undoes the first. -/
theorem C18_hidden_twice_restores_region_witness :
    { sampleState with m_vkbHeight := 300 }.m_enableInputRegion = true ∧
    (WebAppWayland.moveInputRegion
      (WebAppWayland.moveInputRegion { sampleState with m_vkbHeight := 300 } 0)
      0).m_inputRegion = [⟨0, 900, 1920, 180⟩, ⟨100, 200, 300, 400⟩] :=
  ⟨rfl, (C18_hidden_twice_restores_region { sampleState with m_vkbHeight := 300 } rfl
    (by decide) (by decide)).1⟩

/-! ## Releasing a pending mouse press (C16) -/

theorem Quiet.quiet_refl (s : State) : Quiet s s := ⟨rfl, [], by simp, rfl⟩

theorem Quiet.then_quiet {s t u : State} (h1 : Quiet s t) (h2 : Quiet t u) : Quiet s u := by
  obtain ⟨hm1, a1, hc1, hf1⟩ := h1
  obtain ⟨hm2, a2, hc2, hf2⟩ := h2
  refine ⟨Eq.trans hm2 hm1, a1 ++ a2, by rw [hc2, hc1, List.append_assoc], ?_⟩
  unfold forwardedEvents at *
  rw [List.countP_append, hf1, hf2]

theorem onStageActivated_quiet (s : State) : Quiet s (WebAppWayland.onStageActivated s) := by
  cases h : s.crashState <;>
    simp [Quiet, WebAppWayland.onStageActivated, getCrashState, setCrashState, State.call,
      WebAppWaylandWindow.show_, h, forwardedEvents, Call.isForwardEvent]

theorem onStageDeactivated_quiet (s : State) : Quiet s (WebAppWayland.onStageDeactivated s) := by
  simp [Quiet, onStageDeactivated_eq, forwardedEvents, Call.isForwardEvent]

theorem applyInputRegion_quiet (s : State) : Quiet s (WebAppWayland.applyInputRegion s) := by
  unfold WebAppWayland.applyInputRegion
  split_ifs <;> simp [Quiet, State.call, forwardedEvents, Call.isForwardEvent]

theorem unfocus_quiet (s : State) : Quiet s (WebAppWayland.unfocus s) := by
  simp [Quiet, WebAppWayland.unfocus, State.call, forwardedEvents, Call.isForwardEvent]

theorem focus_quiet (s : State) : Quiet s (WebAppWayland.focus s) := by
  simp only [WebAppWayland.focus]
  split_ifs <;> simp [Quiet, State.call, forwardedEvents, Call.isForwardEvent]

theorem hideWindow_quiet (s : State) : Quiet s (WebAppWayland.hideWindow s).2 := by
  unfold WebAppWayland.hideWindow WebAppWayland.hide
  split_ifs <;>
    simp [Quiet, onStageDeactivated_eq, WebAppWaylandWindow.hide, setHiddenWindow, State.call,
      forwardedEvents, Call.isForwardEvent]

theorem doClose_quiet (s : State) : Quiet s (WebAppWayland.doClose s) := by
  unfold WebAppWayland.doClose
  split_ifs with hforce hkeep
  · simp [Quiet, State.call, forwardedEvents, Call.isForwardEvent]
  · cases hhidden : (WebAppWayland.hideWindow s).1
    · have h := hideWindow_quiet s
      simp only [hhidden, Bool.false_eq_true, if_false]
      refine h.then_quiet ?_
      simp [Quiet, State.call, forwardedEvents, Call.isForwardEvent]
    · simp only [hhidden, if_true]
      exact hideWindow_quiet s
  · simp [Quiet, State.call, forwardedEvents, Call.isForwardEvent]

theorem stateAboutToChange_quiet (s : State) (willBe : NativeWindowState) :
    Quiet s (WebAppWayland.stateAboutToChange s willBe) := by
  unfold WebAppWayland.stateAboutToChange
  split_ifs <;> simp [Quiet, State.call, forwardedEvents, Call.isForwardEvent]

theorem stateChanged_quiet (s : State) (newState : NativeWindowState) :
    Quiet s (WebAppWayland.stateChanged s newState) := by
  unfold WebAppWayland.stateChanged
  split_ifs
  · exact Quiet.quiet_refl s
  · cases newState <;>
      first
      | exact (applyInputRegion_quiet s).then_quiet (onStageActivated_quiet _)
      | exact onStageDeactivated_quiet s
      | exact Quiet.quiet_refl s

theorem sendWebOSMouseEvent_quiet (s : State) (eventName : String) :
    Quiet s (WebAppWayland.sendWebOSMouseEvent s eventName) := by
  unfold WebAppWayland.sendWebOSMouseEvent
  split_ifs <;> simp [Quiet, State.call, forwardedEvents, Call.isForwardEvent]

theorem moveInputRegion_quiet (s : State) (height : Int) :
    Quiet s (WebAppWayland.moveInputRegion s height) := by
  simp only [WebAppWayland.moveInputRegion]
  split_ifs <;> simp [Quiet, State.call, forwardedEvents, Call.isForwardEvent]

theorem keyboardVisibilityChanged_quiet (s : State) (visible : Bool) (height : Int) :
    Quiet s (WebAppWayland.keyboardVisibilityChanged s visible height) := by
  unfold WebAppWayland.keyboardVisibilityChanged
  refine Quiet.then_quiet ?_ (moveInputRegion_quiet _ _)
  simp [Quiet, State.call, forwardedEvents, Call.isForwardEvent]

theorem onDelegateWindowFrameSwapped_quiet (s : State) :
    Quiet s (WebAppWayland.onDelegateWindowFrameSwapped s) := by
  unfold WebAppWayland.onDelegateWindowFrameSwapped
  split_ifs <;> simp [Quiet, forwardedEvents]

theorem delegateEvent_quiet (delegate : WebOSEvent → Bool) (s : State) (e : WebOSEvent) :
    Quiet s (WebAppWaylandWindow.delegateEvent delegate s e).2 := by
  simp [Quiet, WebAppWaylandWindow.delegateEvent, State.call, forwardedEvents,
    Call.isForwardEvent]

theorem onCursorVisibileChangeEvent_quiet (s : State) :
    Quiet s (WebAppWaylandWindow.onCursorVisibileChangeEvent s).2 := by
  unfold WebAppWaylandWindow.onCursorVisibileChangeEvent
  split_ifs <;> simp [Quiet, setCursorVisible, forwardedEvents]

theorem Quiet.balanced {s t : State} (h : Quiet s t) : Balanced 0 s t := by
  obtain ⟨hm, added, hc, hf⟩ := h
  refine ⟨added, hc, ?_⟩
  unfold pendingPress
  rw [hm, hf]
  omega

theorem Balanced.then_balanced {n m : Nat} {s t u : State} (h1 : Balanced n s t)
    (h2 : Balanced m t u) : Balanced (n + m) s u := by
  obtain ⟨a1, hc1, hb1⟩ := h1
  obtain ⟨a2, hc2, hb2⟩ := h2
  refine ⟨a1 ++ a2, by rw [hc2, hc1, List.append_assoc], ?_⟩
  unfold forwardedEvents at *
  rw [List.countP_append]
  omega

theorem releaseLastMouseEvent_press (s : State)
    (h : s.m_lastMouseEvent.type = WebOSEventType.MouseButtonPress) :
    WebAppWaylandWindow.releaseLastMouseEvent s =
      { s with
        m_lastMouseEvent := ⟨WebOSEventType.MouseButtonRelease, s.m_lastMouseEvent.flags⟩
        calls := s.calls ++
          [Call.forwardEvent ⟨WebOSEventType.MouseButtonRelease, s.m_lastMouseEvent.flags⟩] } := by
  simp [WebAppWaylandWindow.releaseLastMouseEvent, h, WebAppWayland.forwardWebOSEvent,
    State.call]

theorem releaseLastMouseEvent_other (s : State)
    (h : s.m_lastMouseEvent.type ≠ WebOSEventType.MouseButtonPress) :
    WebAppWaylandWindow.releaseLastMouseEvent s = s := by
  simp [WebAppWaylandWindow.releaseLastMouseEvent, h]

theorem releaseLastMouseEvent_balanced (s : State) :
    Balanced 0 s (WebAppWaylandWindow.releaseLastMouseEvent s) := by
  by_cases h : s.m_lastMouseEvent.type = WebOSEventType.MouseButtonPress
  · rw [releaseLastMouseEvent_press s h]
    exact ⟨_, rfl, by simp [forwardedEvents, Call.isForwardEvent, pendingPress, h]⟩
  · rw [releaseLastMouseEvent_other s h]
    exact (Quiet.quiet_refl s).balanced

theorem event_release (delegate : WebOSEvent → Bool) (s : State) (e : WebOSEvent)
    (hweb : s.m_webApp = true)
    (htype : e.type = WebOSEventType.FocusOut ∨
      (e.type = WebOSEventType.WindowStateChange ∧
        s.windowHostState = NativeWindowState.NATIVE_WINDOW_MINIMIZED)) :
    Quiet (WebAppWaylandWindow.releaseLastMouseEvent s)
      (WebAppWaylandWindow.event delegate s e).2 := by
  rcases htype with htype | ⟨htype, hmin⟩
  · have heq : (WebAppWaylandWindow.event delegate s e).2 =
        (WebAppWaylandWindow.delegateEvent delegate
          (WebAppWayland.unfocus (WebAppWaylandWindow.releaseLastMouseEvent s)) e).2 := by
      simp [WebAppWaylandWindow.event, hweb, htype]
    rw [heq]
    exact (unfocus_quiet _).then_quiet (delegateEvent_quiet _ _ _)
  · have heq : (WebAppWaylandWindow.event delegate s e).2 =
        (WebAppWaylandWindow.delegateEvent delegate
          (WebAppWayland.stateChanged (WebAppWaylandWindow.releaseLastMouseEvent s)
            (WebAppWaylandWindow.releaseLastMouseEvent s).windowHostState) e).2 := by
      simp [WebAppWaylandWindow.event, hweb, htype, hmin]
    rw [heq]
    exact (stateChanged_quiet _ _).then_quiet (delegateEvent_quiet _ _ _)

theorem event_balanced (delegate : WebOSEvent → Bool) (s : State) (e : WebOSEvent) :
    Balanced (if e.type = WebOSEventType.MouseButtonPress then 1 else 0) s
      (WebAppWaylandWindow.event delegate s e).2 := by
  have hzero : ∀ n : Nat, ∀ t : State, Balanced 0 s t → Balanced n s t := by
    rintro n t ⟨added, hc, hb⟩
    exact ⟨added, hc, by omega⟩
  cases hweb : s.m_webApp
  · apply hzero
    simp only [WebAppWaylandWindow.event, hweb, Bool.not_false, if_true]
    exact (Quiet.quiet_refl s).balanced
  · obtain ⟨type, flags, visible, height⟩ := e
    cases type <;>
      simp only [WebAppWaylandWindow.event, hweb, Bool.not_true, Bool.false_eq_true, if_false]
    case None | KeyPress | KeyRelease | other =>
      exact hzero _ _ (delegateEvent_quiet _ _ _).balanced
    case Close => exact hzero _ _ (doClose_quiet _).balanced
    case WindowStateChange =>
      apply hzero
      split_ifs
      · exact (releaseLastMouseEvent_balanced s).then_balanced
          ((stateChanged_quiet _ _).then_quiet (delegateEvent_quiet _ _ _)).balanced
      · exact ((stateChanged_quiet _ _).then_quiet (delegateEvent_quiet _ _ _)).balanced
    case WindowStateAboutToChange => exact hzero _ _ (stateAboutToChange_quiet _ _).balanced
    case Swap =>
      apply hzero
      split_ifs
      · exact ((onDelegateWindowFrameSwapped_quiet _).then_quiet (delegateEvent_quiet _ _ _)).balanced
      · exact (delegateEvent_quiet _ _ _).balanced
    case MouseButtonPress =>
      refine Balanced.then_balanced (n := 1) (m := 0) ⟨[], by simp, ?_⟩
        (onCursorVisibileChangeEvent_quiet _).balanced
      simp [forwardedEvents, pendingPress]
    case MouseButtonRelease =>
      refine Balanced.then_balanced (n := 0) (m := 0) ⟨[], by simp, ?_⟩
        (onCursorVisibileChangeEvent_quiet _).balanced
      simp [forwardedEvents, pendingPress]
    case MouseMove => exact hzero _ _ (onCursorVisibileChangeEvent_quiet _).balanced
    case Wheel =>
      apply hzero
      split_ifs
      · exact (Quiet.quiet_refl s).balanced
      · exact (delegateEvent_quiet _ _ _).balanced
    case Enter | Leave =>
      exact hzero _ _
        ((sendWebOSMouseEvent_quiet _ _).then_quiet (delegateEvent_quiet _ _ _)).balanced
    case FocusIn =>
      exact hzero _ _ ((focus_quiet _).then_quiet (delegateEvent_quiet _ _ _)).balanced
    case FocusOut =>
      exact hzero _ _ ((releaseLastMouseEvent_balanced s).then_balanced
        ((unfocus_quiet _).then_quiet (delegateEvent_quiet _ _ _)).balanced)
    case InputPanelVisible =>
      apply hzero
      split_ifs <;>
        exact ((keyboardVisibilityChanged_quiet _ _ _).then_quiet (delegateEvent_quiet _ _ _)).balanced

theorem handleEvents_balanced (delegate : WebOSEvent → Bool) :
    ∀ (inputs : List (NativeWindowState × WebOSEvent)) (s : State),
      Balanced (pressEvents inputs) s (handleEvents delegate s inputs) := by
  intro inputs
  induction inputs with
  | nil => intro s; exact (Quiet.quiet_refl s).balanced
  | cons input rest ih =>
    intro s
    have hstep : Balanced (if input.2.type = WebOSEventType.MouseButtonPress then 1 else 0) s
        (handleEvent delegate s input) := by
      obtain ⟨added, hc, hb⟩ :=
        event_balanced delegate { s with windowHostState := input.1 } input.2
      exact ⟨added, hc, hb⟩
    have h := hstep.then_balanced (ih (handleEvent delegate s input))
    have hcount : pressEvents (input :: rest) =
        (if input.2.type = WebOSEventType.MouseButtonPress then 1 else 0) + pressEvents rest := by
      unfold pressEvents
      rw [List.countP_cons]
      by_cases hp : input.2.type = WebOSEventType.MouseButtonPress <;> simp [hp, Nat.add_comm]
    rw [hcount]
    exact h

/-- C16 (as stated, refuted): on a window that has its web app and has not seen a
mouse-button event yet (the recorded type is the `None` its constructor sets), a
`FocusOut` event, and likewise a `WindowStateChange` event in host state
`NATIVE_WINDOW_MINIMIZED`, forwards nothing and leaves the recorded type `None`:
afterwards the recorded type is not `MouseButtonRelease`. -/
theorem C16_counterexample_recorded_type_stays_none :
    sampleState.m_webApp = true ∧
    sampleState.m_lastMouseEvent.type = WebOSEventType.None ∧
    (WebAppWaylandWindow.event (fun _ => false) sampleState
      ⟨WebOSEventType.FocusOut, 0, false, 0⟩).2.m_lastMouseEvent.type = WebOSEventType.None ∧
    (WebAppWaylandWindow.event (fun _ => false) sampleState
      ⟨WebOSEventType.FocusOut, 0, false, 0⟩).2.m_lastMouseEvent.type ≠
        WebOSEventType.MouseButtonRelease ∧
    (WebAppWaylandWindow.event (fun _ => false)
      { sampleState with windowHostState := NativeWindowState.NATIVE_WINDOW_MINIMIZED }
      ⟨WebOSEventType.WindowStateChange, 0, false, 0⟩).2.m_lastMouseEvent.type ≠
        WebOSEventType.MouseButtonRelease := by
  decide

/-- C16 (amended): let the window have its web app, and let the event be a
`FocusOut`, or a `WindowStateChange` while the host state is
`NATIVE_WINDOW_MINIMIZED`.  If the last recorded mouse-button event is a
`MouseButtonPress`, `event` forwards exactly one event to the web app, as the
first thing it does: the recorded event with its type set to
`MouseButtonRelease`; afterwards the recorded type is `MouseButtonRelease`.  If
it is not a press, `event` forwards nothing and leaves the recorded event as it
is (so a recorded type `None` stays `None`).  In both cases the recorded type
is not `MouseButtonPress` afterwards, so a further `FocusOut`, in any host
state, forwards nothing.  Over any sequence of events, each handled in a host
state of its own, the events forwarded to the web app, plus one if a press is
still pending at the end, are at most the `MouseButtonPress` events of the
sequence, plus one if a press was pending at the start. -/
theorem C16_release_forwarded_once_per_press (delegate : WebOSEvent → Bool) (s : State)
    (e : WebOSEvent) (hweb : s.m_webApp = true)
    (htype : e.type = WebOSEventType.FocusOut ∨
      (e.type = WebOSEventType.WindowStateChange ∧
        s.windowHostState = NativeWindowState.NATIVE_WINDOW_MINIMIZED)) :
    (s.m_lastMouseEvent.type = WebOSEventType.MouseButtonPress →
      forwardedEvents (callsSince s (WebAppWaylandWindow.event delegate s e).2) = 1 ∧
      (callsSince s (WebAppWaylandWindow.event delegate s e).2).head? =
        some (Call.forwardEvent
          ⟨WebOSEventType.MouseButtonRelease, s.m_lastMouseEvent.flags⟩) ∧
      (WebAppWaylandWindow.event delegate s e).2.m_lastMouseEvent.type =
        WebOSEventType.MouseButtonRelease) ∧
    (s.m_lastMouseEvent.type ≠ WebOSEventType.MouseButtonPress →
      forwardedEvents (callsSince s (WebAppWaylandWindow.event delegate s e).2) = 0 ∧
      (WebAppWaylandWindow.event delegate s e).2.m_lastMouseEvent = s.m_lastMouseEvent) ∧
    (WebAppWaylandWindow.event delegate s e).2.m_lastMouseEvent.type ≠
      WebOSEventType.MouseButtonPress ∧
    (∀ (hostState : NativeWindowState) (e2 : WebOSEvent), e2.type = WebOSEventType.FocusOut →
      forwardedEvents (callsSince (WebAppWaylandWindow.event delegate s e).2
        (handleEvent delegate (WebAppWaylandWindow.event delegate s e).2 (hostState, e2))) = 0) ∧
    (∀ (u : State) (inputs : List (NativeWindowState × WebOSEvent)),
      forwardedEvents (callsSince u (handleEvents delegate u inputs)) +
          pendingPress (handleEvents delegate u inputs) ≤
        pressEvents inputs + pendingPress u) := by
  have hquiet := event_release delegate s e hweb htype
  have hpress : s.m_lastMouseEvent.type = WebOSEventType.MouseButtonPress →
      forwardedEvents (callsSince s (WebAppWaylandWindow.event delegate s e).2) = 1 ∧
      (callsSince s (WebAppWaylandWindow.event delegate s e).2).head? =
        some (Call.forwardEvent
          ⟨WebOSEventType.MouseButtonRelease, s.m_lastMouseEvent.flags⟩) ∧
      (WebAppWaylandWindow.event delegate s e).2.m_lastMouseEvent.type =
        WebOSEventType.MouseButtonRelease := by
    intro h
    rw [releaseLastMouseEvent_press s h] at hquiet
    obtain ⟨hm, added, hc, hf⟩ := hquiet
    refine ⟨?_, ?_, ?_⟩
    · unfold callsSince
      rw [hc]
      simp only [List.append_assoc, List.drop_left]
      unfold forwardedEvents at hf ⊢
      rw [List.countP_append, hf]
      rfl
    · unfold callsSince
      rw [hc]
      simp only [List.append_assoc, List.drop_left]
      rfl
    · rw [hm]
  have hother : s.m_lastMouseEvent.type ≠ WebOSEventType.MouseButtonPress →
      forwardedEvents (callsSince s (WebAppWaylandWindow.event delegate s e).2) = 0 ∧
      (WebAppWaylandWindow.event delegate s e).2.m_lastMouseEvent = s.m_lastMouseEvent := by
    intro h
    rw [releaseLastMouseEvent_other s h] at hquiet
    obtain ⟨hm, added, hc, hf⟩ := hquiet
    refine ⟨?_, hm⟩
    unfold callsSince
    rw [hc, List.drop_left]
    exact hf
  have hafter : (WebAppWaylandWindow.event delegate s e).2.m_lastMouseEvent.type ≠
      WebOSEventType.MouseButtonPress := by
    by_cases h : s.m_lastMouseEvent.type = WebOSEventType.MouseButtonPress
    · rw [(hpress h).2.2]
      decide
    · rw [(hother h).2]
      exact h
  refine ⟨hpress, hother, hafter, ?_, ?_⟩
  · intro hostState e2 htype2
    generalize (WebAppWaylandWindow.event delegate s e).2 = t at hafter ⊢
    unfold handleEvent
    by_cases hweb2 : t.m_webApp = true
    swap
    · simp [WebAppWaylandWindow.event, hweb2, callsSince, forwardedEvents]
    · have hquiet2 := event_release delegate { t with windowHostState := hostState } e2 hweb2
        (Or.inl htype2)
      rw [releaseLastMouseEvent_other { t with windowHostState := hostState } hafter]
        at hquiet2
      obtain ⟨_, added, hc, hf⟩ := hquiet2
      have hc2 : (WebAppWaylandWindow.event delegate { t with windowHostState := hostState }
          e2).2.calls = t.calls ++ added := hc
      have hsince : callsSince t (WebAppWaylandWindow.event delegate
          { t with windowHostState := hostState } e2).2 = added := by
        unfold callsSince
        rw [hc2, List.drop_left]
      show forwardedEvents (callsSince t (WebAppWaylandWindow.event delegate
          { t with windowHostState := hostState } e2).2) = 0
      rw [hsince]
      exact hf
  · intro u inputs
    obtain ⟨added, hc, hb⟩ := handleEvents_balanced delegate inputs u
    unfold callsSince
    rw [hc, List.drop_left]
    omega

/-- C16 (amended), for a window with a pending press with flags 3 that loses the
focus: one release is forwarded, and a `FocusOut` after that forwards nothing. -/
theorem C16_release_forwarded_once_per_press_witness :
    forwardedEvents (callsSince
      { sampleState with m_lastMouseEvent := ⟨WebOSEventType.MouseButtonPress, 3⟩ }
      (WebAppWaylandWindow.event (fun _ => false)
        { sampleState with m_lastMouseEvent := ⟨WebOSEventType.MouseButtonPress, 3⟩ }
        ⟨WebOSEventType.FocusOut, 0, false, 0⟩).2) = 1 ∧
    (WebAppWaylandWindow.event (fun _ => false)
      { sampleState with m_lastMouseEvent := ⟨WebOSEventType.MouseButtonPress, 3⟩ }
      ⟨WebOSEventType.FocusOut, 0, false, 0⟩).2.m_lastMouseEvent =
        ⟨WebOSEventType.MouseButtonRelease, 3⟩ ∧
    forwardedEvents (callsSince
      { sampleState with m_lastMouseEvent := ⟨WebOSEventType.MouseButtonPress, 3⟩ }
      (handleEvents (fun _ => false)
        { sampleState with m_lastMouseEvent := ⟨WebOSEventType.MouseButtonPress, 3⟩ }
        [(NativeWindowState.NATIVE_WINDOW_FULLSCREEN, ⟨WebOSEventType.FocusOut, 0, false, 0⟩),
          (NativeWindowState.NATIVE_WINDOW_FULLSCREEN,
            ⟨WebOSEventType.FocusOut, 0, false, 0⟩)])) = 1 :=
  ⟨((C16_release_forwarded_once_per_press (fun _ => false)
      { sampleState with m_lastMouseEvent := ⟨WebOSEventType.MouseButtonPress, 3⟩ }
      ⟨WebOSEventType.FocusOut, 0, false, 0⟩ rfl (Or.inl rfl)).1 rfl).1,
    by decide, by decide⟩

/-! ## What every operation keeps (C17, C19) -/

theorem Later.later_refl (s : State) : Later s s :=
  ⟨id, [], by simp, fun h1 h2 => by rw [h1] at h2; cases h2⟩

theorem Later.then_later {s t u : State} (h1 : Later s t) (h2 : Later t u) : Later s u := by
  obtain ⟨he1, a1, hc1, hd1⟩ := h1
  obtain ⟨he2, a2, hc2, hd2⟩ := h2
  refine ⟨fun h => he2 (he1 h), a1 ++ a2, by rw [hc2, hc1, List.append_assoc], ?_⟩
  intro hs hu
  cases ht : t.m_didActivateStage
  · obtain ⟨before, after, hadded⟩ := hd1 hs ht
    exact ⟨before, after ++ a2, by rw [hadded]; simp⟩
  · obtain ⟨before, after, hadded⟩ := hd2 ht hu
    exact ⟨a1 ++ before, after, by rw [hadded]; simp⟩

theorem Later.of_kept {s t : State}
    (he : s.m_enableInputRegion = true → t.m_enableInputRegion = true)
    (hd : s.m_didActivateStage = true → t.m_didActivateStage = true)
    (hc : ∃ added, t.calls = s.calls ++ added) : Later s t := by
  obtain ⟨added, hc⟩ := hc
  exact ⟨he, added, hc, fun h1 h2 => by rw [hd h1] at h2; cases h2⟩

theorem onStageActivated_later (s : State) : Later s (WebAppWayland.onStageActivated s) := by
  refine Later.of_kept ?_ ?_ ?_ <;> simp [onStageActivated_eq]

theorem onStageDeactivated_later (s : State) : Later s (WebAppWayland.onStageDeactivated s) := by
  rw [onStageDeactivated_eq]
  exact ⟨id, _, rfl, fun _ _ => ⟨[], [], rfl⟩⟩

theorem applyInputRegion_later (s : State) : Later s (WebAppWayland.applyInputRegion s) := by
  simp only [WebAppWayland.applyInputRegion]
  split_ifs <;> refine Later.of_kept ?_ ?_ ?_ <;> simp [State.call]

theorem startLaunchTimer_later (s : State) : Later s (WebAppWayland.startLaunchTimer s) := by
  simp only [WebAppWayland.startLaunchTimer]
  split_ifs <;> refine Later.of_kept ?_ ?_ ?_ <;> simp

theorem onDelegateWindowFrameSwapped_later (s : State) :
    Later s (WebAppWayland.onDelegateWindowFrameSwapped s) := by
  simp only [WebAppWayland.onDelegateWindowFrameSwapped]
  split_ifs <;> refine Later.of_kept ?_ ?_ ?_ <;> simp

theorem onLaunchTimeout_later (s : State) : Later s (WebAppWayland.onLaunchTimeout s) := by
  simp only [WebAppWayland.onLaunchTimeout]
  split_ifs <;> refine Later.of_kept ?_ ?_ ?_ <;> simp

theorem call_later (s : State) (c : Call) : Later s (s.call c) := by
  refine Later.of_kept ?_ ?_ ?_ <;> simp [State.call]

theorem setWindowProperty_later (K : WebOSKeyMask) (s : State) (name : String)
    (value : QVariant) : Later s (WebAppWayland.setWindowProperty K s name value) := by
  simp only [WebAppWayland.setWindowProperty, WebAppWayland.setKeyMaskValue]
  split_ifs <;> refine Later.of_kept ?_ ?_ ?_ <;> simp [State.call]

theorem setupWindowGroup_later (s : State) (desc : Bool) :
    Later s (WebAppWayland.setupWindowGroup s desc) := by
  simp only [WebAppWayland.setupWindowGroup]
  split_ifs <;> refine Later.of_kept ?_ ?_ ?_ <;> simp [State.call]

theorem setDescriptionProperties_later (K : WebOSKeyMask) (s : State) :
    Later s (WebAppWayland.setDescriptionProperties K s) := by
  simp only [WebAppWayland.setDescriptionProperties, WebAppWayland.setKeyMaskValue]
  exact (((((((((((setWindowProperty_later K _ _ _).then_later
    (setWindowProperty_later K _ _ _)).then_later
    (setWindowProperty_later K _ _ _)).then_later
    (setWindowProperty_later K _ _ _)).then_later
    (setWindowProperty_later K _ _ _)).then_later
    (setWindowProperty_later K _ _ _)).then_later
    (setWindowProperty_later K _ _ _)).then_later
    (setWindowProperty_later K _ _ _)).then_later
    (setWindowProperty_later K _ _ _)).then_later
    (call_later _ _)).then_later (call_later _ _))

theorem Later.ite_self {t u : State} {c : Prop} [Decidable c] (h : Later t u) :
    Later t (if c then u else t) := by
  split_ifs
  · exact h
  · exact Later.later_refl t

theorem doAttach_later (s : State) : Later s (WebAppWayland.doAttach s) := by
  simp only [WebAppWayland.doAttach, WebAppWaylandWindow.attachWebContents]
  refine Later.then_later ?_ (call_later _ _)
  refine Later.then_later ?_ (call_later _ _)
  refine Later.then_later ?_ (Later.ite_self (call_later _ _))
  refine Later.then_later ?_ (call_later _ _)
  refine Later.then_later ?_ (call_later _ _)
  refine Later.then_later ?_ (call_later _ _)
  exact Later.ite_self (setupWindowGroup_later _ _)

theorem attach_later (K : WebOSKeyMask) (floatDiv : Int → Int → Float32) (s : State) :
    Later s (WebAppWayland.attach K floatDiv s) := by
  simp only [WebAppWayland.attach]
  have hscale : ∀ (t : State) (f : Float32), Later t { t with m_scaleFactor := f } := by
    intro t f
    refine Later.of_kept ?_ ?_ ?_ <;> simp
  split_ifs
  · refine Later.then_later ?_ (call_later _ _)
    refine Later.then_later ?_ (doAttach_later _)
    refine Later.then_later ?_ (call_later _ _)
    refine Later.then_later ?_
      (hscale (WebAppWayland.setDescriptionProperties K (s.call Call.baseAttach)) _)
    exact (call_later _ _).then_later (setDescriptionProperties_later K _)
  · refine Later.then_later ?_ (call_later _ _)
    refine Later.then_later ?_ (doAttach_later _)
    refine Later.then_later ?_ (call_later _ _)
    refine Later.then_later ?_
      (hscale (WebAppWayland.setDescriptionProperties K (s.call Call.baseAttach)) _)
    exact (call_later _ _).then_later (setDescriptionProperties_later K _)
  · refine Later.then_later ?_ (call_later _ _)
    refine Later.then_later ?_ (doAttach_later _)
    exact (call_later _ _).then_later (setDescriptionProperties_later K _)

theorem window_hide_later (s : State) : Later s (WebAppWaylandWindow.hide s) :=
  call_later s Call.Hide

theorem window_show_later (s : State) : Later s (WebAppWaylandWindow.show_ s) :=
  call_later s Call.Show

theorem setHiddenWindow_later (s : State) (hidden : Bool) : Later s (setHiddenWindow s hidden) := by
  refine Later.of_kept ?_ ?_ ?_ <;> simp [setHiddenWindow]

theorem detach_later (s : State) : Later s (WebAppWayland.detach s) := by
  simp only [WebAppWayland.detach]
  exact (call_later _ _).then_later (call_later _ _)

theorem suspendAppRendering_later (s : State) :
    Later s (WebAppWayland.suspendAppRendering s) := by
  simp only [WebAppWayland.suspendAppRendering]
  exact (onStageDeactivated_later _).then_later (window_hide_later _)

theorem resumeAppRendering_later (s : State) :
    Later s (WebAppWayland.resumeAppRendering s) := by
  simp only [WebAppWayland.resumeAppRendering]
  exact (window_show_later _).then_later (onStageActivated_later _)

theorem configureWindow_later (K : WebOSKeyMask) (s : State) (type : String) :
    Later s (WebAppWayland.configureWindow K s type) := by
  simp only [WebAppWayland.configureWindow]
  refine Later.then_later ?_ (Later.ite_self (setupWindowGroup_later _ _))
  refine Later.then_later ?_ (setDescriptionProperties_later K _)
  refine Later.then_later ?_ (setWindowProperty_later K _ _ _)
  refine Later.of_kept ?_ ?_ ?_ <;> simp

theorem window_setCursor_later (s : State) (cursorArg : String) (hotspot_x hotspot_y : Int) :
    Later s (WebAppWaylandWindow.setCursor s cursorArg hotspot_x hotspot_y) := by
  simp only [WebAppWaylandWindow.setCursor]
  split_ifs <;> refine Later.of_kept ?_ ?_ ?_ <;> simp [State.call]

theorem hide_later (s : State) (forcedHide : Bool) :
    Later s (WebAppWayland.hide s forcedHide) := by
  simp only [WebAppWayland.hide]
  split_ifs
  · exact ((onStageDeactivated_later _).then_later (window_hide_later _)).then_later
      (setHiddenWindow_later _ _)
  · exact Later.later_refl s

theorem hideWindow_later (s : State) : Later s (WebAppWayland.hideWindow s).2 := by
  simp only [WebAppWayland.hideWindow]
  split_ifs
  · exact Later.later_refl s
  · refine Later.then_later ((call_later s Call.closeVkb).then_later (hide_later _ true)) ?_
    refine Later.of_kept ?_ ?_ ?_ <;> simp

theorem focus_later (s : State) : Later s (WebAppWayland.focus s) := by
  simp only [WebAppWayland.focus]
  split_ifs <;> refine Later.of_kept ?_ ?_ ?_ <;> simp [State.call]

theorem unfocus_later (s : State) : Later s (WebAppWayland.unfocus s) := by
  refine Later.of_kept ?_ ?_ ?_ <;> simp [WebAppWayland.unfocus, State.call]

theorem raise_later (WT_OVERLAY : String) (s : State) :
    Later s (WebAppWayland.raise WT_OVERLAY s) := by
  simp only [WebAppWayland.raise]
  split_ifs <;> refine Later.of_kept ?_ ?_ ?_ <;> simp [onStageActivated_eq, State.call]

theorem doClose_later (s : State) : Later s (WebAppWayland.doClose s) := by
  unfold WebAppWayland.doClose
  split_ifs with hforce hkeep
  · exact call_later _ _
  · cases hhidden : (WebAppWayland.hideWindow s).1
    · simp only [hhidden, Bool.false_eq_true, if_false]
      exact (hideWindow_later s).then_later (call_later _ _)
    · simp only [hhidden, if_true]
      exact hideWindow_later s
  · exact call_later _ _

theorem goBackground_later (WT_OVERLAY : String) (s : State) :
    Later s (WebAppWayland.goBackground WT_OVERLAY s) := by
  simp only [WebAppWayland.goBackground]
  split_ifs
  · exact doClose_later s
  · exact call_later _ _

theorem webPageLoadFinishedSlot_later (s : State) :
    Later s (WebAppWayland.webPageLoadFinishedSlot s) := by
  simp only [WebAppWayland.webPageLoadFinishedSlot]
  split_ifs <;> refine Later.of_kept ?_ ?_ ?_ <;> simp [State.call]

theorem webPageLoadFailedSlot_later (s : State) :
    Later s (WebAppWayland.webPageLoadFailedSlot s) := by
  simp only [WebAppWayland.webPageLoadFailedSlot]
  split_ifs <;> refine Later.of_kept ?_ ?_ ?_ <;> simp [State.call]

theorem stateAboutToChange_later (s : State) (willBe : NativeWindowState) :
    Later s (WebAppWayland.stateAboutToChange s willBe) := by
  simp only [WebAppWayland.stateAboutToChange]
  split_ifs <;> refine Later.of_kept ?_ ?_ ?_ <;> simp [State.call]

theorem stateChanged_later (s : State) (newState : NativeWindowState) :
    Later s (WebAppWayland.stateChanged s newState) := by
  unfold WebAppWayland.stateChanged
  split_ifs
  · exact Later.later_refl s
  · cases newState <;>
      first
      | exact (applyInputRegion_later s).then_later (onStageActivated_later _)
      | exact onStageDeactivated_later s
      | exact Later.later_refl s

theorem showWindow_later (s : State) : Later s (WebAppWayland.showWindow s) := by
  simp only [WebAppWayland.showWindow]
  split_ifs <;> refine Later.of_kept ?_ ?_ ?_ <;>
    simp [onStageActivated_eq, setHiddenWindow, State.call]

theorem navigationHistoryChanged_later (K : WebOSKeyMask) (s : State) :
    Later s (WebAppWayland.navigationHistoryChanged K s) := by
  simp only [WebAppWayland.navigationHistoryChanged]
  exact Later.ite_self (setWindowProperty_later K _ _ _)

theorem webViewRecreatedSlot_later (s : State) :
    Later s (WebAppWayland.webViewRecreatedSlot s) := by
  simp only [WebAppWayland.webViewRecreatedSlot, WebAppWaylandWindow.attachWebContents]
  refine Later.then_later ?_ (focus_later _)
  refine Later.then_later ?_ (Later.ite_self (call_later _ _))
  exact ((call_later _ _).then_later (call_later _ _)).then_later (call_later _ _)

theorem didSwapPageCompositorFrame_later (s : State) :
    Later s (WebAppWayland.didSwapPageCompositorFrame s) := by
  simp only [WebAppWayland.didSwapPageCompositorFrame]
  split_ifs <;> refine Later.of_kept ?_ ?_ ?_ <;> simp [onStageActivated_eq]

theorem sendWebOSMouseEvent_later (s : State) (eventName : String) :
    Later s (WebAppWayland.sendWebOSMouseEvent s eventName) := by
  simp only [WebAppWayland.sendWebOSMouseEvent]
  split_ifs <;> refine Later.of_kept ?_ ?_ ?_ <;> simp [State.call]

theorem setKeepAlive_later (s : State) (keepAlive : Bool) :
    Later s (WebAppWayland.setKeepAlive s keepAlive) := by
  simp only [WebAppWayland.setKeepAlive]
  split_ifs <;> refine Later.of_kept ?_ ?_ ?_ <;> simp [State.call]

theorem moveInputRegion_later (s : State) (height : Int) :
    Later s (WebAppWayland.moveInputRegion s height) := by
  simp only [WebAppWayland.moveInputRegion]
  split_ifs <;> refine Later.of_kept ?_ ?_ ?_ <;> simp [State.call]

theorem keyboardVisibilityChanged_later (s : State) (visible : Bool) (height : Int) :
    Later s (WebAppWayland.keyboardVisibilityChanged s visible height) := by
  simp only [WebAppWayland.keyboardVisibilityChanged]
  exact (call_later _ _).then_later (moveInputRegion_later _ _)

theorem window_take_later (s : State) : Later s (WebAppWaylandWindow.take s).2 := by
  simp only [WebAppWaylandWindow.take]
  split_ifs <;> refine Later.of_kept ?_ ?_ ?_ <;> simp

theorem window_createWindow_later (s : State) :
    Later s (WebAppWaylandWindow.createWindow s).2 := by
  refine Later.of_kept ?_ ?_ ?_ <;> simp [WebAppWaylandWindow.createWindow, State.call]

theorem window_prepare_later (s : State) : Later s (WebAppWaylandWindow.prepare s) := by
  simp only [WebAppWaylandWindow.prepare, WebAppWaylandWindow.createWindow]
  split_ifs <;> refine Later.of_kept ?_ ?_ ?_ <;> simp [State.call]

theorem window_onCursorVisibileChangeEvent_later (s : State) :
    Later s (WebAppWaylandWindow.onCursorVisibileChangeEvent s).2 := by
  simp only [WebAppWaylandWindow.onCursorVisibileChangeEvent]
  split_ifs <;> refine Later.of_kept ?_ ?_ ?_ <;> simp [setCursorVisible]

theorem window_sendKeyCode_later (s : State) (keyCode : Int) :
    Later s (WebAppWaylandWindow.sendKeyCode s keyCode) := by
  simp only [WebAppWaylandWindow.sendKeyCode]
  split_ifs <;> refine Later.of_kept ?_ ?_ ?_ <;> simp [State.call]

theorem delegateEvent_later (delegate : WebOSEvent → Bool) (s : State) (e : WebOSEvent) :
    Later s (WebAppWaylandWindow.delegateEvent delegate s e).2 :=
  call_later s (Call.delegateEvent e)

theorem releaseLastMouseEvent_later (s : State) :
    Later s (WebAppWaylandWindow.releaseLastMouseEvent s) := by
  simp only [WebAppWaylandWindow.releaseLastMouseEvent, WebAppWayland.forwardWebOSEvent]
  split_ifs <;> refine Later.of_kept ?_ ?_ ?_ <;> simp [State.call]

theorem init_later (K : WebOSKeyMask) (kUndefinedDisplayId : Int) (s : State)
    (width height : Int) :
    Later s (WebAppWayland.init K kUndefinedDisplayId s width height) := by
  rw [init_eq_statements]
  have h1 : Later s (initTakeWindow s) := by
    simp only [initTakeWindow, WebAppWaylandWindow.take, WebAppWaylandWindow.construct]
    split_ifs <;> refine Later.of_kept ?_ ?_ ?_ <;> simp
  have h2 : ∀ t : State, Later t (initWindowSize t width height) := by
    intro t
    simp only [initWindowSize]
    split_ifs <;> exact (call_later _ _).then_later (call_later _ _)
  have h3 : ∀ t : State, Later t (initLocationHint t) := by
    intro t
    simp only [initLocationHint]
    split_ifs
    · exact call_later _ _
    · exact Later.later_refl t
  have h4 : ∀ t : State, Later t (initWindowType K t) := by
    intro t
    simp only [initWindowType]
    refine Later.then_later ?_ (setWindowProperty_later K _ _ _)
    refine Later.of_kept ?_ ?_ ?_ <;> simp
  have h5 : ∀ t : State, Later t (initDisplayAffinity K kUndefinedDisplayId t) := by
    intro t
    simp only [initDisplayAffinity]
    split_ifs
    · exact setWindowProperty_later K _ _ _
    · exact Later.later_refl t
  have h6 : ∀ t : State, Later t (initEnvironment t) := by
    intro t
    simp only [initEnvironment]
    split_ifs <;> refine Later.of_kept ?_ ?_ ?_ <;> simp [State.call]
  exact ((((h1.then_later (h2 _)).then_later (h3 _)).then_later (h4 _)).then_later (h5 _)).then_later (h6 _)

theorem setInputRegion_later (toInt : QJsonValue → Int) (s t : State)
    (jsonDoc : QJsonDocument) (h : WebAppWayland.setInputRegion toInt s jsonDoc = some t) :
    Later s t := by
  cases jsonDoc with
  | array a =>
    rw [setInputRegion_array] at h
    cases hrects : scaledRects toInt s.m_scaleFactor a with
    | none => rw [hrects] at h; cases h
    | some region =>
      rw [hrects] at h
      simp only [Option.map_some', Option.some.injEq] at h
      subst h
      refine Later.of_kept ?_ ?_ ?_ <;> simp
  | _ =>
    simp only [WebAppWayland.setInputRegion, QJsonDocument.isArray, Bool.false_eq_true,
      if_false, State.call] at h
    have h2 := Option.some.inj h
    subst h2
    refine Later.of_kept ?_ ?_ ?_ <;> simp

theorem window_event_later (delegate : WebOSEvent → Bool) (s : State) (e : WebOSEvent) :
    Later s (WebAppWaylandWindow.event delegate s e).2 := by
  cases hweb : s.m_webApp
  · simp only [WebAppWaylandWindow.event, hweb, Bool.not_false, if_true]
    exact Later.later_refl s
  · obtain ⟨type, flags, visible, height⟩ := e
    cases type <;>
      simp only [WebAppWaylandWindow.event, hweb, Bool.not_true, Bool.false_eq_true, if_false]
    case None | KeyPress | KeyRelease | other => exact delegateEvent_later _ _ _
    case Close => exact doClose_later _
    case WindowStateChange =>
      split_ifs
      · exact (releaseLastMouseEvent_later s).then_later
          ((stateChanged_later _ _).then_later (delegateEvent_later _ _ _))
      · exact (stateChanged_later _ _).then_later (delegateEvent_later _ _ _)
    case WindowStateAboutToChange => exact stateAboutToChange_later _ _
    case Swap =>
      split_ifs
      · exact (onDelegateWindowFrameSwapped_later _).then_later (delegateEvent_later _ _ _)
      · exact delegateEvent_later _ _ _
    case MouseButtonPress =>
      refine Later.then_later ?_ (window_onCursorVisibileChangeEvent_later _)
      refine Later.of_kept ?_ ?_ ?_ <;> simp
    case MouseButtonRelease =>
      refine Later.then_later ?_ (window_onCursorVisibileChangeEvent_later _)
      refine Later.of_kept ?_ ?_ ?_ <;> simp
    case MouseMove => exact window_onCursorVisibileChangeEvent_later _
    case Wheel =>
      split_ifs
      · exact Later.later_refl s
      · exact delegateEvent_later _ _ _
    case Enter | Leave =>
      exact (sendWebOSMouseEvent_later _ _).then_later (delegateEvent_later _ _ _)
    case FocusIn => exact (focus_later _).then_later (delegateEvent_later _ _ _)
    case FocusOut =>
      exact (releaseLastMouseEvent_later s).then_later
        ((unfocus_later _).then_later (delegateEvent_later _ _ _))
    case InputPanelVisible =>
      split_ifs <;>
        exact (keyboardVisibilityChanged_later _ _ _).then_later (delegateEvent_later _ _ _)

theorem firstFrameVisuallyCommitted_later (s : State)
    (h : s.usePrerendering = true → s.m_didActivateStage = false) :
    Later s (WebAppWayland.firstFrameVisuallyCommitted s) := by
  simp only [WebAppWayland.firstFrameVisuallyCommitted]
  split_ifs with hcond hpre
  · have hflag := h hpre
    refine Later.then_later ?_ (showWindow_later _)
    exact ⟨id, [], by simp, fun h1 => by rw [hflag] at h1; cases h1⟩
  · exact showWindow_later s
  · exact Later.later_refl s

theorem firstFrameVisuallyCommitted_enabled (s : State) :
    (WebAppWayland.firstFrameVisuallyCommitted s).m_enableInputRegion =
      s.m_enableInputRegion := by
  simp only [WebAppWayland.firstFrameVisuallyCommitted, WebAppWayland.showWindow]
  split_ifs <;> simp [onStageActivated_eq, setHiddenWindow, State.call]

/-- Every operation other than a first frame commit of a prerendering app whose
stage is activated only adds calls, keeps an enabled input region enabled, and
clears `m_didActivateStage` only by running `onStageDeactivated`. -/
theorem run_later (X : Externals) (s t : State) (op : Operation)
    (hrun : op.run X s = some t)
    (hop : op = Operation.firstFrameVisuallyCommitted → s.usePrerendering = true →
      s.m_didActivateStage = false) :
    Later s t := by
  cases op <;> simp only [Operation.run, Option.some.injEq] at hrun <;> try subst hrun
  case init => exact init_later _ _ _ _ _
  case startLaunchTimer => exact startLaunchTimer_later _
  case onDelegateWindowFrameSwapped => exact onDelegateWindowFrameSwapped_later _
  case onLaunchTimeout => exact onLaunchTimeout_later _
  case forwardWebOSEvent => exact call_later _ _
  case attach => exact attach_later _ _ _
  case detach => exact detach_later _
  case suspendAppRendering => exact suspendAppRendering_later _
  case resumeAppRendering => exact resumeAppRendering_later _
  case resize => exact call_later _ _
  case onStageActivated => exact onStageActivated_later _
  case onStageDeactivated => exact onStageDeactivated_later _
  case configureWindow => exact configureWindow_later _ _ _
  case setupWindowGroup => exact setupWindowGroup_later _ _
  case setKeyMaskValue => exact call_later _ _
  case applyInputRegion => exact applyInputRegion_later _
  case setInputRegion => exact setInputRegion_later _ _ _ _ hrun
  case setWindowProperty => exact setWindowProperty_later _ _ _ _
  case platformBack => exact Later.later_refl _
  case setCursor => exact window_setCursor_later _ _ _ _
  case setKeyMask => exact call_later _ _
  case setKeyMaskMask => exact call_later _ _
  case focusOwner => exact call_later _ _
  case focusLayer => exact call_later _ _
  case setOpacity => exact call_later _ _
  case hide => exact hide_later _ _
  case focus => exact focus_later _
  case unfocus => exact unfocus_later _
  case doAttach => exact doAttach_later _
  case raise => exact raise_later _ _
  case goBackground => exact goBackground_later _ _
  case webPageLoadFinishedSlot => exact webPageLoadFinishedSlot_later _
  case webPageLoadFailedSlot => exact webPageLoadFailedSlot_later _
  case doClose => exact doClose_later _
  case stateAboutToChange => exact stateAboutToChange_later _ _
  case stateChanged => exact stateChanged_later _ _
  case showWindow => exact showWindow_later _
  case hideWindow => exact hideWindow_later _
  case showWindowSlot => exact showWindow_later _
  case titleChanged => exact setWindowProperty_later _ _ _ _
  case firstFrameVisuallyCommitted => exact firstFrameVisuallyCommitted_later _ (hop rfl)
  case postEvent => exact window_event_later _ _ _
  case navigationHistoryChanged => exact navigationHistoryChanged_later _ _
  case webViewRecreatedSlot => exact webViewRecreatedSlot_later _
  case didSwapPageCompositorFrame => exact didSwapPageCompositorFrame_later _
  case didResumeDOM => exact focus_later _
  case sendWebOSMouseEvent => exact sendWebOSMouseEvent_later _ _
  case deleteSurfaceGroup => exact call_later _ _
  case setKeepAlive => exact setKeepAlive_later _ _
  case moveInputRegion => exact moveInputRegion_later _ _
  case keyboardVisibilityChanged => exact keyboardVisibilityChanged_later _ _ _
  case setUseVirtualKeyboard => exact call_later _ _
  case window_take => exact window_take_later _
  case window_prepare => exact window_prepare_later _
  case window_createWindow => exact window_createWindow_later _
  case window_hide => exact window_hide_later _
  case window_show => exact window_show_later _
  case window_platformBack => exact Later.later_refl _
  case window_setCursor => exact window_setCursor_later _ _ _ _
  case window_attachWebContents => exact call_later _ _
  case window_event => exact window_event_later _ _ _
  case window_onCursorVisibileChangeEvent => exact window_onCursorVisibileChangeEvent_later _
  case window_sendKeyCode => exact window_sendKeyCode_later _ _

theorem run_enabled (X : Externals) (s t : State) (op : Operation)
    (hrun : op.run X s = some t) (henabled : s.m_enableInputRegion = true) :
    t.m_enableInputRegion = true := by
  by_cases hop : op = Operation.firstFrameVisuallyCommitted
  · subst hop
    simp only [Operation.run, Option.some.injEq] at hrun
    subst hrun
    rw [firstFrameVisuallyCommitted_enabled]
    exact henabled
  · exact (run_later X s t op hrun (fun h => absurd h hop)).1 henabled

theorem runOperations_enabled (X : Externals) (ops : List Operation) :
    ∀ (s t : State), runOperations X s ops = some t → s.m_enableInputRegion = true →
      t.m_enableInputRegion = true := by
  induction ops with
  | nil =>
    intro s t hrun henabled
    simp only [runOperations, Option.some.injEq] at hrun
    subst hrun
    exact henabled
  | cons op rest ih =>
    intro s t hrun henabled
    simp only [runOperations] at hrun
    cases hop : op.run X s with
    | none => rw [hop] at hrun; cases hrun
    | some u =>
      rw [hop] at hrun
      exact ih u t hrun (run_enabled X s u op hop henabled)

/-- C17: `applyInputRegion` enables the input region if it is not enabled yet and
the stored region is not empty: it sets `m_enableInputRegion` and sends the
stored region to the window (`SetInputRegion`), and changes nothing else.  If
the region is already enabled or the stored region is empty it changes nothing
and sends nothing.  Applying it twice is the same as applying it once.  Once
`m_enableInputRegion` is true it stays true under every operation of the app and
its window, and so under every sequence of operations; and every operation
leaves a state, except `setInputRegion` where a conversion to `int` is not
defined. -/
theorem C17_applyInputRegion_enables_once (X : Externals) (s : State) :
    (s.m_enableInputRegion = false → s.m_inputRegion ≠ [] →
      WebAppWayland.applyInputRegion s =
        { s with
          m_enableInputRegion := true
          calls := s.calls ++ [Call.SetInputRegion s.m_inputRegion] }) ∧
    ((s.m_enableInputRegion = true ∨ s.m_inputRegion = []) →
      WebAppWayland.applyInputRegion s = s) ∧
    WebAppWayland.applyInputRegion (WebAppWayland.applyInputRegion s) =
      WebAppWayland.applyInputRegion s ∧
    (∀ (op : Operation) (t : State), op.run X s = some t →
      s.m_enableInputRegion = true → t.m_enableInputRegion = true) ∧
    (∀ (ops : List Operation) (t : State), runOperations X s ops = some t →
      s.m_enableInputRegion = true → t.m_enableInputRegion = true) ∧
    (∀ op : Operation, (∀ jsonDoc, op ≠ Operation.setInputRegion jsonDoc) →
      (op.run X s).isSome = true) := by
  refine ⟨?_, ?_, ?_, ?_, ?_, ?_⟩
  · intro hdisabled hregion
    have hempty : s.m_inputRegion.isEmpty = false := by
      cases hr : s.m_inputRegion with
      | nil => exact absurd hr hregion
      | cons r rest => rfl
    simp [WebAppWayland.applyInputRegion, hdisabled, hempty, State.call]
  · rintro (henabled | hempty)
    · simp [WebAppWayland.applyInputRegion, henabled]
    · simp [WebAppWayland.applyInputRegion, hempty]
  · cases henabled : s.m_enableInputRegion
    · cases hr : s.m_inputRegion with
      | nil => simp [WebAppWayland.applyInputRegion, henabled, hr]
      | cons r rest => simp [WebAppWayland.applyInputRegion, henabled, hr, State.call]
    · simp [WebAppWayland.applyInputRegion, henabled]
  · intro op t hrun henabled
    exact run_enabled X s t op hrun henabled
  · intro ops t hrun henabled
    exact runOperations_enabled X ops s t hrun henabled
  · intro op hop
    cases op <;> first | rfl | exact absurd rfl (hop _)

/-- C17, for the sample app with its region not yet enabled: `applyInputRegion`
enables it and sends the two rectangles; and on the sample app, whose region is
enabled, a change to the minimized state leaves it enabled. -/
theorem C17_applyInputRegion_enables_once_witness :
    WebAppWayland.applyInputRegion { sampleState with m_enableInputRegion := false } =
      { sampleState with
        m_enableInputRegion := true
        calls := [Call.SetInputRegion [⟨0, 900, 1920, 180⟩, ⟨100, 200, 300, 400⟩]] } ∧
    (WebAppWayland.stateChanged sampleState
      NativeWindowState.NATIVE_WINDOW_MINIMIZED).m_enableInputRegion = true :=
  ⟨(C17_applyInputRegion_enables_once sampleExternals
      { sampleState with m_enableInputRegion := false }).1 rfl (by decide),
    (C17_applyInputRegion_enables_once sampleExternals sampleState).2.2.2.1
      (Operation.stateChanged NativeWindowState.NATIVE_WINDOW_MINIMIZED) _ rfl rfl⟩

/-- C19: `didSwapPageCompositorFrame` runs `onStageActivated` and sets
`m_didActivateStage` only when `m_didActivateStage` is false, the window is not
hidden and the preload state is `NONE_PRELOAD`; in every other case it changes
nothing.  A second call directly after a first changes nothing.  An operation
of the app or its window that finds `m_didActivateStage` true and leaves it
false is a first frame commit of a prerendering app (not hidden, not
preloaded), or it has run `onStageDeactivated`: the four calls of
`onStageDeactivated` are among the calls it made, one directly after the other.
Both do clear the flag: `onStageDeactivated` always, the first frame commit of a
prerendering app when the window is not hidden and the preload state is
`NONE_PRELOAD`. -/
theorem C19_didSwapPageCompositorFrame_activates_once (X : Externals) (s : State) :
    (s.m_didActivateStage = false → getHiddenWindow s = false →
      s.m_preloadState = PreloadState.NONE_PRELOAD →
      WebAppWayland.didSwapPageCompositorFrame s =
        { WebAppWayland.onStageActivated s with m_didActivateStage := true }) ∧
    ((s.m_didActivateStage = true ∨ getHiddenWindow s = true ∨
        s.m_preloadState ≠ PreloadState.NONE_PRELOAD) →
      WebAppWayland.didSwapPageCompositorFrame s = s) ∧
    WebAppWayland.didSwapPageCompositorFrame (WebAppWayland.didSwapPageCompositorFrame s) =
      WebAppWayland.didSwapPageCompositorFrame s ∧
    (∀ (op : Operation) (t : State), op.run X s = some t →
      s.m_didActivateStage = true → t.m_didActivateStage = false →
      (op = Operation.firstFrameVisuallyCommitted ∧ s.usePrerendering = true ∧
          getHiddenWindow s = false ∧ s.m_preloadState = PreloadState.NONE_PRELOAD) ∨
        ranOnStageDeactivated (callsSince s t)) ∧
    (WebAppWayland.onStageDeactivated s).m_didActivateStage = false ∧
    (s.usePrerendering = true → getHiddenWindow s = false →
      s.m_preloadState = PreloadState.NONE_PRELOAD →
      (WebAppWayland.firstFrameVisuallyCommitted s).m_didActivateStage = false) := by
  have hfirst : s.m_didActivateStage = false → getHiddenWindow s = false →
      s.m_preloadState = PreloadState.NONE_PRELOAD →
      WebAppWayland.didSwapPageCompositorFrame s =
        { WebAppWayland.onStageActivated s with m_didActivateStage := true } := by
    intro hflag hhidden hpreload
    simp [WebAppWayland.didSwapPageCompositorFrame, hflag, hhidden, hpreload]
  have hother : (s.m_didActivateStage = true ∨ getHiddenWindow s = true ∨
      s.m_preloadState ≠ PreloadState.NONE_PRELOAD) →
      WebAppWayland.didSwapPageCompositorFrame s = s := by
    rintro (hflag | hhidden | hpreload)
    · simp [WebAppWayland.didSwapPageCompositorFrame, hflag]
    · simp [WebAppWayland.didSwapPageCompositorFrame, hhidden]
    · simp [WebAppWayland.didSwapPageCompositorFrame, hpreload]
  refine ⟨hfirst, hother, ?_, ?_, ?_, ?_⟩
  · by_cases hcond : s.m_didActivateStage = false ∧ getHiddenWindow s = false ∧
        s.m_preloadState = PreloadState.NONE_PRELOAD
    · rw [hfirst hcond.1 hcond.2.1 hcond.2.2]
      simp [WebAppWayland.didSwapPageCompositorFrame]
    · have hs : WebAppWayland.didSwapPageCompositorFrame s = s := by
        apply hother
        by_contra hno
        apply hcond
        simp only [not_or, Bool.not_eq_true, ne_eq, not_not] at hno
        exact hno
      rw [hs, hs]
  · intro op t hrun hflag hcleared
    by_cases hop : op = Operation.firstFrameVisuallyCommitted ∧ s.usePrerendering = true
    · left
      obtain ⟨hop, hpre⟩ := hop
      subst hop
      simp only [Operation.run, Option.some.injEq] at hrun
      subst hrun
      by_cases hcond : getHiddenWindow s = false ∧ s.m_preloadState = PreloadState.NONE_PRELOAD
      · exact ⟨rfl, hpre, hcond.1, hcond.2⟩
      · exfalso
        have hs : WebAppWayland.firstFrameVisuallyCommitted s = s := by
          simp only [WebAppWayland.firstFrameVisuallyCommitted]
          rw [if_neg]
          simpa using hcond
        rw [hs, hflag] at hcleared
        cases hcleared
    · right
      have hlater := run_later X s t op hrun
        (fun h1 h2 => absurd (And.intro h1 h2) hop)
      obtain ⟨_, added, hc, hd⟩ := hlater
      unfold callsSince
      rw [hc, List.drop_left]
      exact hd hflag hcleared
  · rw [onStageDeactivated_eq]
  · intro hpre hhidden hpreload
    simp [WebAppWayland.firstFrameVisuallyCommitted, WebAppWayland.showWindow, hpre, hhidden,
      hpreload, onStageActivated_eq, setHiddenWindow, State.call]

/-- C19, for the sample app before its stage is activated: the first
`didSwapPageCompositorFrame` activates the stage and sets the flag; and on the
sample app, whose stage is activated, a change to the minimized state, which
clears the flag, has run `onStageDeactivated`. -/
theorem C19_didSwapPageCompositorFrame_activates_once_witness :
    (WebAppWayland.didSwapPageCompositorFrame
      { sampleState with m_didActivateStage := false }).m_didActivateStage = true ∧
    (WebAppWayland.didSwapPageCompositorFrame
      { sampleState with m_didActivateStage := false }).calls =
      [Call.resumeWebPageAll,
        Call.setVisibilityState WebPageVisibilityState.WebPageVisibilityStateVisible,
        Call.setActiveInstanceId, Call.Show] ∧
    ranOnStageDeactivated (callsSince sampleState
      (WebAppWayland.stateChanged sampleState NativeWindowState.NATIVE_WINDOW_MINIMIZED)) :=
  ⟨by
      rw [(C19_didSwapPageCompositorFrame_activates_once sampleExternals
        { sampleState with m_didActivateStage := false }).1 rfl rfl rfl],
    by decide,
    ((C19_didSwapPageCompositorFrame_activates_once sampleExternals sampleState).2.2.2.1
      (Operation.stateChanged NativeWindowState.NATIVE_WINDOW_MINIMIZED) _ rfl rfl rfl).resolve_left
      (fun h => by cases h.1)⟩

/-! ## Location hints (C21) -/

theorem getLocationHintFromString_eq (value : String) :
    getLocationHintFromString value =
      if value = "north" then LocationHint.kNorth
      else if value = "west" then LocationHint.kWest
      else if value = "south" then LocationHint.kSouth
      else if value = "east" then LocationHint.kEast
      else if value = "center" then LocationHint.kCenter
      else if value = "northwest" then LocationHint.kNorthWest
      else if value = "northeast" then LocationHint.kNorthEast
      else if value = "southwest" then LocationHint.kSouthWest
      else if value = "southeast" then LocationHint.kSouthEast
      else LocationHint.kUnknown := by
  by_cases h1 : value = "north"
  · subst h1; decide
  by_cases h2 : value = "west"
  · subst h2; decide
  by_cases h3 : value = "south"
  · subst h3; decide
  by_cases h4 : value = "east"
  · subst h4; decide
  by_cases h5 : value = "center"
  · subst h5; decide
  by_cases h6 : value = "northwest"
  · subst h6; decide
  by_cases h7 : value = "northeast"
  · subst h7; decide
  by_cases h8 : value = "southwest"
  · subst h8; decide
  by_cases h9 : value = "southeast"
  · subst h9; decide
  have e1 : (value == "north") = false := by simpa using h1
  have e2 : (value == "west") = false := by simpa using h2
  have e3 : (value == "south") = false := by simpa using h3
  have e4 : (value == "east") = false := by simpa using h4
  have e5 : (value == "center") = false := by simpa using h5
  have e6 : (value == "northwest") = false := by simpa using h6
  have e7 : (value == "northeast") = false := by simpa using h7
  have e8 : (value == "southwest") = false := by simpa using h8
  have e9 : (value == "southeast") = false := by simpa using h9
  simp only [h1, h2, h3, h4, h5, h6, h7, h8, h9, if_false]
  simp only [getLocationHintFromString, List.lookup, e1, e2, e3, e4, e5, e6, e7, e8, e9]

theorem mem_locationHintNames (value : String) :
    value ∈ locationHintNames ↔
      (value = "north" ∨ value = "west" ∨ value = "south" ∨ value = "east" ∨
        value = "center" ∨ value = "northwest" ∨ value = "northeast" ∨ value = "southwest" ∨
        value = "southeast") := by
  simp [locationHintNames]

theorem getLocationHintFromString_unknown_iff (value : String) :
    getLocationHintFromString value = LocationHint.kUnknown ↔ value ∉ locationHintNames := by
  constructor
  · intro hunknown hmem
    rw [mem_locationHintNames] at hmem
    rcases hmem with h | h | h | h | h | h | h | h | h <;> subst h <;> revert hunknown <;> decide
  · intro hmem
    rw [mem_locationHintNames] at hmem
    simp only [not_or] at hmem
    obtain ⟨h1, h2, h3, h4, h5, h6, h7, h8, h9⟩ := hmem
    rw [getLocationHintFromString_eq]
    simp only [h1, h2, h3, h4, h5, h6, h7, h8, h9, if_false]

theorem HintKept.hintKept_refl (s : State) : HintKept s s := ⟨rfl, [], by simp, rfl⟩

theorem HintKept.then_hintKept {s t u : State} (h1 : HintKept s t) (h2 : HintKept t u) :
    HintKept s u := by
  obtain ⟨hm1, a1, hc1, hf1⟩ := h1
  obtain ⟨hm2, a2, hc2, hf2⟩ := h2
  refine ⟨Eq.trans hm2 hm1, a1 ++ a2, by rw [hc2, hc1, List.append_assoc], ?_⟩
  unfold locationHintCalls at *
  rw [List.filterMap_append, hf1, hf2]
  rfl

theorem setWindowProperty_hintKept (K : WebOSKeyMask) (s : State) (name : String)
    (value : QVariant) : HintKept s (WebAppWayland.setWindowProperty K s name value) := by
  simp only [WebAppWayland.setWindowProperty, WebAppWayland.setKeyMaskValue]
  split_ifs <;> simp [HintKept, State.call, locationHintCalls]

theorem initTakeWindow_hintKept (s : State) : HintKept s (initTakeWindow s) := by
  simp only [initTakeWindow, WebAppWaylandWindow.take, WebAppWaylandWindow.construct]
  split_ifs <;> simp [HintKept, locationHintCalls]

theorem initWindowSize_hintKept (s : State) (width height : Int) :
    HintKept s (initWindowSize s width height) := by
  simp only [initWindowSize]
  split_ifs <;> simp [HintKept, State.call, locationHintCalls]

theorem initWindowType_hintKept (K : WebOSKeyMask) (s : State) :
    HintKept s (initWindowType K s) := by
  simp only [initWindowType]
  refine HintKept.then_hintKept ?_ (setWindowProperty_hintKept K _ _ _)
  simp [HintKept, locationHintCalls]

theorem initDisplayAffinity_hintKept (K : WebOSKeyMask) (kUndefinedDisplayId : Int)
    (s : State) : HintKept s (initDisplayAffinity K kUndefinedDisplayId s) := by
  simp only [initDisplayAffinity]
  split_ifs
  · exact setWindowProperty_hintKept K _ _ _
  · exact HintKept.hintKept_refl s

theorem initEnvironment_hintKept (s : State) : HintKept s (initEnvironment s) := by
  simp only [initEnvironment]
  split_ifs <;> simp [HintKept, State.call, locationHintCalls]

/-- The hints `init` passes to `SetLocationHint`: the hint of the location-hint
string if that is not `kUnknown`, and none otherwise. -/
theorem init_locationHintCalls (K : WebOSKeyMask) (kUndefinedDisplayId : Int) (s : State)
    (width height : Int) :
    locationHintCalls (callsSince s (WebAppWayland.init K kUndefinedDisplayId s width height)) =
      if getLocationHintFromString s.m_locationHint ≠ LocationHint.kUnknown then
        [getLocationHintFromString s.m_locationHint]
      else [] := by
  rw [init_eq_statements]
  obtain ⟨hm, a1, hc1, hf1⟩ :=
    (initTakeWindow_hintKept s).then_hintKept
      (initWindowSize_hintKept (initTakeWindow s) width height)
  generalize initWindowSize (initTakeWindow s) width height = u at hm hc1 ⊢
  obtain ⟨_, a2, hc2, hf2⟩ :=
    ((initWindowType_hintKept K (initLocationHint u)).then_hintKept
      (initDisplayAffinity_hintKept K kUndefinedDisplayId _)).then_hintKept
      (initEnvironment_hintKept _)
  have hc3 : (initLocationHint u).calls =
      u.calls ++ (if getLocationHintFromString u.m_locationHint ≠ LocationHint.kUnknown then
        [Call.SetLocationHint (getLocationHintFromString u.m_locationHint)] else []) := by
    simp only [initLocationHint]
    split_ifs <;> simp [State.call]
  unfold callsSince
  rw [hc2, hc3, hc1, hm]
  simp only [List.append_assoc, List.drop_left]
  unfold locationHintCalls at hf1 hf2 ⊢
  rw [List.filterMap_append, List.filterMap_append, hf1, hf2]
  split_ifs <;> simp

theorem mem_locationHintCalls (hint : LocationHint) (calls : List Call) :
    hint ∈ locationHintCalls calls ↔ Call.SetLocationHint hint ∈ calls := by
  unfold locationHintCalls
  rw [List.mem_filterMap]
  constructor
  · rintro ⟨c, hc, hsome⟩
    cases c <;> simp only [Option.some.injEq, reduceCtorEq] at hsome
    subst hsome
    exact hc
  · intro h
    exact ⟨_, h, rfl⟩

/-- C21: `getLocationHintFromString` maps the nine names north, west, south, east,
center, northwest, northeast, southwest and southeast to `kNorth`, `kWest`,
`kSouth`, `kEast`, `kCenter`, `kNorthWest`, `kNorthEast`, `kSouthWest` and
`kSouthEast`; these nine hints are pairwise distinct and none of them is
`kUnknown`; every other string is mapped to `kUnknown`, among them the empty
string and names in another case.  `init` passes the hint of the location-hint
string to the window's `SetLocationHint`, once, if that string is one of the
nine names, and does not call `SetLocationHint` otherwise. -/
theorem C21_getLocationHintFromString_nine_names (K : WebOSKeyMask)
    (kUndefinedDisplayId : Int) (s : State) (width height : Int) :
    (getLocationHintFromString "north" = LocationHint.kNorth ∧
      getLocationHintFromString "west" = LocationHint.kWest ∧
      getLocationHintFromString "south" = LocationHint.kSouth ∧
      getLocationHintFromString "east" = LocationHint.kEast ∧
      getLocationHintFromString "center" = LocationHint.kCenter ∧
      getLocationHintFromString "northwest" = LocationHint.kNorthWest ∧
      getLocationHintFromString "northeast" = LocationHint.kNorthEast ∧
      getLocationHintFromString "southwest" = LocationHint.kSouthWest ∧
      getLocationHintFromString "southeast" = LocationHint.kSouthEast) ∧
    (locationHintNames.map getLocationHintFromString).Nodup ∧
    (∀ value : String,
      getLocationHintFromString value ≠ LocationHint.kUnknown ↔ value ∈ locationHintNames) ∧
    (getLocationHintFromString "" = LocationHint.kUnknown ∧
      getLocationHintFromString "North" = LocationHint.kUnknown ∧
      getLocationHintFromString "NORTH" = LocationHint.kUnknown ∧
      getLocationHintFromString "southEast" = LocationHint.kUnknown ∧
      getLocationHintFromString "north " = LocationHint.kUnknown) ∧
    locationHintCalls (callsSince s (WebAppWayland.init K kUndefinedDisplayId s width height)) =
      (if s.m_locationHint ∈ locationHintNames then
        [getLocationHintFromString s.m_locationHint]
      else []) ∧
    ((∃ hint, Call.SetLocationHint hint ∈
        callsSince s (WebAppWayland.init K kUndefinedDisplayId s width height)) ↔
      s.m_locationHint ∈ locationHintNames) := by
  have hiff : ∀ value : String,
      getLocationHintFromString value ≠ LocationHint.kUnknown ↔ value ∈ locationHintNames := by
    intro value
    rw [ne_eq, getLocationHintFromString_unknown_iff, not_not]
  have hcalls : locationHintCalls
      (callsSince s (WebAppWayland.init K kUndefinedDisplayId s width height)) =
      (if s.m_locationHint ∈ locationHintNames then
        [getLocationHintFromString s.m_locationHint]
      else []) := by
    rw [init_locationHintCalls]
    by_cases hmem : s.m_locationHint ∈ locationHintNames
    · rw [if_pos hmem, if_pos ((hiff _).mpr hmem)]
    · rw [if_neg hmem, if_neg (fun h => hmem ((hiff _).mp h))]
  refine ⟨by decide, by decide, hiff, by decide, hcalls, ?_⟩
  constructor
  · rintro ⟨hint, hmem⟩
    rw [← mem_locationHintCalls, hcalls] at hmem
    by_contra hno
    rw [if_neg hno] at hmem
    cases hmem
  · intro hmem
    refine ⟨getLocationHintFromString s.m_locationHint, ?_⟩
    rw [← mem_locationHintCalls, hcalls, if_pos hmem]
    exact List.mem_singleton_self _

/-- C21, for an app constructed with the location hint "northwest", and for one
constructed with "NorthWest". -/
theorem C21_getLocationHintFromString_nine_names_witness :
    locationHintCalls (callsSince { sampleState with m_locationHint := "northwest" }
      (WebAppWayland.init sampleKeyMask (-1) { sampleState with m_locationHint := "northwest" }
        1920 1080)) = [LocationHint.kNorthWest] ∧
    ¬ (∃ hint, Call.SetLocationHint hint ∈
      callsSince { sampleState with m_locationHint := "NorthWest" }
        (WebAppWayland.init sampleKeyMask (-1)
          { sampleState with m_locationHint := "NorthWest" } 1920 1080)) :=
  ⟨(C21_getLocationHintFromString_nine_names sampleKeyMask (-1)
      { sampleState with m_locationHint := "northwest" } 1920 1080).2.2.2.2.1,
    fun h => absurd
      ((C21_getLocationHintFromString_nine_names sampleKeyMask (-1)
        { sampleState with m_locationHint := "NorthWest" } 1920 1080).2.2.2.2.2.mp h)
      (by decide)⟩

/-! ## The key filter table (C22) -/

theorem toUnsigned_of_unsigned (z : Int) (h0 : 0 ≤ z) (h1 : z < 2 ^ 32) :
    ((toUnsigned z : Nat) : Int) = z := by
  unfold toUnsigned
  rw [Int.emod_eq_of_lt h0 h1]
  exact Int.toNat_of_nonneg h0

/-- C22: on a window that has its web app, for every keycode and every value of
`*modifier`, `CheckKeyFilterTable` returns 0 and leaves `*modifier` as it is when
the key filter table is empty or has no entry for the keycode.  When the table
maps the keycode to the pair `(code, modifierValue)` it returns `code` and
writes `modifierValue` to `*modifier`, each converted to `unsigned int`: the
values themselves when they are values of an `unsigned int`. -/
theorem C22_CheckKeyFilterTable_lookup (keyOf : Nat → Int) (s : State)
    (keycode modifier : Nat) (hweb : s.m_webApp = true) :
    ((s.keyFilterTable = [] ∨ s.keyFilterTable.lookup (keyOf keycode) = none) →
      WebAppWaylandWindow.CheckKeyFilterTable keyOf s keycode modifier = some (0, modifier)) ∧
    (∀ code modifierValue : Int,
      s.keyFilterTable.lookup (keyOf keycode) = some (code, modifierValue) →
      WebAppWaylandWindow.CheckKeyFilterTable keyOf s keycode modifier =
        some (toUnsigned code, toUnsigned modifierValue) ∧
      (0 ≤ code → code < 2 ^ 32 → ((toUnsigned code : Nat) : Int) = code) ∧
      (0 ≤ modifierValue → modifierValue < 2 ^ 32 →
        ((toUnsigned modifierValue : Nat) : Int) = modifierValue)) := by
  constructor
  · rintro (hempty | hnone)
    · simp [WebAppWaylandWindow.CheckKeyFilterTable, hweb, hempty]
    · cases htable : s.keyFilterTable with
      | nil => simp [WebAppWaylandWindow.CheckKeyFilterTable, hweb, htable]
      | cons entry rest =>
        rw [htable] at hnone
        simp [WebAppWaylandWindow.CheckKeyFilterTable, hweb, htable, hnone]
  · intro code modifierValue hfound
    refine ⟨?_, toUnsigned_of_unsigned code, toUnsigned_of_unsigned modifierValue⟩
    cases htable : s.keyFilterTable with
    | nil => rw [htable] at hfound; cases hfound
    | cons entry rest =>
      rw [htable] at hfound
      simp [WebAppWaylandWindow.CheckKeyFilterTable, hweb, htable, hfound]

/-- C22, for the sample table, which maps 404 to (461, 0) and has no entry
for 7. -/
theorem C22_CheckKeyFilterTable_lookup_witness :
    WebAppWaylandWindow.CheckKeyFilterTable (fun keycode => (keycode : Int)) sampleState 7 99 =
      some (0, 99) ∧
    WebAppWaylandWindow.CheckKeyFilterTable (fun keycode => (keycode : Int)) sampleState 404 99 =
      some (461, 0) :=
  ⟨(C22_CheckKeyFilterTable_lookup (fun keycode => (keycode : Int)) sampleState 7 99 rfl).1
      (Or.inr (by decide)),
    ((C22_CheckKeyFilterTable_lookup (fun keycode => (keycode : Int)) sampleState 404 99 rfl).2
      461 0 (by decide)).1⟩

end Wam
